import Mathlib

/-!
# Telemetry and standby-display subsystem of the SHT30 board

A shallow embedding of

* `main/boards/common/sht30_sensor.h` (`SHT30Sensor`),
* `main/sensor_upload.cc` (`SensorDataUploader`),
* `main/boards/bread-compact-wifi-lcd/compact_wifi_board_lcd.cc`
  (`CompactWifiBoardLCD::CheckDeviceState` and the constructor),
* `main/display/standby_screen.cc` (`StandbyScreen`),

followed by the theorems that relate the code to its specification.

Conventions of the embedding.

* A C `char` is a `Char`; a C string is the list of its characters without the
  terminating NUL.  Raw receive buffers may contain NUL characters; the
  functions that walk them stop at the first one, as the C library does.
* The C type `float` is a type parameter `F` with the operations of
  `FloatOps`.  No law is assumed about them, so every theorem that is stated
  for all `F` holds whatever the rounding, NaN and infinity behaviour of the
  platform is.  `B32` is IEEE-754 binary32 with round-to-nearest-even; it is
  the instance at which concrete runs are evaluated.
* Member functions take the object as their first argument and return the
  updated object together with their result; out-parameters are passed in and
  returned.  Calls that leave the modelled state (log lines excepted, which
  are dropped) are recorded as events.
-/

namespace Xiaozhi

/-! ## The C `float` type -/

/-- The operations on C `float` values that the program performs. -/
class FloatOps (F : Type) where
  /-- The constant written as the decimal literal `±m·10^e` with suffix `f`
  (`neg` is the sign). -/
  lit : Bool → Nat → Int → F
  /-- The value that `sscanf`'s `%f` conversion stores for a scanned token. -/
  strtof : List Char → F
  /-- Addition `a + b`. -/
  add : F → F → F
  /-- Subtraction `a - b`. -/
  sub : F → F → F
  /-- The function `std::abs`. -/
  abs : F → F
  /-- The comparison `a < b`. -/
  lt : F → F → Bool
  /-- The function `std::isnan`. -/
  isnan : F → Bool
  /-- The macro `NAN`. -/
  nan : F

/-! ## C strings -/

/-- The terminator of a C string. -/
def NUL : Char := Char.ofNat 0

/-- The line feed `'\n'`. -/
def LF : Char := Char.ofNat 10

/-- The carriage return `'\r'`. -/
def CR : Char := Char.ofNat 13

/-- Does the string `s` start with the characters of `needle`? -/
def beginsWith : List Char → List Char → Bool
  | _, [] => true
  | [], _ :: _ => false
  | c :: cs, n :: ns => c == n && beginsWith cs ns

/-- The C function `strstr(s, needle)`: the rest of `s` from the first
occurrence of `needle` on, `none` for a null result. -/
def strstr : List Char → List Char → Option (List Char)
  | [], needle => if beginsWith [] needle then some [] else none
  | c :: cs, needle =>
    if beginsWith (c :: cs) needle then some (c :: cs) else strstr cs needle

/-- The C function `isspace` in the "C" locale. -/
def isspace (c : Char) : Bool :=
  c == ' ' || c == Char.ofNat 9 || c == Char.ofNat 10 || c == Char.ofNat 11
    || c == Char.ofNat 12 || c == Char.ofNat 13

/-- The C function `isdigit`. -/
def isdigit (c : Char) : Bool :=
  decide ('0'.toNat ≤ c.toNat) && decide (c.toNat ≤ '9'.toNat)

/-- An optional sign character at the head of `s`: the sign and the rest. -/
def takeSign : List Char → List Char × List Char
  | [] => ([], [])
  | c :: r => if c = '+' ∨ c = '-' then ([c], r) else ([], c :: r)

/-- The fraction part `.ddd` at the head of `s`: the part and the rest. -/
def takeFraction : List Char → List Char × List Char
  | [] => ([], [])
  | c :: r =>
    if c = '.' then (c :: r.takeWhile isdigit, r.dropWhile isdigit) else ([], c :: r)

/-- The exponent part `e±ddd` at the head of `s`; an exponent marker without
digits is given back to the input and not part of the token. -/
def takeExponent : List Char → List Char
  | [] => []
  | c :: r =>
    if c = 'e' ∨ c = 'E' then
      let digits := (takeSign r).2.takeWhile isdigit
      if digits = [] then [] else c :: (takeSign r).1 ++ digits
    else []

/-- The C function `tolower` in the "C" locale. -/
def tolower (c : Char) : Char :=
  if 'A'.toNat ≤ c.toNat ∧ c.toNat ≤ 'Z'.toNat then Char.ofNat (c.toNat + 32) else c

/-- Do the first characters of `s` spell the lower-case `word`, the case of
the letters apart? -/
def spells (s word : List Char) : Bool := beginsWith (s.map tolower) word

/-- The spelling of a NaN or of an infinity at the head of `s`, as the `%f`
conversion takes it: `nan`, `infinity` or `inf` in any letter case; `[]` when
there is none.  After `inf` the conversion reads on as long as the characters
spell `infinity` and gives them back when the word stays incomplete. -/
def takeWord (s : List Char) : List Char :=
  if spells s ['n', 'a', 'n'] then s.take 3
  else if spells s ['i', 'n', 'f', 'i', 'n', 'i', 't', 'y'] then s.take 8
  else if spells s ['i', 'n', 'f'] then s.take 3
  else []

/-- The input item that the `%f` conversion of `sscanf` takes from `s`:
white space is skipped, then an optional sign, then either a spelling of NaN
or infinity, or digits with an optional decimal point (at least one digit)
and an optional exponent.  The result is `none` when the conversion fails (no
digit and no complete word, or the string ends first), otherwise the token;
`sscanf` then returns 1 whatever follows the token, because the literal text
after `%f` in the format converts nothing. -/
def scanFloat (s : List Char) : Option (List Char) :=
  let s1 := s.dropWhile isspace
  let sign := (takeSign s1).1
  let s2 := (takeSign s1).2
  if takeWord s2 ≠ [] then some (sign ++ takeWord s2)
  else
    let ip := s2.takeWhile isdigit
    let s3 := s2.dropWhile isdigit
    let fp := (takeFraction s3).1
    let s4 := (takeFraction s3).2
    if ip = [] ∧ fp.length ≤ 1 then none
    else some (sign ++ ip ++ fp ++ takeExponent s4)

/-! ## IEEE-754 binary32 -/

/-- The values of IEEE-754 binary32.  `fin neg m e` is the number
`(-1)^neg * m * 2^e`; the values that occur are in canonical form:
`m < 2^24`, `-149 ≤ e ≤ 104`, and `2^23 ≤ m` unless `e = -149`. -/
inductive B32 where
  | nan
  | inf (neg : Bool)
  | fin (neg : Bool) (m : Nat) (e : Int)
  deriving DecidableEq, Repr

namespace B32

/-- The number of binary digits of `n`, counted with at most `fuel` halvings. -/
def bitLength : Nat → Nat → Nat
  | 0, _ => 0
  | fuel + 1, n => if n = 0 then 0 else bitLength fuel (n / 2) + 1

/-- The integer part of the binary logarithm of a positive `n`. -/
def ilog2 (n : Nat) : Nat := bitLength n n - 1

/-- Is `2^k ≤ num / den`? -/
def geTwoPow (num den : Nat) (k : Int) : Bool :=
  if 0 ≤ k then decide (den * 2 ^ k.toNat ≤ num) else decide (den ≤ num * 2 ^ (-k).toNat)

/-- The binary32 value nearest to `(-1)^neg * num / den`, ties to even;
magnitudes from `2^128 - 2^103` on become infinite. -/
def round (neg : Bool) (num den : Nat) : B32 :=
  if num = 0 ∨ den = 0 then fin neg 0 (-149)
  else
    let k : Int := (ilog2 num : Int) - (ilog2 den : Int)
    let fl : Int := if geTwoPow num den k then k else k - 1
    let e : Int := max (fl - 23) (-149)
    let n : Nat := if e < 0 then num * 2 ^ (-e).toNat else num
    let d : Nat := if e < 0 then den else den * 2 ^ e.toNat
    let q : Nat := n / d
    let r : Nat := n % d
    let m : Nat := if d < 2 * r ∨ (2 * r = d ∧ q % 2 = 1) then q + 1 else q
    let m1 : Nat := if m = 2 ^ 24 then 2 ^ 23 else m
    let e1 : Int := if m = 2 ^ 24 then e + 1 else e
    if 104 < e1 then inf neg else fin neg m1 e1

/-- The finite value `(-1)^neg * m * 2^e` as a multiple of `2^(-149)`. -/
def scaled (neg : Bool) (m : Nat) (e : Int) : Int :=
  let v : Int := ((m * 2 ^ (e + 149).toNat : Nat) : Int)
  if neg then -v else v

/-- Addition, rounded to nearest. -/
def add : B32 → B32 → B32
  | nan, _ => nan
  | _, nan => nan
  | inf a, inf b => if a = b then inf a else nan
  | inf a, fin _ _ _ => inf a
  | fin _ _ _, inf b => inf b
  | fin na ma ea, fin nb mb eb =>
    let z : Int := scaled na ma ea + scaled nb mb eb
    if z = 0 then fin (na && nb) 0 (-149)
    else round (decide (z < 0)) z.natAbs (2 ^ 149)

/-- Negation. -/
def neg : B32 → B32
  | nan => nan
  | inf a => inf (!a)
  | fin a m e => fin (!a) m e

/-- Subtraction, rounded to nearest. -/
def sub (a b : B32) : B32 := add a (neg b)

/-- Absolute value. -/
def abs : B32 → B32
  | nan => nan
  | inf _ => inf false
  | fin _ m e => fin false m e

/-- The comparison `a < b`; false when an operand is NaN. -/
def lt : B32 → B32 → Bool
  | nan, _ => false
  | _, nan => false
  | inf a, inf b => a && !b
  | inf a, fin _ _ _ => a
  | fin _ _ _, inf b => !b
  | fin na ma ea, fin nb mb eb => decide (scaled na ma ea < scaled nb mb eb)

/-- Is the value a NaN? -/
def isnan : B32 → Bool
  | nan => true
  | _ => false

/-- The value of the decimal literal `(-1)^neg * m * 10^e`. -/
def lit (neg : Bool) (m : Nat) (e : Int) : B32 :=
  if 0 ≤ e then round neg (m * 10 ^ e.toNat) 1 else round neg m (10 ^ (-e).toNat)

/-- The number written by a string of decimal digits. -/
def digitsVal (ds : List Char) : Nat :=
  ds.foldl (fun n c => 10 * n + (c.toNat - 48)) 0

/-- The value of a token taken by `scanFloat`: a NaN for a spelling of NaN,
the infinity of the token's sign for a spelling of infinity, and otherwise
the binary32 value nearest to the decimal number that the token writes. -/
def strtof (tok : List Char) : B32 :=
  let sign := (takeSign tok).1
  let s2 := (takeSign tok).2
  if spells s2 ['n', 'a', 'n'] then nan
  else if spells s2 ['i', 'n', 'f'] then inf (decide (sign = ['-']))
  else
    let ip := s2.takeWhile isdigit
    let s3 := s2.dropWhile isdigit
    let fp := (takeFraction s3).1.drop 1
    let ex := (takeFraction s3).2.drop 1
    let ev : Int := (digitsVal (takeSign ex).2 : Int)
    let exp10 : Int := if (takeSign ex).1 = ['-'] then -ev else ev
    lit (decide (sign = ['-'])) (digitsVal (ip ++ fp)) (exp10 - (fp.length : Int))

end B32

instance : FloatOps B32 where
  lit := B32.lit
  strtof := B32.strtof
  add := B32.add
  sub := B32.sub
  abs := B32.abs
  lt := B32.lt
  isnan := B32.isnan
  nan := B32.nan

/-! ## `SHT30Sensor` -/

/-- The data members of `SHT30Sensor` that the member functions read or
write (`uart_port_` and `rx_buffer_size_` are constants of the object). -/
structure SHT30Sensor (F : Type) where
  initialized_ : Bool
  temperature_ : F
  humidity_ : F
  temperature_offset_ : F
  humidity_offset_ : F
  deriving DecidableEq

/-- `SHT30Sensor::ParseData(data, &temperature, &humidity)`: `none` for the
result `false` (the out-parameters are then not written), otherwise the pair
`(*temperature, *humidity)` that it stores. -/
def ParseData {F : Type} [FloatOps F] (s : SHT30Sensor F) (data : List Char) :
    Option (F × F) :=
  match strstr data ['R', ':'] with
  | none => none
  | some rh_pos =>
    match scanFloat (rh_pos.drop 2) with
    | none => none
    | some humidity_tok =>
      match strstr data ['R', 'H', ' '] with
      | none => none
      | some temp_pos =>
        match scanFloat (temp_pos.drop 3) with
        | none => none
        | some temp_tok =>
          some (FloatOps.add (FloatOps.strtof temp_tok) s.temperature_offset_,
                FloatOps.add (FloatOps.strtof humidity_tok) s.humidity_offset_)

/-- The lines that the `while` loop of `ReadData` visits, in order: each
iteration finds the next line feed with `strchr`, which stops at the NUL that
ends the string, so the characters after the last line feed and everything
from the first NUL on are never visited. -/
def bufLines : List Char → List (List Char)
  | [] => []
  | c :: cs =>
    if c = NUL then []
    else if c = LF then [] :: bufLines cs
    else
      match bufLines cs with
      | [] => []
      | l :: ls => (c :: l) :: ls

/-- The C string at `line_start` once the line feed and the first carriage
return of the line have been overwritten with NUL. -/
def trimCR (line : List Char) : List Char :=
  line.takeWhile (fun c => c != CR)

/-- The body of one loop iteration of `ReadData` on the line `line`: the
marker test and `ParseData`; `none` when the line is skipped or not parsed,
otherwise the `(temperature, humidity)` pair written through the pointers. -/
def parseLine {F : Type} [FloatOps F] (s : SHT30Sensor F) (line : List Char) :
    Option (F × F) :=
  let text := trimCR line
  if (strstr text ['R', ':']).isSome ∧ (strstr text ['R', 'H']).isSome
      ∧ (strstr text ['C']).isSome then
    ParseData s text
  else none

/-- The variables that the loop of `ReadData` updates. -/
structure ReadState (F : Type) where
  found : Bool
  temperature : F
  humidity : F
  sensor : SHT30Sensor F
  deriving DecidableEq

/-- One loop iteration of `ReadData`. -/
def readStep {F : Type} [FloatOps F] (st : ReadState F) (line : List Char) :
    ReadState F :=
  match parseLine st.sensor line with
  | none => st
  | some v =>
    { found := true, temperature := v.1, humidity := v.2,
      sensor := { st.sensor with temperature_ := v.1, humidity_ := v.2 } }

/-- The result of `ReadData`: the return value, the contents of the two
out-parameters afterwards, and the object afterwards. -/
structure ReadResult (F : Type) where
  ok : Bool
  temperature : F
  humidity : F
  sensor : SHT30Sensor F
  deriving DecidableEq

/-- `SHT30Sensor::ReadData(&temperature, &humidity)`.  `rx` holds the bytes
that `uart_read_bytes` stored, `[]` when it returned `len <= 0`;
`temperature` and `humidity` are the contents of the out-parameters before
the call. -/
def ReadData {F : Type} [FloatOps F] (s : SHT30Sensor F) (rx : List Char)
    (temperature humidity : F) : ReadResult F :=
  if s.initialized_ = false then
    { ok := false, temperature := temperature, humidity := humidity, sensor := s }
  else if rx = [] then
    { ok := false, temperature := s.temperature_, humidity := s.humidity_, sensor := s }
  else
    let st := (bufLines rx).foldl readStep
      { found := false, temperature := temperature, humidity := humidity, sensor := s }
    if st.found then
      { ok := true, temperature := st.temperature, humidity := st.humidity,
        sensor := st.sensor }
    else
      { ok := false, temperature := st.sensor.temperature_,
        humidity := st.sensor.humidity_, sensor := st.sensor }

/-- `SHT30Sensor::SHT30Sensor(...)`: `uart_ok` tells whether
`uart_driver_install`, `uart_param_config` and `uart_set_pin` all returned
`ESP_OK`; the constructor returns early, leaving `initialized_` false,
otherwise. -/
def SHT30Sensor.construct {F : Type} [FloatOps F] (uart_ok : Bool) : SHT30Sensor F :=
  { initialized_ := uart_ok,
    temperature_ := FloatOps.lit false 0 0,
    humidity_ := FloatOps.lit false 0 0,
    temperature_offset_ := FloatOps.lit false 0 0,
    humidity_offset_ := FloatOps.lit false 0 0 }

/-- `SHT30Sensor::SetTemperatureOffset(offset)`. -/
def SetTemperatureOffset {F : Type} (s : SHT30Sensor F) (offset : F) : SHT30Sensor F :=
  { s with temperature_offset_ := offset }

/-- `SHT30Sensor::SetHumidityOffset(offset)`. -/
def SetHumidityOffset {F : Type} (s : SHT30Sensor F) (offset : F) : SHT30Sensor F :=
  { s with humidity_offset_ := offset }

/-- `SHT30Sensor::GetTemperature()`: the returned value and the object
afterwards; `temp` and `hum` are the indeterminate initial contents of the two
locals. -/
def GetTemperature {F : Type} [FloatOps F] (s : SHT30Sensor F) (rx : List Char)
    (temp hum : F) : F × SHT30Sensor F :=
  let r := ReadData s rx temp hum
  if r.ok then (r.temperature, r.sensor) else (r.sensor.temperature_, r.sensor)

/-- `SHT30Sensor::GetHumidity()`, as `GetTemperature`. -/
def GetHumidity {F : Type} [FloatOps F] (s : SHT30Sensor F) (rx : List Char)
    (temp hum : F) : F × SHT30Sensor F :=
  let r := ReadData s rx temp hum
  if r.ok then (r.humidity, r.sensor) else (r.sensor.humidity_, r.sensor)

/-! ## `SensorDataUploader` -/

/-- The data members of `SensorDataUploader`.  A `std::function` is its
target's identity, `none` when it is empty. -/
structure SensorDataUploader (F : Type) where
  upload_url_ : List Char
  api_key_ : List Char
  device_id_ : List Char
  upload_interval_seconds_ : Int
  is_running_ : Bool
  callback_ : Option Nat
  last_temperature_ : F
  last_humidity_ : F
  has_last_data_ : Bool
  deriving DecidableEq

/-- What the platform answers during one call of `UploadSensorData`. -/
structure UploadEnv where
  /-- Did `cJSON_CreateObject` return an object? -/
  cjson_create_ok : Bool
  /-- Did `cJSON_PrintUnformatted` return a string? -/
  cjson_print_ok : Bool
  /-- The value of `esp_timer_get_time()`. -/
  now_us : Int
  /-- The result of `esp_http_client_perform`; `ESP_OK` is 0. -/
  err : Int
  /-- The text of `esp_err_to_name(err)`. -/
  err_name : List Char
  /-- The result of `esp_http_client_get_status_code`. -/
  status_code : Int
  deriving DecidableEq

/-- The string returned by `BuildJson`: empty, or the unformatted print of an
object with the listed members. -/
inductive JsonText (F : Type) where
  | empty
  | object (device_id : Option (List Char)) (temperature humidity : F) (timestamp : Int)
  deriving DecidableEq

/-- The request handed to `esp_http_client_perform`. -/
structure HttpRequest (F : Type) where
  url : List Char
  timeout_ms : Nat
  user_agent : Option (List Char)
  content_type : List Char
  authorization : Option (List Char)
  post_field : JsonText F
  deriving DecidableEq

/-- What a call of `UploadSensorData` does besides changing the object. -/
inductive UploadEvent (F : Type) where
  /-- `BuildJson` was called and returned this text. -/
  | buildJson (json : JsonText F)
  /-- `esp_http_client_perform` was called with this request. -/
  | httpPerform (request : HttpRequest F)
  /-- The callback with this identity was invoked with these arguments. -/
  | callback (target : Nat) (success : Bool) (message : List Char)
  deriving DecidableEq

/-- The statement `if (callback) callback(success, message);`. -/
def invoke {F : Type} (callback : Option Nat) (success : Bool) (message : List Char) :
    List (UploadEvent F) :=
  match callback with
  | none => []
  | some target => [UploadEvent.callback target success message]

/-- `SensorDataUploader::SensorDataUploader()`. -/
def SensorDataUploader.construct {F : Type} [FloatOps F] : SensorDataUploader F :=
  { upload_url_ := [], api_key_ := [], device_id_ := [],
    upload_interval_seconds_ := 300, is_running_ := false, callback_ := none,
    last_temperature_ := FloatOps.lit false 0 0,
    last_humidity_ := FloatOps.lit false 0 0,
    has_last_data_ := false }

/-- `SensorDataUploader::SetUploadUrl(url)`. -/
def SetUploadUrl {F : Type} (u : SensorDataUploader F) (url : List Char) :
    SensorDataUploader F :=
  { u with upload_url_ := url }

/-- `SensorDataUploader::SetApiKey(api_key)`. -/
def SetApiKey {F : Type} (u : SensorDataUploader F) (api_key : List Char) :
    SensorDataUploader F :=
  { u with api_key_ := api_key }

/-- `SensorDataUploader::SetDeviceId(device_id)`. -/
def SetDeviceId {F : Type} (u : SensorDataUploader F) (device_id : List Char) :
    SensorDataUploader F :=
  { u with device_id_ := device_id }

/-- `SensorDataUploader::SetUploadCallback(callback)`. -/
def SetUploadCallback {F : Type} (u : SensorDataUploader F) (callback : Option Nat) :
    SensorDataUploader F :=
  { u with callback_ := callback }

/-- `SensorDataUploader::BuildJson(temperature, humidity)`. -/
def BuildJson {F : Type} (u : SensorDataUploader F) (env : UploadEnv)
    (temperature humidity : F) : JsonText F :=
  if env.cjson_create_ok = false then JsonText.empty
  else if env.cjson_print_ok = false then JsonText.empty
  else
    JsonText.object (if u.device_id_ = [] then none else some u.device_id_)
      temperature humidity (Int.tdiv env.now_us 1000)

/-- The text that `snprintf(buffer, 256, ...)` leaves in the buffer. -/
def snprintf256 (text : List Char) : List Char := text.take 255

/-- `SensorDataUploader::PostData(json_data, callback)`: the return value and
the events. -/
def PostData {F : Type} (u : SensorDataUploader F) (env : UploadEnv)
    (json_data : JsonText F) (callback : Option Nat) : Bool × List (UploadEvent F) :=
  if u.upload_url_ = [] then
    (false, invoke callback false "Upload URL not configured".toList)
  else
    let auth_header := snprintf256 ("Bearer ".toList ++ u.api_key_)
    let request : HttpRequest F :=
      { url := u.upload_url_, timeout_ms := 2000,
        user_agent := if u.api_key_ = [] then none else some auth_header,
        content_type := "application/json".toList,
        authorization := if u.api_key_ = [] then none else some auth_header,
        post_field := json_data }
    let success : Bool := decide (env.err = 0)
    let message : List Char :=
      if success then
        snprintf256 ("Upload success, HTTP ".toList ++ (toString env.status_code).toList)
      else snprintf256 ("Upload failed: ".toList ++ env.err_name)
    (success, UploadEvent.httpPerform request :: invoke callback success message)

/-- The result of `UploadSensorData`: the return value, the object afterwards
and the events in order. -/
structure UploadResult (F : Type) where
  ret : Bool
  uploader : SensorDataUploader F
  events : List (UploadEvent F)
  deriving DecidableEq

/-- The deduplication test of `UploadSensorData`. -/
def unchanged {F : Type} [FloatOps F] (u : SensorDataUploader F)
    (temperature humidity : F) : Bool :=
  u.has_last_data_
    && FloatOps.lt (FloatOps.abs (FloatOps.sub temperature u.last_temperature_))
        (FloatOps.lit false 1 (-1) : F)
    && FloatOps.lt (FloatOps.abs (FloatOps.sub humidity u.last_humidity_))
        (FloatOps.lit false 10 (-1) : F)

/-- `SensorDataUploader::UploadSensorData(temperature, humidity, callback)`
as defined in `sensor_upload.cc`. -/
def UploadSensorData {F : Type} [FloatOps F] (u : SensorDataUploader F)
    (env : UploadEnv) (temperature humidity : F) (callback : Option Nat) :
    UploadResult F :=
  if FloatOps.isnan temperature || FloatOps.isnan humidity then
    { ret := false, uploader := u,
      events := invoke callback false "Invalid sensor data".toList }
  else if unchanged u temperature humidity then
    { ret := true, uploader := u,
      events := invoke callback true "Data unchanged".toList }
  else
    let json_data := BuildJson u env temperature humidity
    let posted := PostData u env json_data callback
    { ret := posted.1,
      uploader :=
        if posted.1 then
          { u with last_temperature_ := temperature, last_humidity_ := humidity,
                   has_last_data_ := true }
        else u,
      events := UploadEvent.buildJson json_data :: posted.2 }

/-! ## `CompactWifiBoardLCD` -/

/-- Modelled from the spec: the enumeration `DeviceState` of `device_state.h`,
which is not among the sources.  The enumerators are the ones the
specification lists and `CheckDeviceState` names; `other raw` is a value of
the enumeration type that is none of them. -/
inductive DeviceState where
  | kDeviceStateUnknown
  | kDeviceStateStarting
  | kDeviceStateWifiConfiguring
  | kDeviceStateIdle
  | kDeviceStateConnecting
  | kDeviceStateListening
  | kDeviceStateSpeaking
  | kDeviceStateUpgrading
  | kDeviceStateActivating
  | kDeviceStateAudioTesting
  | kDeviceStateFatalError
  | other (raw : Nat)
  deriving DecidableEq, Repr

/-- The calls that `CheckDeviceState` makes on `display_` and
`sensor_uploader_`, and what the uploader does inside its call. -/
inductive BoardEvent (F : Type) where
  /-- The call `display_->ShowStandbyScreen()`. -/
  | ShowStandbyScreen
  /-- The call `display_->HideStandbyScreen()`. -/
  | HideStandbyScreen
  /-- The call `display_->UpdateStandbyTemperatureHumidity(temperature, humidity)`. -/
  | UpdateStandbyTemperatureHumidity (temperature humidity : F)
  /-- The call `sensor_uploader_->UploadSensorData(temperature, humidity, callback)`. -/
  | UploadSensorData (temperature humidity : F) (callback : Option Nat)
  /-- An event of the uploader during that call. -/
  | uploader (event : UploadEvent F)

/-- The data members of `CompactWifiBoardLCD` that `CheckDeviceState` uses.
`display_` tells whether the pointer is non-null; the two other pointers are
`none` when null. -/
structure CompactWifiBoardLCD (F : Type) where
  display_ : Bool
  sht30_sensor_ : Option (SHT30Sensor F)
  sensor_uploader_ : Option (SensorDataUploader F)
  last_device_state_ : DeviceState
  upload_counter_ : Int

/-- What one run of `CheckDeviceState` reads from outside the object. -/
structure Tick (F : Type) where
  /-- The value of `Application::GetInstance().GetDeviceState()`. -/
  current_state : DeviceState
  /-- The bytes that `uart_read_bytes` stores if `ReadData` is called. -/
  rx : List Char
  /-- The indeterminate initial contents of the locals `temp` and `humi`. -/
  temp : F
  humi : F
  /-- The answers of the platform if `UploadSensorData` is called. -/
  env : UploadEnv

/-- The `switch (current_state)` of `CheckDeviceState`. -/
def switchState {F : Type} (display_ : Bool) : DeviceState → List (BoardEvent F)
  | DeviceState.kDeviceStateIdle =>
    if display_ then [BoardEvent.ShowStandbyScreen] else []
  | DeviceState.kDeviceStateListening =>
    if display_ then [BoardEvent.HideStandbyScreen] else []
  | DeviceState.kDeviceStateSpeaking =>
    if display_ then [BoardEvent.HideStandbyScreen] else []
  | DeviceState.kDeviceStateWifiConfiguring =>
    if display_ then [BoardEvent.HideStandbyScreen] else []
  | DeviceState.kDeviceStateConnecting =>
    if display_ then [BoardEvent.HideStandbyScreen] else []
  | DeviceState.kDeviceStateActivating =>
    if display_ then [BoardEvent.HideStandbyScreen] else []
  | DeviceState.kDeviceStateUpgrading =>
    if display_ then [BoardEvent.HideStandbyScreen] else []
  | DeviceState.kDeviceStateAudioTesting =>
    if display_ then [BoardEvent.HideStandbyScreen] else []
  | DeviceState.kDeviceStateStarting => []
  | DeviceState.kDeviceStateFatalError => []
  | _ => if display_ then [BoardEvent.ShowStandbyScreen] else []

/-- The first part of `CheckDeviceState`: the state-change test. -/
def checkTransition {F : Type} (b : CompactWifiBoardLCD F) (current_state : DeviceState) :
    CompactWifiBoardLCD F × List (BoardEvent F) :=
  if current_state ≠ b.last_device_state_ then
    ({ b with last_device_state_ := current_state }, switchState b.display_ current_state)
  else (b, [])

/-- The second part of `CheckDeviceState`: the sensor poll and the upload
counter. -/
def pollSensor {F : Type} [FloatOps F] (b : CompactWifiBoardLCD F) (tk : Tick F) :
    CompactWifiBoardLCD F × List (BoardEvent F) :=
  if b.display_ then
    match b.sht30_sensor_ with
    | none =>
      (b, [BoardEvent.UpdateStandbyTemperatureHumidity FloatOps.nan FloatOps.nan])
    | some sensor =>
      if sensor.initialized_ then
        let r := ReadData sensor tk.rx tk.temp tk.humi
        if r.ok then
          let shown : List (BoardEvent F) :=
            [BoardEvent.UpdateStandbyTemperatureHumidity r.temperature r.humidity]
          let counter := b.upload_counter_ + 1
          if 60 ≤ counter then
            match b.sensor_uploader_ with
            | some u =>
              let up := UploadSensorData u tk.env r.temperature r.humidity none
              ({ b with sht30_sensor_ := some r.sensor, sensor_uploader_ := some up.uploader,
                        upload_counter_ := 0 },
               shown ++ BoardEvent.UploadSensorData r.temperature r.humidity none
                 :: up.events.map BoardEvent.uploader)
            | none =>
              ({ b with sht30_sensor_ := some r.sensor, upload_counter_ := 0 }, shown)
          else
            ({ b with sht30_sensor_ := some r.sensor, upload_counter_ := counter }, shown)
        else
          ({ b with sht30_sensor_ := some r.sensor },
           [BoardEvent.UpdateStandbyTemperatureHumidity FloatOps.nan FloatOps.nan])
      else
        (b, [BoardEvent.UpdateStandbyTemperatureHumidity FloatOps.nan FloatOps.nan])
  else (b, [])

/-- `CompactWifiBoardLCD::CheckDeviceState()`: the object afterwards and the
events in order. -/
def CheckDeviceState {F : Type} [FloatOps F] (b : CompactWifiBoardLCD F) (tk : Tick F) :
    CompactWifiBoardLCD F × List (BoardEvent F) :=
  let changed := checkTransition b tk.current_state
  let polled := pollSensor changed.1 tk
  (polled.1, changed.2 ++ polled.2)

/-- `CompactWifiBoardLCD::InitializeSensorUploader()`: the uploader it
creates; `logger` is the identity of the lambda given to `SetUploadCallback`. -/
def InitializeSensorUploader {F : Type} [FloatOps F] (logger : Nat) : SensorDataUploader F :=
  SetUploadCallback
    (SetDeviceId
      (SetApiKey
        (SetUploadUrl SensorDataUploader.construct
          "http://175.178.158.54:7791/update".toList)
        [])
      "pcroom-esp32".toList)
    (some logger)

/-- `CompactWifiBoardLCD::CompactWifiBoardLCD()`: the member initialisers, then
`InitializeLcdDisplay` (which stores a new display or aborts), then
`InitializeTools`, which creates the sensor and, when it is initialised, sets
its temperature offset to `-1.0f` and creates the uploader.  The result is the
object when the constructor returns; its last statement shows the standby
screen and changes no member. -/
def CompactWifiBoardLCD.construct {F : Type} [FloatOps F] (uart_ok : Bool) (logger : Nat) :
    CompactWifiBoardLCD F :=
  let sensor : SHT30Sensor F := SHT30Sensor.construct uart_ok
  let calibrated : SHT30Sensor F :=
    if sensor.initialized_ then SetTemperatureOffset sensor (FloatOps.lit true 10 (-1))
    else sensor
  let uploader : Option (SensorDataUploader F) :=
    if sensor.initialized_ then some (InitializeSensorUploader logger) else none
  { display_ := true,
    sht30_sensor_ := some calibrated,
    sensor_uploader_ := uploader,
    last_device_state_ := DeviceState.kDeviceStateUnknown,
    upload_counter_ := 0 }

/-- The tool `sensor.read_temperature_humidity` registered by
`InitializeTools`: `GetTemperature()` followed by `GetHumidity()`, each with
its own read of the serial port. -/
def readTool {F : Type} [FloatOps F] (b : CompactWifiBoardLCD F)
    (rx1 rx2 : List Char) (t1 h1 t2 h2 : F) : CompactWifiBoardLCD F :=
  match b.sht30_sensor_ with
  | none => b
  | some sensor =>
    let first := GetTemperature sensor rx1 t1 h1
    let second := GetHumidity first.2 rx2 t2 h2
    { b with sht30_sensor_ := some second.2 }

/-- The states of the board object after construction: `CheckDeviceState`
runs once a second from the monitor timer, and the registered tool may run in
between; each run is taken as one step. -/
inductive Reachable {F : Type} [FloatOps F] : CompactWifiBoardLCD F → Prop where
  | construct (uart_ok : Bool) (logger : Nat) :
      Reachable (CompactWifiBoardLCD.construct uart_ok logger)
  | tick (b : CompactWifiBoardLCD F) (tk : Tick F) :
      Reachable b → Reachable (CheckDeviceState b tk).1
  | tool (b : CompactWifiBoardLCD F) (rx1 rx2 : List Char) (t1 h1 t2 h2 : F) :
      Reachable b → Reachable (readTool b rx1 rx2 t1 h1 t2 h2)

/-- The object and the events, tick by tick, of a run of `CheckDeviceState`
over the inputs `tks`. -/
def runTicks {F : Type} [FloatOps F] (b : CompactWifiBoardLCD F) :
    List (Tick F) → CompactWifiBoardLCD F × List (List (BoardEvent F))
  | [] => (b, [])
  | tk :: tks =>
    let step := CheckDeviceState b tk
    let rest := runTicks step.1 tks
    (rest.1, step.2 :: rest.2)

/-! ## The wire format and the text of a buffer -/

/-- The characters of a raw buffer that form its C string: those before the
first NUL. -/
def cstr (s : List Char) : List Char := s.takeWhile (fun c => c != NUL)

/-- The line-feed-terminated lines of a buffer, in order, without their line
feeds. -/
def splitLF : List Char → List (List Char)
  | [] => []
  | c :: cs =>
    if c = LF then [] :: splitLF cs
    else
      match splitLF cs with
      | [] => []
      | l :: ls => (c :: l) :: ls

/-- A decimal number with one fractional digit, as text: an optional minus
sign, the digits `ds` of the integer part, the point and the digit `d`. -/
def decimal1 (minus : Bool) (ds : List Char) (d : Char) : List Char :=
  (if minus then ['-'] else []) ++ (ds ++ ['.', d])

/-- A line of the wire format, `R:<h>RH <t>C`, without its line feed. -/
def wireLine (h t : List Char) : List Char :=
  'R' :: ':' :: (h ++ ('R' :: 'H' :: ' ' :: (t ++ ['C'])))

/-- The sensor object with the pair `v = (temperature, humidity)` stored in
its cache. -/
def cached {F : Type} (s : SHT30Sensor F) (v : F × F) : SHT30Sensor F :=
  { s with temperature_ := v.1, humidity_ := v.2 }

/-- The lines of `lines` on which the loop body of `ReadData` obtains a
reading. -/
def parsedLines {F : Type} [FloatOps F] (s : SHT30Sensor F) (lines : List (List Char)) :
    List (List Char) :=
  lines.filter (fun line => (parseLine s line).isSome)

/-- The sensor of the board after construction with a working serial port, on
binary32: initialised, cache `(0, 0)`, temperature offset `-1.0f`. -/
def boardSensor : SHT30Sensor B32 :=
  SetTemperatureOffset (SHT30Sensor.construct true) (B32.lit true 10 (-1))

/-- A receive buffer with a NUL byte between two valid lines. -/
def nulBuffer : List Char :=
  "R:039.2RH 023.3C\n".toList ++ NUL :: LF :: "R:041.0RH 025.0C\n".toList

/-- Is the event a call of `esp_http_client_perform`, a network attempt? -/
def UploadEvent.isHttpPerform {F : Type} : UploadEvent F → Bool
  | UploadEvent.httpPerform _ => true
  | _ => false

/-- Did the call attempt the network? -/
def attemptsNetwork {F : Type} (events : List (UploadEvent F)) : Bool :=
  events.any UploadEvent.isHttpPerform

/-- The answers of a platform on which the request completes with the given
HTTP status. -/
def completes (status_code : Int) : UploadEnv :=
  { cjson_create_ok := true, cjson_print_ok := true, now_us := 61000000, err := 0,
    err_name := "ESP_OK".toList, status_code := status_code }

/-- The answers of a platform on which the request fails at transport level
(`ESP_ERR_HTTP_CONNECT`). -/
def refuses : UploadEnv :=
  { cjson_create_ok := true, cjson_print_ok := true, now_us := 61000000, err := 28674,
    err_name := "ESP_ERR_HTTP_CONNECT".toList, status_code := 0 }

/-- The uploader of the board, on binary32, before any upload. -/
def boardUploader : SensorDataUploader B32 := InitializeSensorUploader 1

/-- The uploader of the board after a successful upload of `(20.0, 50.0)`. -/
def uploaded2050 : SensorDataUploader B32 :=
  (UploadSensorData boardUploader (completes 200) (B32.lit false 200 (-1))
    (B32.lit false 500 (-1)) none).uploader

/-! ## The coordinator: observations on its events -/

/-- Is the event a visibility action, a show or a hide of the standby screen? -/
def BoardEvent.isVisibility {F : Type} : BoardEvent F → Bool
  | BoardEvent.ShowStandbyScreen => true
  | BoardEvent.HideStandbyScreen => true
  | _ => false

/-- Is the event a call of `UploadSensorData`? -/
def BoardEvent.isUploadCall {F : Type} : BoardEvent F → Bool
  | BoardEvent.UploadSensorData _ _ _ => true
  | _ => false

/-- Is the event a push of a reading to the standby screen? -/
def BoardEvent.isDisplayUpdate {F : Type} : BoardEvent F → Bool
  | BoardEvent.UpdateStandbyTemperatureHumidity _ _ => true
  | _ => false

/-- The transition table of the specification: the display action for the
newly observed state. -/
def transitionTable {F : Type} : DeviceState → List (BoardEvent F)
  | DeviceState.kDeviceStateIdle => [BoardEvent.ShowStandbyScreen]
  | DeviceState.kDeviceStateListening => [BoardEvent.HideStandbyScreen]
  | DeviceState.kDeviceStateSpeaking => [BoardEvent.HideStandbyScreen]
  | DeviceState.kDeviceStateWifiConfiguring => [BoardEvent.HideStandbyScreen]
  | DeviceState.kDeviceStateConnecting => [BoardEvent.HideStandbyScreen]
  | DeviceState.kDeviceStateActivating => [BoardEvent.HideStandbyScreen]
  | DeviceState.kDeviceStateUpgrading => [BoardEvent.HideStandbyScreen]
  | DeviceState.kDeviceStateAudioTesting => [BoardEvent.HideStandbyScreen]
  | DeviceState.kDeviceStateStarting => []
  | DeviceState.kDeviceStateFatalError => []
  | DeviceState.kDeviceStateUnknown => [BoardEvent.ShowStandbyScreen]
  | DeviceState.other _ => [BoardEvent.ShowStandbyScreen]

/-- Does the sensor read of the tick `tk`, run in the state `b`, succeed: is
`ReadData` reached and does it return `true`? -/
def tickReadOk {F : Type} [FloatOps F] (b : CompactWifiBoardLCD F) (tk : Tick F) : Bool :=
  b.display_ &&
    match b.sht30_sensor_ with
    | none => false
    | some sensor => sensor.initialized_ && (ReadData sensor tk.rx tk.temp tk.humi).ok

/-- Does the sensor read succeed in every tick of the run of `tks` from `b`? -/
def allReadsOk {F : Type} [FloatOps F] (b : CompactWifiBoardLCD F) : List (Tick F) → Bool
  | [] => true
  | tk :: tks => tickReadOk b tk && allReadsOk (CheckDeviceState b tk).1 tks

/-- The invariant of the board object. -/
def BoardInv {F : Type} (b : CompactWifiBoardLCD F) : Prop :=
  b.display_ = true ∧ 0 ≤ b.upload_counter_ ∧ b.upload_counter_ ≤ 59
    ∧ ∃ sensor, b.sht30_sensor_ = some sensor
        ∧ (sensor.initialized_ = true → ∃ u, b.sensor_uploader_ = some u)

/-- The board on binary32 after construction with a working serial port. -/
def board : CompactWifiBoardLCD B32 := CompactWifiBoardLCD.construct true 1

/-- A tick that observes `current_state` while the sensor delivers the line
`R:039.2RH 023.3C` and the collector answers with status 200. -/
def goodTick (current_state : DeviceState) : Tick B32 :=
  { current_state := current_state, rx := "R:039.2RH 023.3C\n".toList,
    temp := B32.nan, humi := B32.nan, env := completes 200 }

/-- The visibility actions of a run, tick after tick. -/
def visibilityActions {F : Type} : List (List (BoardEvent F)) → List (BoardEvent F)
  | [] => []
  | events :: rest => events.filter BoardEvent.isVisibility ++ visibilityActions rest

/-- Does the tick with these events call `UploadSensorData`? -/
def callsUpload {F : Type} (events : List (BoardEvent F)) : Bool :=
  events.any BoardEvent.isUploadCall

/-! ## Calibration and the calls on a sensor -/

/-- `SHT30Sensor::IsInitialized()`. -/
def IsInitialized {F : Type} (s : SHT30Sensor F) : Bool := s.initialized_

/-- `SHT30Sensor::CalibrateTemperature(actual_temp)`: the object afterwards.
`rx`, `temp` and `hum` are what the `GetTemperature()` inside reads. -/
def CalibrateTemperature {F : Type} [FloatOps F] (s : SHT30Sensor F) (rx : List Char)
    (temp hum : F) (actual_temp : F) : SHT30Sensor F :=
  let current := GetTemperature s rx temp hum
  { current.2 with temperature_offset_ := FloatOps.sub actual_temp current.1 }

/-- `SHT30Sensor::CalibrateHumidity(actual_humidity)`, as
`CalibrateTemperature`. -/
def CalibrateHumidity {F : Type} [FloatOps F] (s : SHT30Sensor F) (rx : List Char)
    (temp hum : F) (actual_humidity : F) : SHT30Sensor F :=
  let current := GetHumidity s rx temp hum
  { current.2 with humidity_offset_ := FloatOps.sub actual_humidity current.1 }

/-- A call of a public member function of `SHT30Sensor` that may change the
object, with what it reads from outside. -/
inductive SensorCall (F : Type) where
  | ReadData (rx : List Char) (temperature humidity : F)
  | GetTemperature (rx : List Char) (temp hum : F)
  | GetHumidity (rx : List Char) (temp hum : F)
  | GetJsonData (rx : List Char) (temp hum : F)
  | SetTemperatureOffset (offset : F)
  | SetHumidityOffset (offset : F)
  | CalibrateTemperature (rx : List Char) (temp hum : F) (actual_temp : F)
  | CalibrateHumidity (rx : List Char) (temp hum : F) (actual_humidity : F)

/-- The object after the call. -/
def SensorCall.run {F : Type} [FloatOps F] (s : SHT30Sensor F) : SensorCall F → SHT30Sensor F
  | SensorCall.ReadData rx temperature humidity =>
    (Xiaozhi.ReadData s rx temperature humidity).sensor
  | SensorCall.GetTemperature rx temp hum => (Xiaozhi.GetTemperature s rx temp hum).2
  | SensorCall.GetHumidity rx temp hum => (Xiaozhi.GetHumidity s rx temp hum).2
  | SensorCall.GetJsonData rx temp hum => (Xiaozhi.ReadData s rx temp hum).sensor
  | SensorCall.SetTemperatureOffset offset => Xiaozhi.SetTemperatureOffset s offset
  | SensorCall.SetHumidityOffset offset => Xiaozhi.SetHumidityOffset s offset
  | SensorCall.CalibrateTemperature rx temp hum actual_temp =>
    Xiaozhi.CalibrateTemperature s rx temp hum actual_temp
  | SensorCall.CalibrateHumidity rx temp hum actual_humidity =>
    Xiaozhi.CalibrateHumidity s rx temp hum actual_humidity

/-- The severity of a log line. -/
inductive LogLevel where
  | verbose
  | info
  | warning
  deriving DecidableEq, Repr

/-- The log line that `ReadData` writes before it returns, with its severity;
`none` when it writes nothing (the sensor is not initialised).  The text of
the `ESP_LOGI` line is its format string. -/
def readLog {F : Type} [FloatOps F] (s : SHT30Sensor F) (rx : List Char)
    (temperature humidity : F) : Option (LogLevel × List Char) :=
  if s.initialized_ = false then none
  else if rx = [] then
    some (LogLevel.verbose, "No new data available, using cached values".toList)
  else if (ReadData s rx temperature humidity).ok then
    some (LogLevel.info, "Temperature: %.2f°C, Humidity: %.2f%%".toList)
  else some (LogLevel.warning, "No valid data found in buffer".toList)

/-- The sensor of a board whose serial port could not be set up, on binary32. -/
def deadSensor : SHT30Sensor B32 := SHT30Sensor.construct false

/-- The number of ticks of the run of `tks` from `b` whose sensor read
succeeds. -/
def countReadsOk {F : Type} [FloatOps F] (b : CompactWifiBoardLCD F) : List (Tick F) → Nat
  | [] => 0
  | tk :: tks =>
    (if tickReadOk b tk then 1 else 0) + countReadsOk (CheckDeviceState b tk).1 tks

/-- A tick in which the serial port delivers nothing. -/
def silentTick (current_state : DeviceState) : Tick B32 :=
  { current_state := current_state, rx := [],
    temp := B32.nan, humi := B32.nan, env := completes 200 }

/-! ## More of the C `float` type, for the renderer -/

/-- The further operations on C `float` values that the standby screen
performs. -/
class FloatRender (F : Type) extends FloatOps F where
  /-- Multiplication `a * b`. -/
  mul : F → F → F
  /-- Division `a / b`. -/
  div : F → F → F
  /-- The comparison `a <= b`. -/
  le : F → F → Bool
  /-- The conversion of an `int` to `float`. -/
  ofInt : Int → F
  /-- The conversion of a `float` to `uint8_t`: the value with its fraction
  cut off.  C defines it for values from 0 to 255.  -/
  toUInt8 : F → Nat
  /-- The text that `printf` writes for the conversion `%.1f`. -/
  format1 : F → List Char

namespace B32

/-- Multiplication, rounded to nearest. -/
def mul : B32 → B32 → B32
  | nan, _ => nan
  | _, nan => nan
  | inf a, inf b => inf (a != b)
  | inf a, fin b m _ => if m = 0 then nan else inf (a != b)
  | fin a m _, inf b => if m = 0 then nan else inf (a != b)
  | fin a ma ea, fin b mb eb =>
    if 0 ≤ ea + eb then round (a != b) (ma * mb * 2 ^ (ea + eb).toNat) 1
    else round (a != b) (ma * mb) (2 ^ (-(ea + eb)).toNat)

/-- Division, rounded to nearest. -/
def div : B32 → B32 → B32
  | nan, _ => nan
  | _, nan => nan
  | inf _, inf _ => nan
  | inf a, fin b _ _ => inf (a != b)
  | fin a _ _, inf b => fin (a != b) 0 (-149)
  | fin a ma ea, fin b mb eb =>
    if mb = 0 then (if ma = 0 then nan else inf (a != b))
    else if 0 ≤ ea - eb then round (a != b) (ma * 2 ^ (ea - eb).toNat) mb
    else round (a != b) ma (mb * 2 ^ (-(ea - eb)).toNat)

/-- The comparison `a <= b`; false when an operand is NaN. -/
def le : B32 → B32 → Bool
  | nan, _ => false
  | _, nan => false
  | inf a, inf b => a || !b
  | inf a, fin _ _ _ => a
  | fin _ _ _, inf b => !b
  | fin na ma ea, fin nb mb eb => decide (scaled na ma ea ≤ scaled nb mb eb)

/-- The binary32 value nearest to an integer. -/
def ofInt (i : Int) : B32 := round (decide (i < 0)) i.natAbs 1

/-- The integer part of the magnitude of a finite value. -/
def magnitude (m : Nat) (e : Int) : Nat :=
  if 0 ≤ e then m * 2 ^ e.toNat else m / 2 ^ (-e).toNat

/-- The conversion to `uint8_t`: the integer part for values from 0 to 255;
outside that range, where C leaves the result open, the integer part modulo
256, and 0 for infinities and NaN. -/
def toUInt8 : B32 → Nat
  | nan => 0
  | inf _ => 0
  | fin neg m e =>
    if neg then (256 - magnitude m e % 256) % 256 else magnitude m e % 256

/-- The number of tenths nearest to the magnitude `m * 2^e`, ties to even. -/
def tenths (m : Nat) (e : Int) : Nat :=
  let n : Nat := if 0 ≤ e then 10 * m * 2 ^ e.toNat else 10 * m
  let d : Nat := if 0 ≤ e then 1 else 2 ^ (-e).toNat
  let q : Nat := n / d
  let r : Nat := n % d
  if d < 2 * r ∨ (2 * r = d ∧ q % 2 = 1) then q + 1 else q

/-- The text of `%.1f`. -/
def format1 : B32 → List Char
  | nan => ['n', 'a', 'n']
  | inf neg => (if neg then ['-'] else []) ++ ['i', 'n', 'f']
  | fin neg m e =>
    (if neg then ['-'] else []) ++ Nat.toDigits 10 (tenths m e / 10)
      ++ '.' :: Nat.toDigits 10 (tenths m e % 10)

end B32

instance : FloatRender B32 where
  mul := B32.mul
  div := B32.div
  le := B32.le
  ofInt := B32.ofInt
  toUInt8 := B32.toUInt8
  format1 := B32.format1

/-! ## `StandbyScreen` -/

/-- The bytes of the UTF-8 encoding of a character, as C `char`s. -/
def utf8 (c : Char) : List Char :=
  if c.toNat < 128 then [c]
  else if c.toNat < 2048 then
    [Char.ofNat (192 + c.toNat / 64), Char.ofNat (128 + c.toNat % 64)]
  else if c.toNat < 65536 then
    [Char.ofNat (224 + c.toNat / 4096), Char.ofNat (128 + c.toNat / 64 % 64),
     Char.ofNat (128 + c.toNat % 64)]
  else
    [Char.ofNat (240 + c.toNat / 262144), Char.ofNat (128 + c.toNat / 4096 % 64),
     Char.ofNat (128 + c.toNat / 64 % 64), Char.ofNat (128 + c.toNat % 64)]

/-- The C string of a string literal of the source, which is UTF-8. -/
def cText (s : String) : List Char :=
  s.toList.foldr (fun c rest => utf8 c ++ rest) []

/-- The text that `snprintf(buffer, size, ...)` leaves in the buffer. -/
def snprintf (size : Nat) (text : List Char) : List Char := text.take (size - 1)

/-- The objects that `CreateUI` creates; a non-null `lv_obj_t*` member points
to the object created for it. -/
inductive Widget where
  | container
  | date_label
  | weekday_label
  | time_label
  | temp_icon
  | temperature_label
  | humidity_icon
  | humidity_label
  deriving DecidableEq, Repr

/-- The two functions that the screen hands to `lv_async_call`. -/
inductive Render where
  | UpdateTimeUI
  | UpdateTemperatureHumidityUI
  deriving DecidableEq, Repr

/-- The calls that the screen makes on the widget toolkit and on its timer.
A pointer argument is `none` when the pointer is null. -/
inductive ScreenEvent where
  /-- The call `lv_obj_create` or `lv_label_create` for the object, with the
  text set right after it and the styling calls on the new object. -/
  | create (object : Widget) (text : List Char)
  /-- The calls `lv_obj_set_style_opa` and `lv_obj_fade_in` on the container. -/
  | fade_in (object : Option Widget)
  /-- The call `lv_obj_del`, which deletes the object and its children. -/
  | del (object : Option Widget)
  /-- The call `lv_label_set_text`. -/
  | set_text (label : Option Widget) (text : List Char)
  /-- The call `lv_obj_set_style_text_color`; the colour is `0xRRGGBB`. -/
  | set_text_color (label : Option Widget) (color : Nat)
  /-- The call `esp_timer_start_periodic(update_timer_, 1000000)`. -/
  | timer_start
  /-- The call `esp_timer_stop(update_timer_)`. -/
  | timer_stop
  /-- The call `lv_async_call` with the given function. -/
  | async_call (render : Render)
  deriving DecidableEq, Repr

/-- The data members of `StandbyScreen` (`width_` and `height_` are constants
of the object), and `timer_armed`, the state of the timer that `update_timer_`
points to.  `update_timer_` tells whether the pointer is non-null. -/
structure StandbyScreen (F : Type) where
  is_visible_ : Bool
  container_ : Option Widget
  date_label_ : Option Widget
  weekday_label_ : Option Widget
  time_label_ : Option Widget
  temperature_label_ : Option Widget
  humidity_label_ : Option Widget
  temp_icon_ : Option Widget
  humidity_icon_ : Option Widget
  divider_line_ : Option Widget
  update_timer_ : Bool
  timer_armed : Bool
  cached_date_ : List Char
  cached_weekday_ : List Char
  cached_time_ : List Char
  current_temperature_ : F
  current_humidity_ : F
  deriving DecidableEq

/-- `StandbyScreen::StandbyScreen(width, height)`; `timer_ok` tells whether
`esp_timer_create` stored a timer. -/
def StandbyScreen.construct {F : Type} [FloatOps F] (timer_ok : Bool) : StandbyScreen F :=
  { is_visible_ := false, container_ := none, date_label_ := none, weekday_label_ := none,
    time_label_ := none, temperature_label_ := none, humidity_label_ := none,
    temp_icon_ := none, humidity_icon_ := none, divider_line_ := none,
    update_timer_ := timer_ok, timer_armed := false,
    cached_date_ := [], cached_weekday_ := [], cached_time_ := [],
    current_temperature_ := FloatOps.nan, current_humidity_ := FloatOps.nan }

/-- `StandbyScreen::CreateUI()`.  The toolkit returns an object for every
creation call: `CreateUI` uses each result at once. -/
def CreateUI {F : Type} (s : StandbyScreen F) : StandbyScreen F × List ScreenEvent :=
  if s.container_ ≠ none then (s, [])
  else
    ({ s with container_ := some Widget.container,
              date_label_ := some Widget.date_label,
              weekday_label_ := some Widget.weekday_label,
              time_label_ := some Widget.time_label,
              temp_icon_ := some Widget.temp_icon,
              temperature_label_ := some Widget.temperature_label,
              humidity_icon_ := some Widget.humidity_icon,
              humidity_label_ := some Widget.humidity_label },
     [ScreenEvent.create Widget.container [],
      ScreenEvent.create Widget.date_label [],
      ScreenEvent.create Widget.weekday_label [],
      ScreenEvent.create Widget.time_label (cText "--:--"),
      ScreenEvent.create Widget.temp_icon (utf8 (Char.ofNat 61502) ++ cText "°C"),
      ScreenEvent.create Widget.temperature_label (cText "--.-°C"),
      ScreenEvent.create Widget.humidity_icon (utf8 (Char.ofNat 61459) ++ cText "%"),
      ScreenEvent.create Widget.humidity_label (cText "--.-%")])

/-- `StandbyScreen::DestroyUI()`. -/
def DestroyUI {F : Type} (s : StandbyScreen F) : StandbyScreen F × List ScreenEvent :=
  if s.container_ ≠ none then
    ({ s with container_ := none, date_label_ := none, weekday_label_ := none,
              time_label_ := none, temperature_label_ := none, humidity_label_ := none,
              temp_icon_ := none, humidity_icon_ := none, divider_line_ := none },
     [ScreenEvent.del s.container_])
  else (s, [])

/-- The effect of `esp_timer_start_periodic` on the timer: it arms a timer
that exists and is not armed, and fails otherwise. -/
def startTimer {F : Type} (s : StandbyScreen F) : StandbyScreen F :=
  if s.update_timer_ then { s with timer_armed := true } else s

/-- The effect of `esp_timer_stop` on the timer. -/
def stopTimer {F : Type} (s : StandbyScreen F) : StandbyScreen F :=
  { s with timer_armed := false }

/-- `StandbyScreen::Show()`. -/
def Show {F : Type} (s : StandbyScreen F) : StandbyScreen F × List ScreenEvent :=
  if s.is_visible_ then (s, [])
  else
    let created := CreateUI s
    let fade : List ScreenEvent :=
      if created.1.container_ ≠ none then [ScreenEvent.fade_in created.1.container_] else []
    (startTimer { created.1 with is_visible_ := true },
     created.2 ++ fade ++ [ScreenEvent.timer_start])

/-- `StandbyScreen::Hide()`. -/
def Hide {F : Type} (s : StandbyScreen F) : StandbyScreen F × List ScreenEvent :=
  if s.is_visible_ = false then (s, [])
  else
    let destroyed := DestroyUI (stopTimer s)
    ({ destroyed.1 with is_visible_ := false }, ScreenEvent.timer_stop :: destroyed.2)

/-- `StandbyScreen::UpdateTime(date, weekday, time)`. -/
def UpdateTime {F : Type} (s : StandbyScreen F) (date weekday time : List Char) :
    StandbyScreen F × List ScreenEvent :=
  ({ s with cached_date_ := date, cached_weekday_ := weekday, cached_time_ := time },
   [ScreenEvent.async_call Render.UpdateTimeUI])

/-- `StandbyScreen::UpdateTimeUI()`. -/
def UpdateTimeUI {F : Type} (s : StandbyScreen F) : StandbyScreen F × List ScreenEvent :=
  if s.is_visible_ = false ∨ s.date_label_ = none then (s, [])
  else
    (s, [ScreenEvent.set_text s.date_label_ s.cached_date_,
         ScreenEvent.set_text s.weekday_label_ s.cached_weekday_,
         ScreenEvent.set_text s.time_label_ s.cached_time_])

/-- `StandbyScreen::UpdateTemperatureHumidity(temperature, humidity)`. -/
def UpdateTemperatureHumidity {F : Type} (s : StandbyScreen F) (temperature humidity : F) :
    StandbyScreen F × List ScreenEvent :=
  let stored := { s with current_temperature_ := temperature, current_humidity_ := humidity }
  if s.is_visible_ = false ∨ s.temperature_label_ = none then (stored, [])
  else (stored, [ScreenEvent.async_call Render.UpdateTemperatureHumidityUI])

/-- The function `lv_color_make(red, green, blue)`, as `0xRRGGBB`. -/
def lv_color_make (red green blue : Nat) : Nat := red * 65536 + green * 256 + blue

/-- The colour that `UpdateTemperatureHumidityUI` chooses for a temperature
that is not NaN. -/
def temperatureColor {F : Type} [FloatRender F] (t : F) : Nat :=
  if FloatOps.lt t (FloatOps.lit false 200 (-1) : F) then 0x2196F3
  else if FloatRender.le (FloatOps.lit false 200 (-1) : F) t
      && FloatRender.le t (FloatOps.lit false 300 (-1) : F) then
    let ratio : F :=
      FloatRender.div (FloatOps.sub t (FloatOps.lit false 200 (-1))) (FloatOps.lit false 100 (-1))
    let r : Nat := 0xFF
    let g : Nat := FloatRender.toUInt8
      (FloatOps.add (FloatRender.ofInt 0xEB : F)
        (FloatRender.mul (FloatRender.ofInt (0x57 - 0xEB)) ratio))
    let b : Nat := FloatRender.toUInt8
      (FloatOps.add (FloatRender.ofInt 0x3B : F)
        (FloatRender.mul (FloatRender.ofInt (0x22 - 0x3B)) ratio))
    lv_color_make r g b
  else 0xF44336

/-- `StandbyScreen::UpdateTemperatureHumidityUI()`. -/
def UpdateTemperatureHumidityUI {F : Type} [FloatRender F] (s : StandbyScreen F) :
    StandbyScreen F × List ScreenEvent :=
  if s.is_visible_ = false ∨ s.temperature_label_ = none then (s, [])
  else
    let temp_buf : List Char :=
      if FloatOps.isnan s.current_temperature_ then snprintf 32 (cText "--.-°C")
      else snprintf 32 (FloatRender.format1 s.current_temperature_ ++ cText "°C")
    let temp_color : List ScreenEvent :=
      if FloatOps.isnan s.current_temperature_ then []
      else [ScreenEvent.set_text_color s.temperature_label_
              (temperatureColor s.current_temperature_)]
    let humi_buf : List Char :=
      if FloatOps.isnan s.current_humidity_ then snprintf 32 (cText "--.-%")
      else snprintf 32 (FloatRender.format1 s.current_humidity_ ++ cText "%")
    let humi_color : List ScreenEvent :=
      if FloatOps.isnan s.current_humidity_ then []
      else [ScreenEvent.set_text_color s.humidity_label_ 0x4CAF50]
    (s, temp_color ++ [ScreenEvent.set_text s.temperature_label_ temp_buf]
          ++ humi_color ++ [ScreenEvent.set_text s.humidity_label_ humi_buf])

/-- `StandbyScreen::StartUpdate()`. -/
def StartUpdate {F : Type} (s : StandbyScreen F) : StandbyScreen F × List ScreenEvent :=
  if s.update_timer_ then (startTimer s, [ScreenEvent.timer_start]) else (s, [])

/-- `StandbyScreen::StopUpdate()`. -/
def StopUpdate {F : Type} (s : StandbyScreen F) : StandbyScreen F × List ScreenEvent :=
  if s.update_timer_ then (stopTimer s, [ScreenEvent.timer_stop]) else (s, [])

/-! ## The clock of the standby screen -/

/-- The C type `struct tm`. -/
structure Tm where
  tm_sec : Int
  tm_min : Int
  tm_hour : Int
  tm_mday : Int
  tm_mon : Int
  tm_year : Int
  tm_wday : Int
  tm_yday : Int
  tm_isdst : Int
  deriving DecidableEq, Repr

/-- The date `(year, month, day)` of the proleptic Gregorian calendar on the
day with the given number, day 0 being 1970-01-01. -/
def civilFromDays (days : Int) : Int × Int × Int :=
  let z : Int := days + 719468
  let era : Int := z / 146097
  let doe : Int := z % 146097
  let yoe : Int := (doe - doe / 1460 + doe / 36524 - doe / 146096) / 365
  let doy : Int := doe - (365 * yoe + yoe / 4 - yoe / 100)
  let mp : Int := (5 * doy + 2) / 153
  let d : Int := doy - (153 * mp + 2) / 5 + 1
  let m : Int := if mp < 10 then mp + 3 else mp - 9
  (yoe + era * 400 + (if m ≤ 2 then 1 else 0), m, d)

/-- The number of the day with the date `year`-`month`-`day`; a `day` beyond
the end of the month counts on into the following months. -/
def daysFromCivil (year month day : Int) : Int :=
  let y : Int := if month ≤ 2 then year - 1 else year
  let era : Int := y / 400
  let yoe : Int := y % 400
  let mp : Int := if 2 < month then month - 3 else month + 9
  let doy : Int := (153 * mp + 2) / 5 + day - 1
  era * 146097 + (yoe * 365 + yoe / 4 - yoe / 100 + doy) - 719468

/-- The C function `gmtime_r`: the broken-down UTC time of `t` seconds since
the epoch. -/
def gmtime_r (t : Int) : Tm :=
  { tm_sec := t % 86400 % 60,
    tm_min := t % 86400 / 60 % 60,
    tm_hour := t % 86400 / 3600,
    tm_mday := (civilFromDays (t / 86400)).2.2,
    tm_mon := (civilFromDays (t / 86400)).2.1 - 1,
    tm_year := (civilFromDays (t / 86400)).1 - 1900,
    tm_wday := (t / 86400 + 4) % 7,
    tm_yday := t / 86400 - daysFromCivil (civilFromDays (t / 86400)).1 1 1,
    tm_isdst := 0 }

/-- The C function `mktime` where local time is UTC, which it is as long as
no time zone is set, as the constructor of the screen notes: the seconds
since the epoch of a broken-down time whose fields may exceed their ranges.
`tm_wday`, `tm_yday` and `tm_isdst` do not enter. -/
def mktime (tm : Tm) : Int :=
  (daysFromCivil (tm.tm_year + 1900 + tm.tm_mon / 12) (tm.tm_mon % 12 + 1) 1
      + (tm.tm_mday - 1)) * 86400
    + tm.tm_hour * 3600 + tm.tm_min * 60 + tm.tm_sec

/-- The loop `while (timeinfo.tm_hour >= 24)` of `UpdateTimerCallback`, run
for at most `fuel` iterations. -/
def hourLoop : Nat → Tm → Tm
  | 0, tm => tm
  | fuel + 1, tm =>
    if 24 ≤ tm.tm_hour then
      hourLoop fuel { tm with tm_hour := tm.tm_hour - 24, tm_mday := tm.tm_mday + 1 }
    else tm

/-- The `count` low-order decimal digits of `n`, the highest first. -/
def lowDigits : Nat → Nat → List Char
  | 0, _ => []
  | count + 1, n => Char.ofNat (48 + n / 10 ^ count % 10) :: lowDigits count n

/-- The decimal digits of `n`, filled with zeros in front up to `width`. -/
def zeroFilled (width n : Nat) : List Char :=
  if n < 10 ^ width then lowDigits width n else Nat.toDigits 10 n

/-- The text of the conversion `%0<width>d` of `printf`. -/
def padZero (width : Nat) (n : Int) : List Char :=
  if n < 0 then '-' :: zeroFilled (width - 1) n.natAbs else zeroFilled width n.natAbs

/-- The array `weekdays` of `UpdateTimerCallback`. -/
def weekdays : List (List Char) :=
  [cText "周日", cText "周一", cText "周二", cText "周三", cText "周四", cText "周五",
   cText "周六"]

/-- The text `date_buf` that `UpdateTimerCallback` formats from `timeinfo`. -/
def formatDate (timeinfo : Tm) : List Char :=
  snprintf 32
    (padZero 4 (timeinfo.tm_year + 1900) ++ '-' :: padZero 2 (timeinfo.tm_mon + 1)
      ++ '-' :: padZero 2 timeinfo.tm_mday)

/-- The text `time_buf` that `UpdateTimerCallback` formats from `timeinfo`. -/
def formatTime (timeinfo : Tm) : List Char :=
  snprintf 16
    (padZero 2 timeinfo.tm_hour ++ ':' :: padZero 2 timeinfo.tm_min
      ++ ':' :: padZero 2 timeinfo.tm_sec)

/-- The `timeinfo` of `UpdateTimerCallback` when it formats: `now` is the
value of `time()`.  The loop gets as many iterations as `tm_hour` allows it
to use. -/
def adjustedTime (now : Int) : Tm :=
  let utc := gmtime_r now
  let shifted := { utc with tm_hour := utc.tm_hour + 8 }
  gmtime_r (mktime (hourLoop shifted.tm_hour.toNat shifted))

/-- `StandbyScreen::UpdateTimerCallback()`. -/
def UpdateTimerCallback {F : Type} (s : StandbyScreen F) (now : Int) :
    StandbyScreen F × List ScreenEvent :=
  UpdateTime s (formatDate (adjustedTime now))
    (weekdays.getD (adjustedTime now).tm_wday.toNat [])
    (formatTime (adjustedTime now))

/-- A call of a member function of `StandbyScreen`, with what it reads from
outside. -/
inductive ScreenCall (F : Type) where
  | Show
  | Hide
  | UpdateTime (date weekday time : List Char)
  | UpdateTimeUI
  | UpdateTemperatureHumidity (temperature humidity : F)
  | UpdateTemperatureHumidityUI
  | StartUpdate
  | StopUpdate
  | UpdateTimerCallback (now : Int)

/-- The object after the call and the events of the call. -/
def ScreenCall.run {F : Type} [FloatRender F] (s : StandbyScreen F) :
    ScreenCall F → StandbyScreen F × List ScreenEvent
  | ScreenCall.Show => Xiaozhi.Show s
  | ScreenCall.Hide => Xiaozhi.Hide s
  | ScreenCall.UpdateTime date weekday time => Xiaozhi.UpdateTime s date weekday time
  | ScreenCall.UpdateTimeUI => Xiaozhi.UpdateTimeUI s
  | ScreenCall.UpdateTemperatureHumidity temperature humidity =>
    Xiaozhi.UpdateTemperatureHumidity s temperature humidity
  | ScreenCall.UpdateTemperatureHumidityUI => Xiaozhi.UpdateTemperatureHumidityUI s
  | ScreenCall.StartUpdate => Xiaozhi.StartUpdate s
  | ScreenCall.StopUpdate => Xiaozhi.StopUpdate s
  | ScreenCall.UpdateTimerCallback now => Xiaozhi.UpdateTimerCallback s now

/-- The states of a screen object: the constructed one and those that calls
of its member functions lead to, each call taken as one step. -/
inductive ScreenReachable {F : Type} [FloatRender F] : StandbyScreen F → Prop where
  | construct (timer_ok : Bool) : ScreenReachable (StandbyScreen.construct timer_ok)
  | call (s : StandbyScreen F) (c : ScreenCall F) :
      ScreenReachable s → ScreenReachable (ScreenCall.run s c).1

/-- Does the event pass a pointer to the toolkit, and which? -/
def ScreenEvent.pointer : ScreenEvent → Option (Option Widget)
  | ScreenEvent.fade_in object => some object
  | ScreenEvent.del object => some object
  | ScreenEvent.set_text label _ => some label
  | ScreenEvent.set_text_color label _ => some label
  | _ => none

/-- Is the event the creation of an object? -/
def ScreenEvent.isCreate : ScreenEvent → Bool
  | ScreenEvent.create _ _ => true
  | _ => false

/-- Is the event a start of the timer? -/
def ScreenEvent.isTimerStart : ScreenEvent → Bool
  | ScreenEvent.timer_start => true
  | _ => false

/-- The standby screen on binary32 after construction and `Show()`. -/
def shownScreen : StandbyScreen B32 := (Show (StandbyScreen.construct true)).1

/-- Is the event the invocation of a callback? -/
def UploadEvent.isCallback {F : Type} : UploadEvent F → Bool
  | UploadEvent.callback _ _ _ => true
  | _ => false

/-- The invariant of the widget pointers of the screen: each of the five
label pointers is null exactly when `container_` is. -/
def ScreenInv {F : Type} (s : StandbyScreen F) : Prop :=
  (s.date_label_ = none ↔ s.container_ = none)
  ∧ (s.weekday_label_ = none ↔ s.container_ = none)
  ∧ (s.time_label_ = none ↔ s.container_ = none)
  ∧ (s.temperature_label_ = none ↔ s.container_ = none)
  ∧ (s.humidity_label_ = none ↔ s.container_ = none)

/-- A tick that observes `current_state` while the sensor delivers the line
`R:nanRH 023.3C`, whose humidity field spells a NaN. -/
def nanTick (current_state : DeviceState) : Tick B32 :=
  { current_state := current_state, rx := "R:nanRH 023.3C\n".toList,
    temp := B32.nan, humi := B32.nan, env := completes 200 }

set_option maxRecDepth 100000

/-! ## Lemmas on strings and on the scanner -/

theorem beginsWith_append (n r : List Char) : beginsWith (n ++ r) n = true := by
  induction n with
  | nil => cases r <;> rfl
  | cons c cs ih => simp [beginsWith, ih]

theorem strstr_head (n r : List Char) : strstr (n ++ r) n = some (n ++ r) := by
  cases h : n ++ r with
  | nil =>
    have : n = [] := by
      cases n with
      | nil => rfl
      | cons a as => simp at h
    subst this
    simp [strstr, beginsWith]
  | cons c cs =>
    have hb := beginsWith_append n r
    rw [h] at hb
    simp [strstr, hb]

theorem strstr_skip (pre s ns : List Char) (n : Char) (h : ∀ c ∈ pre, c ≠ n) :
    strstr (pre ++ s) (n :: ns) = strstr s (n :: ns) := by
  induction pre with
  | nil => rfl
  | cons c cs ih =>
    have hc : c ≠ n := h c (List.mem_cons_self _ _)
    have ih2 := ih (fun x hx => h x (List.mem_cons_of_mem _ hx))
    simp [strstr, beginsWith, hc, ih2]

theorem strstr_isSome_append (pre n r : List Char) : (strstr (pre ++ (n ++ r)) n).isSome = true := by
  induction pre with
  | nil => simp [strstr_head]
  | cons c cs ih =>
    simp only [List.cons_append, strstr]
    split
    · rfl
    · exact ih

theorem bufLines_line (l rest : List Char) (h : ∀ c ∈ l, c ≠ NUL ∧ c ≠ LF) :
    bufLines (l ++ LF :: rest) = l :: bufLines rest := by
  induction l with
  | nil => simp [bufLines, show LF ≠ NUL by decide]
  | cons c cs ih =>
    have hc := h c (List.mem_cons_self _ _)
    have ih2 := ih (fun x hx => h x (List.mem_cons_of_mem _ hx))
    simp [bufLines, hc.1, hc.2, ih2]

theorem isdigit_ne {c d : Char} (h : isdigit c = true) (hd : isdigit d = false) : c ≠ d := by
  intro e
  rw [e, hd] at h
  cases h

theorem takeWhile_digits (ds rest : List Char) (c : Char) (h : ∀ x ∈ ds, isdigit x = true)
    (hc : isdigit c = false) :
    (ds ++ c :: rest).takeWhile isdigit = ds ∧ (ds ++ c :: rest).dropWhile isdigit = c :: rest := by
  induction ds with
  | nil => simp [List.takeWhile, List.dropWhile, hc]
  | cons x xs ih =>
    have hx := h x (List.mem_cons_self _ _)
    have ih2 := ih (fun y hy => h y (List.mem_cons_of_mem _ hy))
    simp [List.takeWhile, List.dropWhile, hx, ih2]

theorem isdigit_not_space {c : Char} (h : isdigit c = true) : isspace c = false := by
  cases hs : isspace c with
  | false => rfl
  | true =>
    exfalso
    simp only [isspace, Bool.or_eq_true, beq_iff_eq] at hs
    rcases hs with ((((hs | hs) | hs) | hs) | hs) | hs <;> (rw [hs] at h; revert h; decide)

theorem takeSign_digit (x : Char) (r : List Char) (h : isdigit x = true) :
    takeSign (x :: r) = ([], x :: r) := by
  have h1 : x ≠ '+' := isdigit_ne h (by decide)
  have h2 : x ≠ '-' := isdigit_ne h (by decide)
  simp [takeSign, h1, h2]

theorem takeWord_digit (x : Char) (r : List Char) (h : isdigit x = true) :
    takeWord (x :: r) = [] := by
  have hlow : tolower x = x := by
    unfold tolower
    split
    · rename_i hup
      simp only [isdigit, Bool.and_eq_true, decide_eq_true_eq] at h
      have h9 : '9'.toNat < 'A'.toNat := by decide
      omega
    · rfl
  have hn : x ≠ 'n' := isdigit_ne h (by decide)
  have hi : x ≠ 'i' := isdigit_ne h (by decide)
  simp [takeWord, spells, beginsWith, hlow, hn, hi]

theorem scanFloat_digits (ds rest : List Char) (d c : Char) (hne : ds ≠ [])
    (hds : ∀ x ∈ ds, isdigit x = true) (hd : isdigit d = true)
    (hc : isdigit c = false) (he : c ≠ 'e' ∧ c ≠ 'E') :
    scanFloat (ds ++ '.' :: d :: c :: rest) = some (ds ++ ['.', d]) := by
  cases ds with
  | nil => exact absurd rfl hne
  | cons x xs =>
    have hx : isdigit x = true := hds x (List.mem_cons_self _ _)
    have hsp : (x :: xs ++ '.' :: d :: c :: rest).dropWhile isspace
        = x :: (xs ++ '.' :: d :: c :: rest) := by
      simp [List.dropWhile, isdigit_not_space hx]
    have hsg := takeSign_digit x (xs ++ '.' :: d :: c :: rest) hx
    have htw := takeWhile_digits (x :: xs) (d :: c :: rest) '.' hds (by decide)
    have hfr := takeWhile_digits [d] rest c (by simpa using hd) hc
    simp only [List.cons_append, List.nil_append] at htw hfr
    have hword := takeWord_digit x (xs ++ '.' :: d :: c :: rest) hx
    simp only [scanFloat, hsp, hsg, hword, ne_eq, not_true_eq_false, if_false, htw.1, htw.2,
      takeFraction, hfr.1, hfr.2, takeExponent]
    simp [he.1, he.2]

theorem scanFloat_decimal1 (minus : Bool) (ds rest : List Char) (d c : Char) (hne : ds ≠ [])
    (hds : ∀ x ∈ ds, isdigit x = true) (hd : isdigit d = true)
    (hc : isdigit c = false) (he : c ≠ 'e' ∧ c ≠ 'E') :
    scanFloat (decimal1 minus ds d ++ c :: rest) = some (decimal1 minus ds d) := by
  cases minus with
  | false =>
    have h := scanFloat_digits ds rest d c hne hds hd hc he
    simpa [decimal1] using h
  | true =>
    cases ds with
    | nil => exact absurd rfl hne
    | cons x xs =>
      have hx : isdigit x = true := hds x (List.mem_cons_self _ _)
      have hsp : ('-' :: x :: (xs ++ '.' :: d :: c :: rest)).dropWhile isspace
          = '-' :: x :: (xs ++ '.' :: d :: c :: rest) := by
        simp [List.dropWhile, show isspace '-' = false by decide]
      have hsg : takeSign ('-' :: x :: (xs ++ '.' :: d :: c :: rest))
          = (['-'], x :: (xs ++ '.' :: d :: c :: rest)) := by
        simp [takeSign]
      have htw := takeWhile_digits (x :: xs) (d :: c :: rest) '.' hds (by decide)
      have hfr := takeWhile_digits [d] rest c (by simpa using hd) hc
      simp only [List.cons_append, List.nil_append] at htw hfr
      have hfp : takeFraction ('.' :: d :: c :: rest) = (['.', d], c :: rest) := by
        simp [takeFraction, hfr.1, hfr.2]
      have hex : takeExponent (c :: rest) = [] := by
        simp [takeExponent, he.1, he.2]
      simp only [decimal1, if_true, List.cons_append, List.nil_append, List.append_assoc,
        scanFloat]
      rw [hsp, hsg]
      simp only []
      rw [takeWord_digit x (xs ++ '.' :: d :: c :: rest) hx]
      simp only [ne_eq, not_true_eq_false, if_false]
      rw [htw.1, htw.2, hfp]
      simp only []
      rw [hex]
      simp

theorem decimal1_mem {minus : Bool} {ds : List Char} {d c : Char}
    (hds : ∀ x ∈ ds, isdigit x = true) (hd : isdigit d = true)
    (hc : c ∈ decimal1 minus ds d) : c = '-' ∨ c = '.' ∨ isdigit c = true := by
  cases minus <;> simp [decimal1] at hc
  · rcases hc with hc | hc | hc
    · exact Or.inr (Or.inr (hds c hc))
    · exact Or.inr (Or.inl hc)
    · exact Or.inr (Or.inr (hc ▸ hd))
  · rcases hc with hc | hc | hc | hc
    · exact Or.inl hc
    · exact Or.inr (Or.inr (hds c hc))
    · exact Or.inr (Or.inl hc)
    · exact Or.inr (Or.inr (hc ▸ hd))

theorem decimal1_char {minus : Bool} {ds : List Char} {d c : Char}
    (hds : ∀ x ∈ ds, isdigit x = true) (hd : isdigit d = true)
    (hc : c ∈ decimal1 minus ds d) : c ≠ NUL ∧ c ≠ LF ∧ c ≠ CR ∧ c ≠ 'R' := by
  rcases decimal1_mem hds hd hc with h | h | h
  · subst h; decide
  · subst h; decide
  · exact ⟨isdigit_ne h (by decide), isdigit_ne h (by decide), isdigit_ne h (by decide),
      isdigit_ne h (by decide)⟩

theorem wireLine_char {mh mt : Bool} {hds tds : List Char} {hd td c : Char}
    (hh : ∀ x ∈ hds, isdigit x = true) (hhd : isdigit hd = true)
    (ht : ∀ x ∈ tds, isdigit x = true) (htd : isdigit td = true)
    (hc : c ∈ wireLine (decimal1 mh hds hd) (decimal1 mt tds td)) :
    c ≠ NUL ∧ c ≠ LF ∧ c ≠ CR := by
  simp only [wireLine, List.mem_cons, List.mem_append, List.mem_singleton] at hc
  rcases hc with h | h | h | h | h | h | h | h
  · subst h; decide
  · subst h; decide
  · have := decimal1_char hh hhd h
    exact ⟨this.1, this.2.1, this.2.2.1⟩
  · subst h; decide
  · subst h; decide
  · subst h; decide
  · have := decimal1_char ht htd h
    exact ⟨this.1, this.2.1, this.2.2.1⟩
  · rcases h with h | h
    · subst h; decide
    · cases h

theorem ParseData_wireLine {F : Type} [FloatOps F] (s : SHT30Sensor F) (mh mt : Bool)
    (hds tds : List Char) (hd td : Char)
    (hhne : hds ≠ []) (hh : ∀ x ∈ hds, isdigit x = true) (hhd : isdigit hd = true)
    (htne : tds ≠ []) (ht : ∀ x ∈ tds, isdigit x = true) (htd : isdigit td = true) :
    ParseData s (wireLine (decimal1 mh hds hd) (decimal1 mt tds td))
      = some (FloatOps.add (FloatOps.strtof (decimal1 mt tds td)) s.temperature_offset_,
              FloatOps.add (FloatOps.strtof (decimal1 mh hds hd)) s.humidity_offset_) := by
  have h1 : strstr (wireLine (decimal1 mh hds hd) (decimal1 mt tds td)) ['R', ':']
      = some (wireLine (decimal1 mh hds hd) (decimal1 mt tds td)) :=
    strstr_head ['R', ':'] _
  have h2 : scanFloat ((wireLine (decimal1 mh hds hd) (decimal1 mt tds td)).drop 2)
      = some (decimal1 mh hds hd) := by
    simpa [wireLine] using
      scanFloat_decimal1 mh hds ('H' :: ' ' :: (decimal1 mt tds td ++ ['C'])) hd 'R'
        hhne hh hhd (by decide) (by decide)
  have h3 : strstr (wireLine (decimal1 mh hds hd) (decimal1 mt tds td)) ['R', 'H', ' ']
      = some ('R' :: 'H' :: ' ' :: (decimal1 mt tds td ++ ['C'])) := by
    have hskip := strstr_skip (decimal1 mh hds hd)
      ('R' :: 'H' :: ' ' :: (decimal1 mt tds td ++ ['C'])) ['H', ' '] 'R'
      (fun c hc => (decimal1_char hh hhd hc).2.2.2)
    have hhead := strstr_head ['R', 'H', ' '] (decimal1 mt tds td ++ ['C'])
    simp only [List.cons_append, List.nil_append] at hskip hhead
    simp only [wireLine, strstr, beginsWith]
    simp [hskip, hhead]
  have h4 : scanFloat (('R' :: 'H' :: ' ' :: (decimal1 mt tds td ++ ['C'])).drop 3)
      = some (decimal1 mt tds td) := by
    simpa using scanFloat_decimal1 mt tds [] td 'C' htne ht htd (by decide) (by decide)
  simp only [ParseData, h1, h2, h3, h4]

theorem trimCR_self (line : List Char) (h : ∀ c ∈ line, c ≠ CR) : trimCR line = line := by
  induction line with
  | nil => rfl
  | cons c cs ih =>
    have hc := h c (List.mem_cons_self _ _)
    have ih2 := ih (fun x hx => h x (List.mem_cons_of_mem _ hx))
    have hb : (c != CR) = true := by simp [hc]
    simp only [trimCR] at ih2
    simp only [trimCR, List.takeWhile, hb, ih2]

theorem parseLine_wireLine {F : Type} [FloatOps F] (s : SHT30Sensor F) (mh mt : Bool)
    (hds tds : List Char) (hd td : Char)
    (hhne : hds ≠ []) (hh : ∀ x ∈ hds, isdigit x = true) (hhd : isdigit hd = true)
    (htne : tds ≠ []) (ht : ∀ x ∈ tds, isdigit x = true) (htd : isdigit td = true) :
    parseLine s (wireLine (decimal1 mh hds hd) (decimal1 mt tds td))
      = some (FloatOps.add (FloatOps.strtof (decimal1 mt tds td)) s.temperature_offset_,
              FloatOps.add (FloatOps.strtof (decimal1 mh hds hd)) s.humidity_offset_) := by
  have htrim := trimCR_self (wireLine (decimal1 mh hds hd) (decimal1 mt tds td))
    (fun c hc => (wireLine_char hh hhd ht htd hc).2.2)
  have m1 : (strstr (wireLine (decimal1 mh hds hd) (decimal1 mt tds td)) ['R', ':']).isSome
      = true := by
    rw [show strstr (wireLine (decimal1 mh hds hd) (decimal1 mt tds td)) ['R', ':'] = some _
      from strstr_head ['R', ':'] _]
    rfl
  have m2 : (strstr (wireLine (decimal1 mh hds hd) (decimal1 mt tds td)) ['R', 'H']).isSome
      = true := by
    have := strstr_isSome_append ('R' :: ':' :: decimal1 mh hds hd) ['R', 'H']
      (' ' :: (decimal1 mt tds td ++ ['C']))
    simpa [wireLine] using this
  have m3 : (strstr (wireLine (decimal1 mh hds hd) (decimal1 mt tds td)) ['C']).isSome
      = true := by
    have := strstr_isSome_append
      ('R' :: ':' :: (decimal1 mh hds hd ++ ('R' :: 'H' :: ' ' :: decimal1 mt tds td))) ['C'] []
    simpa [wireLine] using this
  simp only [parseLine, htrim, m1, m2, m3, and_self, if_true]
  exact ParseData_wireLine s mh mt hds tds hd td hhne hh hhd htne ht htd


/-! ## `ReadData` -/

theorem parseLine_cached {F : Type} [FloatOps F] (s : SHT30Sensor F) (v : F × F)
    (line : List Char) : parseLine (cached s v) line = parseLine s line := rfl

theorem foldl_readStep {F : Type} [FloatOps F] (lines : List (List Char)) (st : ReadState F) :
    lines.foldl readStep st
      = match (lines.filterMap (parseLine st.sensor)).getLast? with
        | none => st
        | some v =>
          { found := true, temperature := v.1, humidity := v.2, sensor := cached st.sensor v } := by
  induction lines using List.reverseRecOn with
  | nil => rfl
  | append_singleton init line ih =>
    rw [List.foldl_append, List.filterMap_append, ih]
    simp only [List.foldl_cons, List.foldl_nil, List.filterMap_cons, List.filterMap_nil]
    cases hprev : (init.filterMap (parseLine st.sensor)).getLast? with
    | none =>
      simp only [readStep]
      cases hline : parseLine st.sensor line with
      | none => simp [hprev]
      | some v => simp [cached]
    | some w =>
      simp only [readStep]
      rw [show parseLine (cached st.sensor w) line = parseLine st.sensor line from rfl]
      cases hline : parseLine st.sensor line with
      | none => simp [hprev]
      | some v => simp [cached]


theorem getLast_filterMap {α β : Type} (f : α → Option β) (l : List α) :
    (l.filterMap f).getLast? = ((l.filter (fun a => (f a).isSome)).getLast?).bind f := by
  induction l using List.reverseRecOn with
  | nil => rfl
  | append_singleton init a ih =>
    rw [List.filterMap_append, List.filter_append]
    cases ha : f a with
    | none => simp [ha, ih]
    | some b => simp [ha]

theorem bufLines_eq_splitLF (rx : List Char) : bufLines rx = splitLF (cstr rx) := by
  induction rx with
  | nil => rfl
  | cons c cs ih =>
    by_cases hn : c = NUL
    · simp [bufLines, cstr, List.takeWhile, hn, splitLF]
    · have hb : (c != NUL) = true := by simp [hn]
      by_cases hl : c = LF
      · simp only [cstr] at ih
        simp only [bufLines, cstr, List.takeWhile, hb, splitLF, hn, hl, if_true, if_false, ih]
        simp [show LF ≠ NUL by decide, ih]
      · simp only [cstr] at ih
        simp only [bufLines, cstr, List.takeWhile, hb, splitLF, hn, hl, if_false, ih]

theorem bufLines_splitLF (rx : List Char) :
    ∃ rest, splitLF rx = bufLines rx ++ rest := by
  induction rx with
  | nil => exact ⟨[], rfl⟩
  | cons c cs ih =>
    obtain ⟨rest, hrest⟩ := ih
    by_cases hn : c = NUL
    · exact ⟨splitLF (c :: cs), by simp [bufLines, hn]⟩
    · by_cases hl : c = LF
      · exact ⟨rest, by simp [bufLines, splitLF, hn, hl, hrest, show LF ≠ NUL by decide]⟩
      · cases hb : bufLines cs with
        | nil => exact ⟨splitLF (c :: cs), by simp [bufLines, hn, hl, hb]⟩
        | cons l ls =>
          rw [hb] at hrest
          exact ⟨rest, by simp [bufLines, splitLF, hn, hl, hb, hrest]⟩

theorem bufLines_char (rx : List Char) :
    ∀ line ∈ bufLines rx, ∀ c ∈ line, c ≠ NUL ∧ c ≠ LF := by
  induction rx with
  | nil => intro line h; cases h
  | cons c cs ih =>
    intro line hline
    by_cases hn : c = NUL
    · simp [bufLines, hn] at hline
    · by_cases hl : c = LF
      · simp only [bufLines, hn, hl, if_false, if_true, List.mem_cons] at hline
        rw [if_neg (show LF ≠ NUL by decide)] at hline
        rcases List.mem_cons.mp hline with h | h
        · subst h; intro x hx; cases hx
        · exact ih line h
      · cases hb : bufLines cs with
        | nil => simp [bufLines, hn, hl, hb] at hline
        | cons l ls =>
          simp only [bufLines, hn, hl, hb, if_false, List.mem_cons] at hline
          rcases hline with h | h
          · subst h
            intro x hx
            rcases List.mem_cons.mp hx with h2 | h2
            · subst h2; exact ⟨hn, hl⟩
            · exact ih l (by rw [hb]; exact List.mem_cons_self _ _) x h2
          · exact ih line (by rw [hb]; exact List.mem_cons_of_mem _ h)

theorem cstr_self (line : List Char) (h : ∀ c ∈ line, c ≠ NUL) : cstr line = line := by
  induction line with
  | nil => rfl
  | cons c cs ih =>
    have hc := h c (List.mem_cons_self _ _)
    have ih2 := ih (fun x hx => h x (List.mem_cons_of_mem _ hx))
    have hb : (c != NUL) = true := by simp [hc]
    simp only [cstr] at ih2
    simp only [cstr, List.takeWhile, hb, ih2]


theorem ReadData_eq {F : Type} [FloatOps F] (s : SHT30Sensor F) (rx : List Char)
    (temperature humidity : F) (hinit : s.initialized_ = true) (hne : rx ≠ []) :
    ReadData s rx temperature humidity
      = match ((bufLines rx).filterMap (parseLine s)).getLast? with
        | none =>
          { ok := false, temperature := s.temperature_, humidity := s.humidity_, sensor := s }
        | some v =>
          { ok := true, temperature := v.1, humidity := v.2, sensor := cached s v } := by
  simp only [ReadData, hinit, hne, if_false, Bool.true_eq_false]
  rw [foldl_readStep]
  cases ((bufLines rx).filterMap (parseLine s)).getLast? with
  | none => rfl
  | some v => rfl

/-- C1.  On an initialised sensor, whatever its calibration offsets and cache,
a buffer that consists of one line `R:<h>RH <t>C` and its line feed, `h` and
`t` being decimal numbers with one fractional digit (with or without a minus
sign), makes `ReadData` return `true` with `humidity = h + humidity_offset_`
and `temperature = t + temperature_offset_`, and leaves exactly that pair in
the cache. -/
theorem ReadData_wire_line {F : Type} [FloatOps F] (s : SHT30Sensor F) (mh mt : Bool)
    (hds tds : List Char) (hd td : Char) (temperature humidity : F)
    (hinit : s.initialized_ = true)
    (hhne : hds ≠ []) (hh : ∀ x ∈ hds, isdigit x = true) (hhd : isdigit hd = true)
    (htne : tds ≠ []) (ht : ∀ x ∈ tds, isdigit x = true) (htd : isdigit td = true) :
    ReadData s (wireLine (decimal1 mh hds hd) (decimal1 mt tds td) ++ [LF]) temperature humidity
      = { ok := true,
          temperature :=
            FloatOps.add (FloatOps.strtof (decimal1 mt tds td)) s.temperature_offset_,
          humidity :=
            FloatOps.add (FloatOps.strtof (decimal1 mh hds hd)) s.humidity_offset_,
          sensor :=
            { s with
              temperature_ :=
                FloatOps.add (FloatOps.strtof (decimal1 mt tds td)) s.temperature_offset_,
              humidity_ :=
                FloatOps.add (FloatOps.strtof (decimal1 mh hds hd)) s.humidity_offset_ } } := by
  have hlines : bufLines (wireLine (decimal1 mh hds hd) (decimal1 mt tds td) ++ [LF])
      = [wireLine (decimal1 mh hds hd) (decimal1 mt tds td)] := by
    have := bufLines_line (wireLine (decimal1 mh hds hd) (decimal1 mt tds td)) []
      (fun c hc => ⟨(wireLine_char hh hhd ht htd hc).1, (wireLine_char hh hhd ht htd hc).2.1⟩)
    simpa [bufLines] using this
  rw [ReadData_eq s _ temperature humidity hinit (by simp [wireLine]), hlines]
  simp only [List.filterMap_cons, List.filterMap_nil,
    parseLine_wireLine s mh mt hds tds hd td hhne hh hhd htne ht htd]
  rfl

/-- C2, as amended.  If two or more of the line-feed-terminated lines that
precede the first NUL byte of the buffer parse successfully, `ReadData`
returns `true` with the values of the last such line, leaves them in the
cache, and the result is the one of a buffer that holds that line alone. -/
theorem ReadData_last_parsed_line {F : Type} [FloatOps F] (s : SHT30Sensor F)
    (rx : List Char) (temperature humidity : F) (hinit : s.initialized_ = true)
    (htwo : 2 ≤ (parsedLines s (splitLF (cstr rx))).length) :
    ∃ line v, (parsedLines s (splitLF (cstr rx))).getLast? = some line
      ∧ parseLine s line = some v
      ∧ ReadData s rx temperature humidity
          = { ok := true, temperature := v.1, humidity := v.2, sensor := cached s v }
      ∧ ReadData s (line ++ [LF]) temperature humidity
          = ReadData s rx temperature humidity := by
  have hne : rx ≠ [] := by
    intro h
    subst h
    simp [parsedLines, cstr, splitLF] at htwo
  rw [← bufLines_eq_splitLF] at htwo ⊢
  cases hlast : (parsedLines s (bufLines rx)).getLast? with
  | none =>
    rw [List.getLast?_eq_none_iff] at hlast
    rw [hlast] at htwo
    simp at htwo
  | some line =>
    have hmem : line ∈ parsedLines s (bufLines rx) := List.mem_of_getLast?_eq_some hlast
    simp only [parsedLines, List.mem_filter] at hmem
    obtain ⟨v, hv⟩ := Option.isSome_iff_exists.mp hmem.2
    have hres : ((bufLines rx).filterMap (parseLine s)).getLast? = some v := by
      rw [getLast_filterMap]
      simp only [parsedLines] at hlast
      rw [hlast]
      simpa using hv
    have hone : bufLines (line ++ [LF]) = [line] := by
      have := bufLines_line line [] (bufLines_char rx line hmem.1)
      simpa [bufLines] using this
    refine ⟨line, v, rfl, hv, ?_, ?_⟩
    · rw [ReadData_eq s rx temperature humidity hinit hne, hres]
    · rw [ReadData_eq s rx temperature humidity hinit hne, hres,
        ReadData_eq s _ temperature humidity hinit (by simp), hone]
      simp [hv]

/-- C3.  When no line of a non-empty buffer parses successfully, `ReadData`
on an initialised sensor returns `false` and the cached pair, whatever the
cache holds, and leaves the object (cache and offsets) unchanged; a second
call with the same buffer gives the same result. -/
theorem ReadData_no_parsed_line {F : Type} [FloatOps F] (s : SHT30Sensor F)
    (rx : List Char) (temperature humidity : F) (hinit : s.initialized_ = true)
    (hne : rx ≠ [])
    (hnone : ∀ line ∈ splitLF rx, parseLine s (cstr line) = none) :
    ReadData s rx temperature humidity
        = { ok := false, temperature := s.temperature_, humidity := s.humidity_, sensor := s }
      ∧ ReadData (ReadData s rx temperature humidity).sensor rx
          (ReadData s rx temperature humidity).temperature
          (ReadData s rx temperature humidity).humidity
        = ReadData s rx temperature humidity := by
  have hall : ∀ line ∈ bufLines rx, parseLine s line = none := by
    intro line hline
    obtain ⟨rest, hrest⟩ := bufLines_splitLF rx
    have h1 := hnone line (by rw [hrest]; exact List.mem_append_left _ hline)
    rwa [cstr_self line (fun c hc => (bufLines_char rx line hline c hc).1)] at h1
  have hres : ((bufLines rx).filterMap (parseLine s)).getLast? = none := by
    rw [List.getLast?_eq_none_iff, List.filterMap_eq_nil_iff]
    exact hall
  have hfirst : ∀ t h : F, ReadData s rx t h
      = { ok := false, temperature := s.temperature_, humidity := s.humidity_, sensor := s } := by
    intro t h
    rw [ReadData_eq s rx t h hinit hne, hres]
  refine ⟨hfirst _ _, ?_⟩
  rw [hfirst temperature humidity]
  exact hfirst _ _


/-- Witness of C1: the line `R:039.2RH 023.3C` read by the sensor of the
board (temperature offset `-1.0f`) on binary32 gives 39.2 and 22.3. -/
theorem ReadData_wire_line_witness :
    (boardSensor.initialized_ = true
      ∧ "039".toList ≠ [] ∧ (∀ x ∈ "039".toList, isdigit x = true) ∧ isdigit '2' = true
      ∧ "023".toList ≠ [] ∧ (∀ x ∈ "023".toList, isdigit x = true) ∧ isdigit '3' = true)
    ∧ ReadData boardSensor "R:039.2RH 023.3C\n".toList B32.nan B32.nan
      = { ok := true, temperature := B32.lit false 223 (-1),
          humidity := B32.lit false 392 (-1),
          sensor := cached boardSensor (B32.lit false 223 (-1), B32.lit false 392 (-1)) } :=
  ⟨by decide,
   (ReadData_wire_line boardSensor false false "039".toList "023".toList '2' '3'
      B32.nan B32.nan rfl (by decide) (by decide) (by decide) (by decide) (by decide)
      (by decide)).trans (by decide)⟩

/-- Counterexample to C2 as stated.  The buffer `nulBuffer` holds the lines
`R:039.2RH 023.3C`, a line with a single NUL byte, and `R:041.0RH 025.0C`.
Two of its lines parse successfully and the last of them carries 41.0 and
25.0, but `ReadData` stops at the NUL byte and returns, and caches, the values
of the first line. -/
theorem ReadData_last_line_counterexample :
    2 ≤ (parsedLines boardSensor ((splitLF nulBuffer).map cstr)).length
    ∧ (parsedLines boardSensor ((splitLF nulBuffer).map cstr)).getLast?
        = some "R:041.0RH 025.0C".toList
    ∧ parseLine boardSensor "R:041.0RH 025.0C".toList
        = some (B32.lit false 240 (-1), B32.lit false 410 (-1))
    ∧ ReadData boardSensor nulBuffer B32.nan B32.nan
        = { ok := true, temperature := B32.lit false 223 (-1),
            humidity := B32.lit false 392 (-1),
            sensor := cached boardSensor (B32.lit false 223 (-1), B32.lit false 392 (-1)) }
    ∧ ReadData boardSensor nulBuffer B32.nan B32.nan
        ≠ { ok := true, temperature := B32.lit false 240 (-1),
            humidity := B32.lit false 410 (-1),
            sensor := cached boardSensor (B32.lit false 240 (-1), B32.lit false 410 (-1)) } := by
  decide

/-- Witness of C2 as amended: two lines ended by CR LF, then an unfinished
third one; the second line wins. -/
theorem ReadData_last_parsed_line_witness :
    (boardSensor.initialized_ = true
      ∧ 2 ≤ (parsedLines boardSensor
          (splitLF (cstr "R:039.2RH 023.3C\r\nR:041.0RH 025.0C\r\nR:04".toList))).length)
    ∧ ∃ line v,
        (parsedLines boardSensor
          (splitLF (cstr "R:039.2RH 023.3C\r\nR:041.0RH 025.0C\r\nR:04".toList))).getLast?
          = some line
        ∧ parseLine boardSensor line = some v
        ∧ ReadData boardSensor "R:039.2RH 023.3C\r\nR:041.0RH 025.0C\r\nR:04".toList
            B32.nan B32.nan
          = { ok := true, temperature := v.1, humidity := v.2, sensor := cached boardSensor v }
        ∧ ReadData boardSensor (line ++ [LF]) B32.nan B32.nan
          = ReadData boardSensor "R:039.2RH 023.3C\r\nR:041.0RH 025.0C\r\nR:04".toList
              B32.nan B32.nan :=
  ⟨by decide,
   ReadData_last_parsed_line boardSensor
     "R:039.2RH 023.3C\r\nR:041.0RH 025.0C\r\nR:04".toList B32.nan B32.nan rfl (by decide)⟩

/-- Witness of C3: a buffer of noise with a line feed, and a cache that holds
an earlier reading. -/
theorem ReadData_no_parsed_line_witness :
    ((cached boardSensor (B32.lit false 223 (-1), B32.lit false 392 (-1))).initialized_ = true
      ∧ "R:abcRH 1C\nxyz\n".toList ≠ []
      ∧ ∀ line ∈ splitLF "R:abcRH 1C\nxyz\n".toList,
          parseLine (cached boardSensor (B32.lit false 223 (-1), B32.lit false 392 (-1)))
            (cstr line) = none)
    ∧ ReadData (cached boardSensor (B32.lit false 223 (-1), B32.lit false 392 (-1)))
        "R:abcRH 1C\nxyz\n".toList B32.nan B32.nan
      = { ok := false, temperature := B32.lit false 223 (-1),
          humidity := B32.lit false 392 (-1),
          sensor := cached boardSensor (B32.lit false 223 (-1), B32.lit false 392 (-1)) } :=
  ⟨by decide,
   (ReadData_no_parsed_line
      (cached boardSensor (B32.lit false 223 (-1), B32.lit false 392 (-1)))
      "R:abcRH 1C\nxyz\n".toList B32.nan B32.nan rfl (by decide) (by decide)).1⟩


/-! ## `UploadSensorData` -/

theorem invoke_not_http {F : Type} (callback : Option Nat) (success : Bool)
    (message : List Char) :
    attemptsNetwork (invoke callback success message : List (UploadEvent F)) = false := by
  cases callback <;> rfl

theorem UploadSensorData_nan {F : Type} [FloatOps F] (u : SensorDataUploader F)
    (env : UploadEnv) (temperature humidity : F) (callback : Option Nat)
    (h : FloatOps.isnan temperature = true ∨ FloatOps.isnan humidity = true) :
    UploadSensorData u env temperature humidity callback
      = { ret := false, uploader := u,
          events := invoke callback false "Invalid sensor data".toList } := by
  have hb : (FloatOps.isnan temperature || FloatOps.isnan humidity) = true := by
    rcases h with h | h <;> simp [h]
  simp only [UploadSensorData, hb, if_true]

theorem UploadSensorData_unchanged {F : Type} [FloatOps F] (u : SensorDataUploader F)
    (env : UploadEnv) (temperature humidity : F) (callback : Option Nat)
    (ht : FloatOps.isnan temperature = false) (hh : FloatOps.isnan humidity = false)
    (hsame : unchanged u temperature humidity = true) :
    UploadSensorData u env temperature humidity callback
      = { ret := true, uploader := u,
          events := invoke callback true "Data unchanged".toList } := by
  simp [UploadSensorData, ht, hh, hsame]

theorem UploadSensorData_post {F : Type} [FloatOps F] (u : SensorDataUploader F)
    (env : UploadEnv) (temperature humidity : F) (callback : Option Nat)
    (ht : FloatOps.isnan temperature = false) (hh : FloatOps.isnan humidity = false)
    (hnew : unchanged u temperature humidity = false) :
    UploadSensorData u env temperature humidity callback
      = { ret := (PostData u env (BuildJson u env temperature humidity) callback).1,
          uploader :=
            if (PostData u env (BuildJson u env temperature humidity) callback).1 then
              { u with last_temperature_ := temperature, last_humidity_ := humidity,
                       has_last_data_ := true }
            else u,
          events := UploadEvent.buildJson (BuildJson u env temperature humidity)
            :: (PostData u env (BuildJson u env temperature humidity) callback).2 } := by
  simp [UploadSensorData, ht, hh, hnew]

theorem PostData_no_url {F : Type} (u : SensorDataUploader F) (env : UploadEnv)
    (json_data : JsonText F) (callback : Option Nat) (hurl : u.upload_url_ = []) :
    PostData u env json_data callback
      = (false, invoke callback false "Upload URL not configured".toList) := by
  simp [PostData, hurl]

theorem PostData_url {F : Type} (u : SensorDataUploader F) (env : UploadEnv)
    (json_data : JsonText F) (callback : Option Nat) (hurl : u.upload_url_ ≠ []) :
    (PostData u env json_data callback).1 = decide (env.err = 0)
      ∧ attemptsNetwork (PostData u env json_data callback).2 = true
      ∧ ∃ request message, (PostData u env json_data callback).2
          = UploadEvent.httpPerform request :: invoke callback (decide (env.err = 0)) message := by
  unfold PostData
  rw [if_neg hurl]
  exact ⟨rfl, rfl, _, _, rfl⟩


theorem unchanged_iff {F : Type} [FloatOps F] (u : SensorDataUploader F)
    (temperature humidity : F) :
    unchanged u temperature humidity = true
      ↔ (u.has_last_data_ = true
        ∧ FloatOps.lt (FloatOps.abs (FloatOps.sub temperature u.last_temperature_))
            (FloatOps.lit false 1 (-1) : F) = true
        ∧ FloatOps.lt (FloatOps.abs (FloatOps.sub humidity u.last_humidity_))
            (FloatOps.lit false 10 (-1) : F) = true) := by
  simp [unchanged, and_assoc]

theorem invoke_ne_cons_json {F : Type} (callback : Option Nat) (success : Bool)
    (message : List Char) (json : JsonText F) (rest : List (UploadEvent F)) :
    UploadEvent.buildJson json :: rest ≠ invoke callback success message := by
  cases callback <;> simp [invoke]

/-- Counterexample to C4 as stated.  A freshly constructed uploader has no
previous upload and no upload URL; called with the non-NaN reading
`(20.0, 50.0)` it neither skips the upload nor attempts the network: `PostData`
reports "Upload URL not configured" and returns `false`. -/
theorem UploadSensorData_no_url_counterexample :
    FloatOps.isnan (B32.lit false 200 (-1)) = false
    ∧ FloatOps.isnan (B32.lit false 500 (-1)) = false
    ∧ (SensorDataUploader.construct : SensorDataUploader B32).has_last_data_ = false
    ∧ unchanged (SensorDataUploader.construct : SensorDataUploader B32)
        (B32.lit false 200 (-1)) (B32.lit false 500 (-1)) = false
    ∧ attemptsNetwork (UploadSensorData (SensorDataUploader.construct : SensorDataUploader B32)
        (completes 200) (B32.lit false 200 (-1)) (B32.lit false 500 (-1)) (some 5)).events
        = false
    ∧ UploadSensorData (SensorDataUploader.construct : SensorDataUploader B32)
        (completes 200) (B32.lit false 200 (-1)) (B32.lit false 500 (-1)) (some 5)
      = { ret := false, uploader := SensorDataUploader.construct,
          events :=
            [UploadEvent.buildJson
               (JsonText.object none (B32.lit false 200 (-1)) (B32.lit false 500 (-1)) 61000),
             UploadEvent.callback 5 false "Upload URL not configured".toList] } := by
  decide

/-- C4, as amended.  For non-NaN inputs `UploadSensorData` skips the upload
(returns `true` and does nothing but invoke the callback with `true` and
"Data unchanged") exactly when a previous successful upload exists and
`|temperature - last_temperature_| < 0.1f` and
`|humidity - last_humidity_| < 1.0f`; the skip makes no network attempt.  In
every other case, in particular whenever no upload has succeeded yet, it
attempts the network call if an upload URL is configured, and otherwise
returns `false` after "Upload URL not configured" without a network attempt.
On binary32, after a successful upload of `(20.0, 50.0)`, the reading
`(20.05, 50.9)` is skipped and `(20.2, 50.0)` is attempted. -/
theorem UploadSensorData_dedup {F : Type} [FloatOps F] (u : SensorDataUploader F)
    (env : UploadEnv) (temperature humidity : F) (callback : Option Nat)
    (ht : FloatOps.isnan temperature = false) (hh : FloatOps.isnan humidity = false) :
    (((UploadSensorData u env temperature humidity callback).ret = true
        ∧ (UploadSensorData u env temperature humidity callback).events
            = invoke callback true "Data unchanged".toList)
      ↔ (u.has_last_data_ = true
        ∧ FloatOps.lt (FloatOps.abs (FloatOps.sub temperature u.last_temperature_))
            (FloatOps.lit false 1 (-1) : F) = true
        ∧ FloatOps.lt (FloatOps.abs (FloatOps.sub humidity u.last_humidity_))
            (FloatOps.lit false 10 (-1) : F) = true))
    ∧ (unchanged u temperature humidity = true →
        attemptsNetwork (UploadSensorData u env temperature humidity callback).events = false)
    ∧ (unchanged u temperature humidity = false → u.upload_url_ ≠ [] →
        attemptsNetwork (UploadSensorData u env temperature humidity callback).events = true)
    ∧ (unchanged u temperature humidity = false → u.upload_url_ = [] →
        UploadSensorData u env temperature humidity callback
          = { ret := false, uploader := u,
              events := UploadEvent.buildJson (BuildJson u env temperature humidity)
                :: invoke callback false "Upload URL not configured".toList })
    ∧ (u.has_last_data_ = false → unchanged u temperature humidity = false)
    ∧ (uploaded2050.has_last_data_ = true
        ∧ uploaded2050.last_temperature_ = B32.lit false 200 (-1)
        ∧ uploaded2050.last_humidity_ = B32.lit false 500 (-1)
        ∧ UploadSensorData uploaded2050 (completes 200) (B32.lit false 2005 (-2))
            (B32.lit false 509 (-1)) (some 5)
          = { ret := true, uploader := uploaded2050,
              events := [UploadEvent.callback 5 true "Data unchanged".toList] }
        ∧ attemptsNetwork (UploadSensorData uploaded2050 (completes 200)
            (B32.lit false 202 (-1)) (B32.lit false 500 (-1)) (some 5)).events = true) := by
  refine ⟨?_, ?_, ?_, ?_, ?_, by decide⟩
  · rw [← unchanged_iff]
    constructor
    · intro hskip
      cases hsame : unchanged u temperature humidity with
      | true => rfl
      | false =>
        exfalso
        rw [UploadSensorData_post u env temperature humidity callback ht hh hsame] at hskip
        exact invoke_ne_cons_json callback true _ _ _ hskip.2
    · intro hsame
      rw [UploadSensorData_unchanged u env temperature humidity callback ht hh hsame]
      exact ⟨rfl, rfl⟩
  · intro hsame
    rw [UploadSensorData_unchanged u env temperature humidity callback ht hh hsame]
    exact invoke_not_http callback true _
  · intro hnew hurl
    rw [UploadSensorData_post u env temperature humidity callback ht hh hnew]
    have := (PostData_url u env (BuildJson u env temperature humidity) callback hurl).2.1
    simpa [attemptsNetwork, UploadEvent.isHttpPerform] using this
  · intro hnew hurl
    rw [UploadSensorData_post u env temperature humidity callback ht hh hnew,
      PostData_no_url u env _ callback hurl]
    rfl
  · intro hlast
    simp [unchanged, hlast]

/-- Witness of C4 as amended: the board's uploader after the upload of
`(20.0, 50.0)`, called with `(20.05, 50.9)` and no callback. -/
theorem UploadSensorData_dedup_witness :
    (FloatOps.isnan (B32.lit false 2005 (-2)) = false
      ∧ FloatOps.isnan (B32.lit false 509 (-1)) = false)
    ∧ (((UploadSensorData uploaded2050 refuses (B32.lit false 2005 (-2))
            (B32.lit false 509 (-1)) none).ret = true
        ∧ (UploadSensorData uploaded2050 refuses (B32.lit false 2005 (-2))
            (B32.lit false 509 (-1)) none).events
            = invoke none true "Data unchanged".toList)
      ↔ (uploaded2050.has_last_data_ = true
        ∧ FloatOps.lt (FloatOps.abs
              (FloatOps.sub (B32.lit false 2005 (-2)) uploaded2050.last_temperature_))
            (FloatOps.lit false 1 (-1) : B32) = true
        ∧ FloatOps.lt (FloatOps.abs
              (FloatOps.sub (B32.lit false 509 (-1)) uploaded2050.last_humidity_))
            (FloatOps.lit false 10 (-1) : B32) = true)) :=
  ⟨by decide,
   (UploadSensorData_dedup uploaded2050 refuses (B32.lit false 2005 (-2))
      (B32.lit false 509 (-1)) none (by decide) (by decide)).1⟩

/-- C6.  The deduplication baseline changes only on a successful push.  If
`UploadSensorData` ends in the NaN rejection, in the deduplication skip, in
the missing-URL failure or in a transport failure, the object afterwards is
the object before, so `last_temperature_`, `last_humidity_` and
`has_last_data_` are unchanged; after a transport failure a call with the
same values attempts the network again; and whenever one of the three fields
differs afterwards, the request was performed and completed and the call
returned `true`. -/
theorem UploadSensorData_baseline {F : Type} [FloatOps F] (u : SensorDataUploader F)
    (env : UploadEnv) (temperature humidity : F) (callback : Option Nat) :
    ((FloatOps.isnan temperature = true ∨ FloatOps.isnan humidity = true) →
        (UploadSensorData u env temperature humidity callback).uploader = u)
    ∧ (FloatOps.isnan temperature = false → FloatOps.isnan humidity = false →
        unchanged u temperature humidity = true →
        (UploadSensorData u env temperature humidity callback).uploader = u)
    ∧ (FloatOps.isnan temperature = false → FloatOps.isnan humidity = false →
        unchanged u temperature humidity = false → u.upload_url_ = [] →
        (UploadSensorData u env temperature humidity callback).ret = false
        ∧ (UploadSensorData u env temperature humidity callback).uploader = u)
    ∧ (FloatOps.isnan temperature = false → FloatOps.isnan humidity = false →
        unchanged u temperature humidity = false → u.upload_url_ ≠ [] → env.err ≠ 0 →
        (UploadSensorData u env temperature humidity callback).ret = false
        ∧ (UploadSensorData u env temperature humidity callback).uploader = u
        ∧ ∀ (env2 : UploadEnv) (callback2 : Option Nat),
            attemptsNetwork
              (UploadSensorData (UploadSensorData u env temperature humidity callback).uploader
                env2 temperature humidity callback2).events = true)
    ∧ (((UploadSensorData u env temperature humidity callback).uploader.last_temperature_
            ≠ u.last_temperature_
          ∨ (UploadSensorData u env temperature humidity callback).uploader.last_humidity_
            ≠ u.last_humidity_
          ∨ (UploadSensorData u env temperature humidity callback).uploader.has_last_data_
            ≠ u.has_last_data_) →
        env.err = 0
        ∧ attemptsNetwork (UploadSensorData u env temperature humidity callback).events = true
        ∧ (UploadSensorData u env temperature humidity callback).ret = true) := by
  have hfail : ∀ env1 : UploadEnv, FloatOps.isnan temperature = false →
      FloatOps.isnan humidity = false → unchanged u temperature humidity = false →
      u.upload_url_ ≠ [] → env1.err ≠ 0 →
      (UploadSensorData u env1 temperature humidity callback).ret = false
        ∧ (UploadSensorData u env1 temperature humidity callback).uploader = u := by
    intro env1 ht hh hnew hurl herr
    have hp := (PostData_url u env1 (BuildJson u env1 temperature humidity) callback hurl).1
    rw [UploadSensorData_post u env1 temperature humidity callback ht hh hnew]
    simp [hp, herr]
  refine ⟨?_, ?_, ?_, ?_, ?_⟩
  · intro hnan
    rw [UploadSensorData_nan u env temperature humidity callback hnan]
  · intro ht hh hsame
    rw [UploadSensorData_unchanged u env temperature humidity callback ht hh hsame]
  · intro ht hh hnew hurl
    rw [UploadSensorData_post u env temperature humidity callback ht hh hnew,
      PostData_no_url u env _ callback hurl]
    exact ⟨rfl, rfl⟩
  · intro ht hh hnew hurl herr
    refine ⟨(hfail env ht hh hnew hurl herr).1, (hfail env ht hh hnew hurl herr).2, ?_⟩
    intro env2 callback2
    rw [(hfail env ht hh hnew hurl herr).2,
      UploadSensorData_post u env2 temperature humidity callback2 ht hh hnew]
    have := (PostData_url u env2 (BuildJson u env2 temperature humidity) callback2 hurl).2.1
    simpa [attemptsNetwork, UploadEvent.isHttpPerform] using this
  · intro hdiff
    cases ht : FloatOps.isnan temperature with
    | true =>
      rw [UploadSensorData_nan u env temperature humidity callback (Or.inl ht)] at hdiff
      simp at hdiff
    | false =>
      cases hh : FloatOps.isnan humidity with
      | true =>
        rw [UploadSensorData_nan u env temperature humidity callback (Or.inr hh)] at hdiff
        simp at hdiff
      | false =>
        cases hsame : unchanged u temperature humidity with
        | true =>
          rw [UploadSensorData_unchanged u env temperature humidity callback ht hh hsame]
            at hdiff
          simp at hdiff
        | false =>
          by_cases hurl : u.upload_url_ = []
          · rw [UploadSensorData_post u env temperature humidity callback ht hh hsame,
              PostData_no_url u env _ callback hurl] at hdiff
            simp at hdiff
          · by_cases herr : env.err = 0
            · have hp := PostData_url u env (BuildJson u env temperature humidity) callback hurl
              rw [UploadSensorData_post u env temperature humidity callback ht hh hsame]
              refine ⟨herr, ?_, ?_⟩
              · simpa [attemptsNetwork, UploadEvent.isHttpPerform] using hp.2.1
              · simp [hp.1, herr]
            · rw [(hfail env ht hh hsame hurl herr).2] at hdiff
              simp at hdiff


/-- Witness of C6: the board's uploader, having uploaded `(20.0, 50.0)`, meets
a transport failure with `(20.2, 50.0)`; the baseline stays and the next call
with the same values reaches the network. -/
theorem UploadSensorData_baseline_witness :
    (FloatOps.isnan (B32.lit false 202 (-1)) = false
      ∧ FloatOps.isnan (B32.lit false 500 (-1)) = false
      ∧ unchanged uploaded2050 (B32.lit false 202 (-1)) (B32.lit false 500 (-1)) = false
      ∧ uploaded2050.upload_url_ ≠ [] ∧ refuses.err ≠ 0)
    ∧ (UploadSensorData uploaded2050 refuses (B32.lit false 202 (-1))
          (B32.lit false 500 (-1)) none).ret = false
    ∧ (UploadSensorData uploaded2050 refuses (B32.lit false 202 (-1))
          (B32.lit false 500 (-1)) none).uploader = uploaded2050
    ∧ ∀ (env2 : UploadEnv) (callback2 : Option Nat),
        attemptsNetwork
          (UploadSensorData
            (UploadSensorData uploaded2050 refuses (B32.lit false 202 (-1))
              (B32.lit false 500 (-1)) none).uploader
            env2 (B32.lit false 202 (-1)) (B32.lit false 500 (-1)) callback2).events = true :=
  ⟨by decide,
   (UploadSensorData_baseline uploaded2050 refuses (B32.lit false 202 (-1))
      (B32.lit false 500 (-1)) none).2.2.2.1 (by decide) (by decide) (by decide) (by decide)
      (by decide)⟩

theorem ReadData_initialized {F : Type} [FloatOps F] (s : SHT30Sensor F) (rx : List Char)
    (temperature humidity : F) :
    (ReadData s rx temperature humidity).sensor.initialized_ = s.initialized_ := by
  cases hinit : s.initialized_ with
  | false => simp [ReadData, hinit]
  | true =>
    by_cases hne : rx = []
    · simp [ReadData, hinit, hne]
    · rw [ReadData_eq s rx temperature humidity hinit hne]
      cases ((bufLines rx).filterMap (parseLine s)).getLast? with
      | none => exact hinit
      | some v => exact hinit

theorem GetTemperature_initialized {F : Type} [FloatOps F] (s : SHT30Sensor F)
    (rx : List Char) (temp hum : F) :
    (GetTemperature s rx temp hum).2.initialized_ = s.initialized_ := by
  have h := ReadData_initialized s rx temp hum
  simp only [GetTemperature]
  cases (ReadData s rx temp hum).ok <;> simpa using h

theorem GetHumidity_initialized {F : Type} [FloatOps F] (s : SHT30Sensor F)
    (rx : List Char) (temp hum : F) :
    (GetHumidity s rx temp hum).2.initialized_ = s.initialized_ := by
  have h := ReadData_initialized s rx temp hum
  simp only [GetHumidity]
  cases (ReadData s rx temp hum).ok <;> simpa using h

theorem checkTransition_fields {F : Type} (b : CompactWifiBoardLCD F) (cur : DeviceState) :
    (checkTransition b cur).1.display_ = b.display_
    ∧ (checkTransition b cur).1.sht30_sensor_ = b.sht30_sensor_
    ∧ (checkTransition b cur).1.sensor_uploader_ = b.sensor_uploader_
    ∧ (checkTransition b cur).1.upload_counter_ = b.upload_counter_
    ∧ (checkTransition b cur).1.last_device_state_ = cur := by
  unfold checkTransition
  by_cases h : cur = b.last_device_state_
  · simp [h]
  · simp [h]

/-- The sensor poll with a successful read, spelled out. -/
theorem pollSensor_ok {F : Type} [FloatOps F] (b : CompactWifiBoardLCD F) (tk : Tick F)
    (sensor : SHT30Sensor F) (hd : b.display_ = true) (hs : b.sht30_sensor_ = some sensor)
    (hinit : sensor.initialized_ = true)
    (hok : (ReadData sensor tk.rx tk.temp tk.humi).ok = true) :
    pollSensor b tk =
      if 60 ≤ b.upload_counter_ + 1 then
        match b.sensor_uploader_ with
        | some u =>
          ({ b with sht30_sensor_ := some (ReadData sensor tk.rx tk.temp tk.humi).sensor,
                    sensor_uploader_ := some
                      (UploadSensorData u tk.env (ReadData sensor tk.rx tk.temp tk.humi).temperature
                        (ReadData sensor tk.rx tk.temp tk.humi).humidity none).uploader,
                    upload_counter_ := 0 },
           [BoardEvent.UpdateStandbyTemperatureHumidity
              (ReadData sensor tk.rx tk.temp tk.humi).temperature
              (ReadData sensor tk.rx tk.temp tk.humi).humidity]
            ++ BoardEvent.UploadSensorData (ReadData sensor tk.rx tk.temp tk.humi).temperature
                (ReadData sensor tk.rx tk.temp tk.humi).humidity none
              :: (UploadSensorData u tk.env (ReadData sensor tk.rx tk.temp tk.humi).temperature
                  (ReadData sensor tk.rx tk.temp tk.humi).humidity none).events.map
                  BoardEvent.uploader)
        | none =>
          ({ b with sht30_sensor_ := some (ReadData sensor tk.rx tk.temp tk.humi).sensor,
                    upload_counter_ := 0 },
           [BoardEvent.UpdateStandbyTemperatureHumidity
              (ReadData sensor tk.rx tk.temp tk.humi).temperature
              (ReadData sensor tk.rx tk.temp tk.humi).humidity])
      else
        ({ b with sht30_sensor_ := some (ReadData sensor tk.rx tk.temp tk.humi).sensor,
                  upload_counter_ := b.upload_counter_ + 1 },
         [BoardEvent.UpdateStandbyTemperatureHumidity
            (ReadData sensor tk.rx tk.temp tk.humi).temperature
            (ReadData sensor tk.rx tk.temp tk.humi).humidity]) := by
  simp only [pollSensor, hd, hs, hinit, hok, if_true]

/-- The sensor poll without a successful read, spelled out. -/
theorem pollSensor_fail {F : Type} [FloatOps F] (b : CompactWifiBoardLCD F) (tk : Tick F)
    (hd : b.display_ = true) (hfail : tickReadOk b tk = false) :
    (pollSensor b tk).2 = [BoardEvent.UpdateStandbyTemperatureHumidity FloatOps.nan FloatOps.nan]
    ∧ (pollSensor b tk).1.upload_counter_ = b.upload_counter_
    ∧ (pollSensor b tk).1.sensor_uploader_ = b.sensor_uploader_
    ∧ (pollSensor b tk).1.display_ = b.display_
    ∧ (pollSensor b tk).1.last_device_state_ = b.last_device_state_
    ∧ (pollSensor b tk).1.sht30_sensor_
        = b.sht30_sensor_.map (fun sensor => (ReadData sensor tk.rx tk.temp tk.humi).sensor) := by
  cases hs : b.sht30_sensor_ with
  | none => simp [pollSensor, hd, hs]
  | some sensor =>
    cases hinit : sensor.initialized_ with
    | false =>
      simp [pollSensor, hd, hs, hinit, ReadData]
    | true =>
      have hok : (ReadData sensor tk.rx tk.temp tk.humi).ok = false := by
        simpa [tickReadOk, hd, hs, hinit] using hfail
      simp [pollSensor, hd, hs, hinit, hok]


theorem tickReadOk_true {F : Type} [FloatOps F] {b : CompactWifiBoardLCD F} {tk : Tick F}
    (h : tickReadOk b tk = true) :
    b.display_ = true ∧ ∃ sensor, b.sht30_sensor_ = some sensor ∧ sensor.initialized_ = true
      ∧ (ReadData sensor tk.rx tk.temp tk.humi).ok = true := by
  cases hs : b.sht30_sensor_ with
  | none => simp [tickReadOk, hs] at h
  | some sensor =>
    simp only [tickReadOk, hs, Bool.and_eq_true] at h
    exact ⟨h.1, sensor, rfl, h.2.1, h.2.2⟩

theorem tickReadOk_checkTransition {F : Type} [FloatOps F] (b : CompactWifiBoardLCD F)
    (tk : Tick F) : tickReadOk (checkTransition b tk.current_state).1 tk = tickReadOk b tk := by
  have h := checkTransition_fields b tk.current_state
  simp only [tickReadOk, h.1, h.2.1]

theorem filter_uploader_events {F : Type} (p : BoardEvent F → Bool)
    (hp : ∀ e, p (BoardEvent.uploader e) = false) (events : List (UploadEvent F)) :
    (events.map BoardEvent.uploader).filter p = [] := by
  induction events with
  | nil => rfl
  | cons e es ih => simp [List.filter, hp, ih]

/-- The events of the sensor poll: no visibility action; one push to the
screen; an upload call exactly on a successful read that brings the counter
to 60 or beyond while an uploader exists. -/
theorem pollSensor_events {F : Type} [FloatOps F] (b : CompactWifiBoardLCD F) (tk : Tick F) :
    (pollSensor b tk).2.filter BoardEvent.isVisibility = []
    ∧ (pollSensor b tk).1.last_device_state_ = b.last_device_state_
    ∧ (pollSensor b tk).1.display_ = b.display_ := by
  cases hd : b.display_ with
  | false => simp [pollSensor, hd]
  | true =>
    cases hr : tickReadOk b tk with
    | false =>
      have h := pollSensor_fail b tk hd hr
      rw [h.1]
      exact ⟨rfl, h.2.2.2.2.1, h.2.2.2.1.trans hd⟩
    | true =>
      obtain ⟨_, sensor, hs, hinit, hok⟩ := tickReadOk_true hr
      rw [pollSensor_ok b tk sensor hd hs hinit hok]
      by_cases hc : 60 ≤ b.upload_counter_ + 1
      · cases hu : b.sensor_uploader_ with
        | none => simp [hc, BoardEvent.isVisibility, hd]
        | some u =>
          have hup := filter_uploader_events (F := F) BoardEvent.isVisibility (fun _ => rfl)
          simp [hc, BoardEvent.isVisibility, hd, hup]
      · simp [hc, BoardEvent.isVisibility, hd]

theorem switchState_visibility {F : Type} (display_ : Bool) (cur : DeviceState) :
    (switchState display_ cur : List (BoardEvent F)).filter BoardEvent.isVisibility
      = switchState display_ cur := by
  cases display_ <;> cases cur <;> rfl

theorem switchState_table {F : Type} (cur : DeviceState) :
    (switchState true cur : List (BoardEvent F)) = transitionTable cur := by
  cases cur <;> rfl

theorem switchState_length {F : Type} (display_ : Bool) (cur : DeviceState) :
    (switchState display_ cur : List (BoardEvent F)).length ≤ 1 := by
  cases display_ <;> cases cur <;> simp [switchState]

theorem CheckDeviceState_visibility {F : Type} [FloatOps F] (b : CompactWifiBoardLCD F)
    (tk : Tick F) :
    (CheckDeviceState b tk).2.filter BoardEvent.isVisibility
      = if tk.current_state ≠ b.last_device_state_ then switchState b.display_ tk.current_state
        else [] := by
  simp only [CheckDeviceState, List.filter_append, (pollSensor_events _ tk).1,
    List.append_nil, checkTransition]
  by_cases h : tk.current_state = b.last_device_state_
  · simp [h]
  · simp [h, switchState_visibility]

theorem CheckDeviceState_last {F : Type} [FloatOps F] (b : CompactWifiBoardLCD F)
    (tk : Tick F) : (CheckDeviceState b tk).1.last_device_state_ = tk.current_state := by
  simp only [CheckDeviceState, (pollSensor_events _ tk).2.1]
  exact (checkTransition_fields b tk.current_state).2.2.2.2


theorem BoardInv_construct {F : Type} [FloatOps F] (uart_ok : Bool) (logger : Nat) :
    BoardInv (CompactWifiBoardLCD.construct uart_ok logger : CompactWifiBoardLCD F) := by
  cases uart_ok
  · exact ⟨rfl, le_refl _, (by show (0 : Int) ≤ 59; decide), _, rfl, fun h => by cases h⟩
  · exact ⟨rfl, le_refl _, (by show (0 : Int) ≤ 59; decide), _, rfl, fun _ => ⟨_, rfl⟩⟩

theorem BoardInv_checkTransition {F : Type} (b : CompactWifiBoardLCD F) (cur : DeviceState)
    (h : BoardInv b) : BoardInv (checkTransition b cur).1 := by
  have hf := checkTransition_fields b cur
  unfold BoardInv
  rw [hf.1, hf.2.1, hf.2.2.1, hf.2.2.2.1]
  exact h

theorem BoardInv_pollSensor {F : Type} [FloatOps F] (b : CompactWifiBoardLCD F) (tk : Tick F)
    (h : BoardInv b) : BoardInv (pollSensor b tk).1 := by
  obtain ⟨hd, hlo, hhi, sensor, hs, hup⟩ := h
  cases hr : tickReadOk b tk with
  | false =>
    have hf := pollSensor_fail b tk hd hr
    refine ⟨hf.2.2.2.1.trans hd, hf.2.1 ▸ hlo, hf.2.1 ▸ hhi,
      (ReadData sensor tk.rx tk.temp tk.humi).sensor, ?_, ?_⟩
    · rw [hf.2.2.2.2.2, hs]; rfl
    · intro hi
      rw [ReadData_initialized] at hi
      rw [hf.2.2.1]
      exact hup hi
  | true =>
    obtain ⟨_, sensor2, hs2, hinit, hok⟩ := tickReadOk_true hr
    have hsame : sensor2 = sensor := Option.some.inj (hs2.symm.trans hs)
    subst hsame
    obtain ⟨u, hu⟩ := hup hinit
    rw [pollSensor_ok b tk sensor2 hd hs hinit hok, hu]
    by_cases hc : 60 ≤ b.upload_counter_ + 1
    · simp only [hc, if_true]
      exact ⟨hd, le_refl _, (by show (0 : Int) ≤ 59; decide), _, rfl, fun _ => ⟨_, rfl⟩⟩
    · simp only [hc, if_false]
      exact ⟨hd, by show 0 ≤ b.upload_counter_ + 1; omega,
        by show b.upload_counter_ + 1 ≤ 59; omega, _, rfl, fun _ => ⟨u, rfl⟩⟩

theorem BoardInv_CheckDeviceState {F : Type} [FloatOps F] (b : CompactWifiBoardLCD F)
    (tk : Tick F) (h : BoardInv b) : BoardInv (CheckDeviceState b tk).1 :=
  BoardInv_pollSensor _ tk (BoardInv_checkTransition b tk.current_state h)

theorem BoardInv_readTool {F : Type} [FloatOps F] (b : CompactWifiBoardLCD F)
    (rx1 rx2 : List Char) (t1 h1 t2 h2 : F) (h : BoardInv b) :
    BoardInv (readTool b rx1 rx2 t1 h1 t2 h2) := by
  obtain ⟨hd, hlo, hhi, sensor, hs, hup⟩ := h
  simp only [readTool, hs]
  refine ⟨hd, hlo, hhi, _, rfl, ?_⟩
  intro hi
  rw [GetHumidity_initialized, GetTemperature_initialized] at hi
  exact hup hi

theorem Reachable_inv {F : Type} [FloatOps F] {b : CompactWifiBoardLCD F}
    (h : Reachable b) : BoardInv b := by
  induction h with
  | construct uart_ok logger => exact BoardInv_construct uart_ok logger
  | tick b tk _ ih => exact BoardInv_CheckDeviceState b tk ih
  | tool b rx1 rx2 t1 h1 t2 h2 _ ih => exact BoardInv_readTool b rx1 rx2 t1 h1 t2 h2 ih

theorem checkTransition_events {F : Type} (b : CompactWifiBoardLCD F) (cur : DeviceState) :
    (checkTransition b cur).2.filter BoardEvent.isDisplayUpdate = []
    ∧ (checkTransition b cur).2.filter BoardEvent.isUploadCall = [] := by
  unfold checkTransition
  by_cases h : cur = b.last_device_state_
  · simp [h]
  · simp only [ne_eq, h, not_false_eq_true, if_true]
    cases b.display_ <;> cases cur <;> exact ⟨rfl, rfl⟩

/-- A tick of a state that satisfies the invariant, with a successful read. -/
theorem CheckDeviceState_read_ok {F : Type} [FloatOps F] (b : CompactWifiBoardLCD F)
    (tk : Tick F) (hinv : BoardInv b) (hok : tickReadOk b tk = true) :
    ∃ sensor, b.sht30_sensor_ = some sensor
      ∧ (CheckDeviceState b tk).2.filter BoardEvent.isDisplayUpdate
          = [BoardEvent.UpdateStandbyTemperatureHumidity
              (ReadData sensor tk.rx tk.temp tk.humi).temperature
              (ReadData sensor tk.rx tk.temp tk.humi).humidity]
      ∧ (CheckDeviceState b tk).2.filter BoardEvent.isUploadCall
          = (if b.upload_counter_ + 1 = 60 then
              [BoardEvent.UploadSensorData (ReadData sensor tk.rx tk.temp tk.humi).temperature
                (ReadData sensor tk.rx tk.temp tk.humi).humidity none]
            else [])
      ∧ (CheckDeviceState b tk).1.upload_counter_
          = (if b.upload_counter_ + 1 = 60 then 0 else b.upload_counter_ + 1) := by
  have hf := checkTransition_fields b tk.current_state
  have hinv1 := BoardInv_checkTransition b tk.current_state hinv
  have hok1 : tickReadOk (checkTransition b tk.current_state).1 tk = true := by
    rw [tickReadOk_checkTransition]; exact hok
  obtain ⟨hd, sensor, hs, hinit, hread⟩ := tickReadOk_true hok1
  obtain ⟨_, _, hhi, sensor2, hs2, hup⟩ := hinv1
  obtain ⟨u, hu⟩ := hup (by
    have : sensor2 = sensor := Option.some.inj (hs2.symm.trans hs)
    rw [this]; exact hinit)
  have hev := checkTransition_events b tk.current_state
  refine ⟨sensor, hf.2.1 ▸ hs, ?_⟩
  simp only [CheckDeviceState, List.filter_append, hev.1, hev.2, List.nil_append,
    pollSensor_ok _ tk sensor hd hs hinit hread, hu, hf.2.2.2.1]
  rw [hf.2.2.2.1] at hhi
  have hup2 := filter_uploader_events (F := F) BoardEvent.isUploadCall (fun _ => rfl)
  have hup3 := filter_uploader_events (F := F) BoardEvent.isDisplayUpdate (fun _ => rfl)
  by_cases hc : b.upload_counter_ + 1 = 60
  · have h60 : (60 : Int) ≤ b.upload_counter_ + 1 := by omega
    simp [hc, BoardEvent.isDisplayUpdate, BoardEvent.isUploadCall, hup2, hup3]
  · have h60 : ¬ (60 : Int) ≤ b.upload_counter_ + 1 := by omega
    simp [hc, h60, BoardEvent.isDisplayUpdate, BoardEvent.isUploadCall]


theorem runTicks_quiet {F : Type} [FloatOps F] (tks : List (Tick F)) :
    ∀ b : CompactWifiBoardLCD F, (∀ t ∈ tks, t.current_state = b.last_device_state_) →
      visibilityActions (runTicks b tks).2 = [] := by
  induction tks with
  | nil => intro b _; rfl
  | cons tk rest ih =>
    intro b hall
    have hcur : tk.current_state = b.last_device_state_ := hall tk (List.mem_cons_self _ _)
    have hnext : ∀ t ∈ rest, t.current_state = (CheckDeviceState b tk).1.last_device_state_ := by
      intro t ht
      rw [CheckDeviceState_last, hcur]
      exact hall t (List.mem_cons_of_mem _ ht)
    simp only [runTicks, visibilityActions, CheckDeviceState_visibility, hcur, ne_eq,
      not_true_eq_false, if_false, List.nil_append]
    exact ih _ hnext

theorem any_eq_filter {α : Type} (p : α → Bool) (l : List α) :
    l.any p = !(l.filter p).isEmpty := by
  induction l with
  | nil => rfl
  | cons a as ih =>
    cases hp : p a <;> simp [List.filter, hp, ih]

theorem runTicks_uploads {F : Type} [FloatOps F] (tks : List (Tick F)) :
    ∀ b : CompactWifiBoardLCD F, BoardInv b → allReadsOk b tks = true →
      (runTicks b tks).2.map callsUpload
        = (List.range tks.length).map
            (fun k : Nat => decide ((b.upload_counter_ + (k : Int) + 1) % 60 = 0)) := by
  induction tks with
  | nil => intro b _ _; rfl
  | cons tk rest ih =>
    intro b hinv hall
    simp only [allReadsOk, Bool.and_eq_true] at hall
    obtain ⟨sensor, _, _, hcall, hcount⟩ := CheckDeviceState_read_ok b tk hinv hall.1
    have hrest := ih _ (BoardInv_CheckDeviceState b tk hinv) hall.2
    obtain ⟨_, hlo, hhi, _⟩ := hinv
    simp only [runTicks, List.map_cons, List.length_cons, List.range_succ_eq_map, hrest,
      List.map_map]
    congr 1
    · rw [callsUpload, any_eq_filter, hcall]
      by_cases hc : b.upload_counter_ + 1 = 60
      · have hmod : (b.upload_counter_ + ((0 : Nat) : Int) + 1) % 60 = 0 := by
          push_cast; omega
        simp [hc, hmod]
      · simp only [hc, if_false, List.isEmpty_nil, Bool.not_true, Nat.cast_zero, add_zero]
        symm
        rw [decide_eq_false_iff_not]
        omega
    · apply List.map_congr_left
      intro k _
      simp only [Function.comp, hcount]
      by_cases hc : b.upload_counter_ + 1 = 60
      · simp only [hc, if_true]
        congr 1
        apply propext
        constructor <;> intro h <;> push_cast at h ⊢ <;> omega
      · simp only [hc, if_false]
        congr 1
        apply propext
        constructor <;> intro h <;> push_cast at h ⊢ <;> omega


/-- C8.  For every pair of a previous and a different new activity state, a
reachable board object whose `last_device_state_` is the previous state
exists, and in every such object one run of `CheckDeviceState` that observes
the new state takes the display action of the transition table, which
depends on the new state alone: show for Idle; hide for Listening, Speaking,
WifiConfiguring, Connecting, Activating, Upgrading and AudioTesting; nothing
for Starting and FatalError; show for every other value, Unknown included. -/
theorem CheckDeviceState_transition_table {F : Type} [FloatOps F]
    (previous_state new_state : DeviceState) (hne : previous_state ≠ new_state) :
    (∃ b : CompactWifiBoardLCD F, Reachable b ∧ b.last_device_state_ = previous_state)
    ∧ ∀ (b : CompactWifiBoardLCD F) (tk : Tick F), Reachable b →
        b.last_device_state_ = previous_state → tk.current_state = new_state →
        (CheckDeviceState b tk).2.filter BoardEvent.isVisibility = transitionTable new_state := by
  constructor
  · refine ⟨(CheckDeviceState (CompactWifiBoardLCD.construct false 0)
      { current_state := previous_state, rx := [], temp := FloatOps.nan,
        humi := FloatOps.nan, env := completes 200 }).1, ?_, ?_⟩
    · exact Reachable.tick _ _ (Reachable.construct false 0)
    · exact CheckDeviceState_last _ _
  · intro b tk hreach hprev hnew
    have hd := (Reachable_inv hreach).1
    rw [CheckDeviceState_visibility, hd, hprev, hnew, if_pos (Ne.symm hne), switchState_table]

/-- Witness of C8: the freshly constructed board (previous state Unknown)
observes Listening and hides the standby screen. -/
theorem CheckDeviceState_transition_table_witness :
    DeviceState.kDeviceStateUnknown ≠ DeviceState.kDeviceStateListening
    ∧ (CheckDeviceState board (goodTick DeviceState.kDeviceStateListening)).2.filter
        BoardEvent.isVisibility = [BoardEvent.HideStandbyScreen] :=
  ⟨by decide,
   (CheckDeviceState_transition_table (F := B32) DeviceState.kDeviceStateUnknown
      DeviceState.kDeviceStateListening (by decide)).2 board
      (goodTick DeviceState.kDeviceStateListening) (Reachable.construct true 1) rfl rfl⟩

/-- C9.  In every state of the board object, reachable or not, after a tick
`last_device_state_` is the activity state observed in that tick, and a tick
that observes the state already stored issues no show and no hide; hence a
run of ticks that all observe the same state issues at most one such action,
from whatever state it starts, in particular from the constructed one, whose
`last_device_state_` is Unknown. -/
theorem CheckDeviceState_last_state {F : Type} [FloatOps F] (b : CompactWifiBoardLCD F)
    (tk : Tick F) (tks : List (Tick F))
    (hsame : ∀ t ∈ tks, t.current_state = tk.current_state) :
    (CheckDeviceState b tk).1.last_device_state_ = tk.current_state
    ∧ (tk.current_state = b.last_device_state_ →
        (CheckDeviceState b tk).2.filter BoardEvent.isVisibility = [])
    ∧ (visibilityActions (runTicks b (tk :: tks)).2).length ≤ 1
    ∧ (∀ (uart_ok : Bool) (logger : Nat),
        (CompactWifiBoardLCD.construct uart_ok logger : CompactWifiBoardLCD F).last_device_state_
          = DeviceState.kDeviceStateUnknown
        ∧ (visibilityActions
            (runTicks (CompactWifiBoardLCD.construct uart_ok logger : CompactWifiBoardLCD F)
              (tk :: tks)).2).length ≤ 1) := by
  have hrun : ∀ b0 : CompactWifiBoardLCD F,
      (visibilityActions (runTicks b0 (tk :: tks)).2).length ≤ 1 := by
    intro b0
    have hquiet := runTicks_quiet tks (CheckDeviceState b0 tk).1
      (fun t ht => by rw [CheckDeviceState_last]; exact hsame t ht)
    simp only [runTicks, visibilityActions, hquiet, List.append_nil,
      CheckDeviceState_visibility]
    split
    · exact switchState_length _ _
    · exact Nat.zero_le _
  refine ⟨CheckDeviceState_last b tk, ?_, hrun b, fun uart_ok logger => ⟨rfl, hrun _⟩⟩
  intro hcur
  rw [CheckDeviceState_visibility, if_neg (by simp [hcur])]

/-- Witness of C9: three ticks that observe Idle after construction; the
first shows the standby screen, the others do nothing to its visibility. -/
theorem CheckDeviceState_last_state_witness :
    (∀ t ∈ [goodTick DeviceState.kDeviceStateIdle, goodTick DeviceState.kDeviceStateIdle],
        t.current_state = (goodTick DeviceState.kDeviceStateIdle).current_state)
    ∧ (CheckDeviceState board (goodTick DeviceState.kDeviceStateIdle)).1.last_device_state_
        = DeviceState.kDeviceStateIdle
    ∧ (visibilityActions (runTicks board
        (goodTick DeviceState.kDeviceStateIdle ::
          [goodTick DeviceState.kDeviceStateIdle,
           goodTick DeviceState.kDeviceStateIdle])).2).length ≤ 1 :=
  ⟨by decide,
   (CheckDeviceState_last_state board (goodTick DeviceState.kDeviceStateIdle)
      [goodTick DeviceState.kDeviceStateIdle, goodTick DeviceState.kDeviceStateIdle]
      (by decide)).1,
   (CheckDeviceState_last_state board (goodTick DeviceState.kDeviceStateIdle)
      [goodTick DeviceState.kDeviceStateIdle, goodTick DeviceState.kDeviceStateIdle]
      (by decide)).2.2.1⟩

/-- C10.  In every reachable state of the board object, a tick whose sensor
read succeeds pushes exactly the read `(temperature, humidity)` to the standby
screen and increments `upload_counter_`; it calls `UploadSensorData`, once and
with that same reading and a null callback, exactly when the incremented
counter is 60, and the counter is then 0; otherwise it makes no upload call
and the counter keeps the incremented value.  Hence in a run of ticks with
successful reads that starts with the counter at 0, the ticks that call
`UploadSensorData` are the 60th, the 120th and so on, and no other. -/
theorem CheckDeviceState_upload_cadence {F : Type} [FloatOps F]
    (b : CompactWifiBoardLCD F) (hreach : Reachable b) :
    (∀ tk : Tick F, tickReadOk b tk = true →
      ∃ sensor, b.sht30_sensor_ = some sensor
        ∧ (CheckDeviceState b tk).2.filter BoardEvent.isDisplayUpdate
            = [BoardEvent.UpdateStandbyTemperatureHumidity
                (ReadData sensor tk.rx tk.temp tk.humi).temperature
                (ReadData sensor tk.rx tk.temp tk.humi).humidity]
        ∧ (CheckDeviceState b tk).2.filter BoardEvent.isUploadCall
            = (if b.upload_counter_ + 1 = 60 then
                [BoardEvent.UploadSensorData (ReadData sensor tk.rx tk.temp tk.humi).temperature
                  (ReadData sensor tk.rx tk.temp tk.humi).humidity none]
              else [])
        ∧ (CheckDeviceState b tk).1.upload_counter_
            = (if b.upload_counter_ + 1 = 60 then 0 else b.upload_counter_ + 1))
    ∧ (∀ tks : List (Tick F), b.upload_counter_ = 0 → allReadsOk b tks = true →
        (runTicks b tks).2.map callsUpload
          = (List.range tks.length).map (fun k : Nat => decide ((k + 1) % 60 = 0))) := by
  have hinv := Reachable_inv hreach
  refine ⟨fun tk hok => CheckDeviceState_read_ok b tk hinv hok, ?_⟩
  intro tks hzero hall
  rw [runTicks_uploads tks b hinv hall, hzero]
  apply List.map_congr_left
  intro k _
  congr 1
  apply propext
  constructor <;> intro h <;> omega

/-- Witness of C10: 120 ticks with the line `R:039.2RH 023.3C` after
construction with a working serial port. -/
theorem CheckDeviceState_upload_cadence_witness :
    (Reachable board
      ∧ board.upload_counter_ = 0
      ∧ allReadsOk board (List.replicate 120 (goodTick DeviceState.kDeviceStateIdle)) = true)
    ∧ (runTicks board (List.replicate 120 (goodTick DeviceState.kDeviceStateIdle))).2.map
        callsUpload
      = (List.range (List.replicate 120 (goodTick DeviceState.kDeviceStateIdle)).length).map
          (fun k : Nat => decide ((k + 1) % 60 = 0)) :=
  ⟨⟨Reachable.construct true 1, rfl, by decide⟩,
   (CheckDeviceState_upload_cadence board (Reachable.construct true 1)).2
     (List.replicate 120 (goodTick DeviceState.kDeviceStateIdle)) rfl (by decide)⟩

/-! ## Calibration, failure outcomes and unterminated lines of `SHT30Sensor` -/

theorem ReadData_dead {F : Type} [FloatOps F] (s : SHT30Sensor F) (rx : List Char)
    (temperature humidity : F) (hdead : s.initialized_ = false) :
    ReadData s rx temperature humidity
      = { ok := false, temperature := temperature, humidity := humidity, sensor := s } := by
  simp [ReadData, hdead]

theorem SensorCall_run_initialized {F : Type} [FloatOps F] (s : SHT30Sensor F)
    (call : SensorCall F) : (SensorCall.run s call).initialized_ = s.initialized_ := by
  cases call with
  | ReadData rx t h => exact ReadData_initialized s rx t h
  | GetTemperature rx t h => exact GetTemperature_initialized s rx t h
  | GetHumidity rx t h => exact GetHumidity_initialized s rx t h
  | GetJsonData rx t h => exact ReadData_initialized s rx t h
  | SetTemperatureOffset offset => rfl
  | SetHumidityOffset offset => rfl
  | CalibrateTemperature rx t h actual => exact GetTemperature_initialized s rx t h
  | CalibrateHumidity rx t h actual => exact GetHumidity_initialized s rx t h

theorem foldl_run_initialized {F : Type} [FloatOps F] (calls : List (SensorCall F)) :
    ∀ s : SHT30Sensor F, (calls.foldl SensorCall.run s).initialized_ = s.initialized_ := by
  induction calls with
  | nil => intro s; rfl
  | cons call rest ih =>
    intro s
    rw [List.foldl_cons, ih, SensorCall_run_initialized]

theorem ReadData_of_no_line {F : Type} [FloatOps F] (s : SHT30Sensor F) (rx : List Char)
    (temperature humidity : F) (hinit : s.initialized_ = true)
    (hnone : ∀ line ∈ bufLines rx, parseLine s line = none) :
    ReadData s rx temperature humidity
      = { ok := false, temperature := s.temperature_, humidity := s.humidity_, sensor := s } := by
  by_cases hne : rx = []
  · simp [ReadData, hinit, hne]
  · have hres : ((bufLines rx).filterMap (parseLine s)).getLast? = none := by
      rw [List.getLast?_eq_none_iff, List.filterMap_eq_nil_iff]
      exact hnone
    rw [ReadData_eq s rx temperature humidity hinit hne, hres]

theorem bufLines_subset_splitLF {F : Type} [FloatOps F] (s : SHT30Sensor F) (rx : List Char)
    (hnone : ∀ line ∈ splitLF rx, parseLine s (cstr line) = none) :
    ∀ line ∈ bufLines rx, parseLine s line = none := by
  intro line hline
  obtain ⟨rest, hrest⟩ := bufLines_splitLF rx
  have h1 := hnone line (by rw [hrest]; exact List.mem_append_left _ hline)
  rwa [cstr_self line (fun c hc => (bufLines_char rx line hline c hc).1)] at h1

theorem bufLines_no_LF (rx : List Char) (h : LF ∉ rx) : bufLines rx = [] := by
  induction rx with
  | nil => rfl
  | cons c cs ih =>
    have hc : c ≠ LF := fun e => h (e ▸ List.mem_cons_self _ _)
    have ih2 := ih (fun hm => h (List.mem_cons_of_mem _ hm))
    by_cases hn : c = NUL
    · simp [bufLines, hn]
    · simp [bufLines, hn, hc, ih2]

theorem bufLines_tail (pre tail : List Char) (h : LF ∉ tail) :
    bufLines (pre ++ LF :: tail) = bufLines (pre ++ [LF]) := by
  induction pre with
  | nil =>
    simp [bufLines, bufLines_no_LF tail h, show LF ≠ NUL by decide]
  | cons c cs ih =>
    have ih2 : bufLines (cs.append (LF :: tail)) = bufLines (cs.append [LF]) := ih
    simp only [List.cons_append, bufLines, ih2]

/-- C12, evaluated on binary32.  The sensor of the board has the temperature
offset `-1.0f`.  `CalibrateTemperature(25.0f)` on the line `R:039.2RH 023.3C`
takes the reading 22.3, which already contains that offset, and stores the
offset 25.0 - 22.3; the next `ReadData` on the same line returns 26.0, one
degree away from the reference 25.0.  `CalibrateHumidity(50.0f)` with the
humidity offset `5.0f` ends at 45.0 in the same way.  With the offset zero
before the calibration the next read returns the reference, 25.0. -/
theorem Calibrate_compounds_offset :
    boardSensor.temperature_offset_ = B32.lit true 10 (-1)
    ∧ (ReadData boardSensor "R:039.2RH 023.3C\n".toList B32.nan B32.nan).temperature
        = B32.lit false 223 (-1)
    ∧ (ReadData
        (CalibrateTemperature boardSensor "R:039.2RH 023.3C\n".toList B32.nan B32.nan
          (B32.lit false 250 (-1)))
        "R:039.2RH 023.3C\n".toList B32.nan B32.nan).temperature = B32.lit false 260 (-1)
    ∧ (ReadData
        (CalibrateHumidity (SetHumidityOffset boardSensor (B32.lit false 50 (-1)))
          "R:039.2RH 023.3C\n".toList B32.nan B32.nan (B32.lit false 500 (-1)))
        "R:039.2RH 023.3C\n".toList B32.nan B32.nan).humidity = B32.lit false 450 (-1)
    ∧ (ReadData
        (CalibrateTemperature (SetTemperatureOffset boardSensor (B32.lit false 0 0))
          "R:039.2RH 023.3C\n".toList B32.nan B32.nan (B32.lit false 250 (-1)))
        "R:039.2RH 023.3C\n".toList B32.nan B32.nan).temperature = B32.lit false 250 (-1) := by
  decide

/-- What `CalibrateTemperature` and the read after it compute on a line of the
wire format, for every float semantics: the stored offset is
`actual - (t + old offset)`, and the next read returns `t` plus that. -/
theorem CalibrateTemperature_then_read {F : Type} [FloatOps F] (s : SHT30Sensor F)
    (mh mt : Bool) (hds tds : List Char) (hd td : Char) (temp hum temp2 hum2 actual : F)
    (hinit : s.initialized_ = true)
    (hhne : hds ≠ []) (hh : ∀ x ∈ hds, isdigit x = true) (hhd : isdigit hd = true)
    (htne : tds ≠ []) (ht : ∀ x ∈ tds, isdigit x = true) (htd : isdigit td = true) :
    (CalibrateTemperature s (wireLine (decimal1 mh hds hd) (decimal1 mt tds td) ++ [LF])
        temp hum actual).temperature_offset_
      = FloatOps.sub actual
          (FloatOps.add (FloatOps.strtof (decimal1 mt tds td)) s.temperature_offset_)
    ∧ (ReadData
        (CalibrateTemperature s (wireLine (decimal1 mh hds hd) (decimal1 mt tds td) ++ [LF])
          temp hum actual)
        (wireLine (decimal1 mh hds hd) (decimal1 mt tds td) ++ [LF]) temp2 hum2).temperature
      = FloatOps.add (FloatOps.strtof (decimal1 mt tds td))
          (FloatOps.sub actual
            (FloatOps.add (FloatOps.strtof (decimal1 mt tds td)) s.temperature_offset_)) := by
  have hlines : bufLines (wireLine (decimal1 mh hds hd) (decimal1 mt tds td) ++ [LF])
      = [wireLine (decimal1 mh hds hd) (decimal1 mt tds td)] := by
    have := bufLines_line (wireLine (decimal1 mh hds hd) (decimal1 mt tds td)) []
      (fun c hc => ⟨(wireLine_char hh hhd ht htd hc).1, (wireLine_char hh hhd ht htd hc).2.1⟩)
    simpa [bufLines] using this
  have hread : ∀ (s1 : SHT30Sensor F) (a b : F), s1.initialized_ = true →
      ReadData s1 (wireLine (decimal1 mh hds hd) (decimal1 mt tds td) ++ [LF]) a b
        = { ok := true,
            temperature :=
              FloatOps.add (FloatOps.strtof (decimal1 mt tds td)) s1.temperature_offset_,
            humidity :=
              FloatOps.add (FloatOps.strtof (decimal1 mh hds hd)) s1.humidity_offset_,
            sensor := cached s1
              (FloatOps.add (FloatOps.strtof (decimal1 mt tds td)) s1.temperature_offset_,
               FloatOps.add (FloatOps.strtof (decimal1 mh hds hd)) s1.humidity_offset_) } := by
    intro s1 a b h1
    rw [ReadData_eq s1 _ a b h1 (by simp [wireLine]), hlines]
    simp only [List.filterMap_cons, List.filterMap_nil,
      parseLine_wireLine s1 mh mt hds tds hd td hhne hh hhd htne ht htd]
    rfl
  have hcal : CalibrateTemperature s
      (wireLine (decimal1 mh hds hd) (decimal1 mt tds td) ++ [LF]) temp hum actual
      = { cached s
            (FloatOps.add (FloatOps.strtof (decimal1 mt tds td)) s.temperature_offset_,
             FloatOps.add (FloatOps.strtof (decimal1 mh hds hd)) s.humidity_offset_) with
          temperature_offset_ := FloatOps.sub actual
            (FloatOps.add (FloatOps.strtof (decimal1 mt tds td)) s.temperature_offset_) } := by
    simp only [CalibrateTemperature, GetTemperature, hread s temp hum hinit, if_true]
  have hoff : (CalibrateTemperature s
      (wireLine (decimal1 mh hds hd) (decimal1 mt tds td) ++ [LF]) temp hum
      actual).temperature_offset_
      = FloatOps.sub actual
          (FloatOps.add (FloatOps.strtof (decimal1 mt tds td)) s.temperature_offset_) := by
    rw [hcal]
  have hini : (CalibrateTemperature s
      (wireLine (decimal1 mh hds hd) (decimal1 mt tds td) ++ [LF]) temp hum
      actual).initialized_ = true := by
    rw [hcal]; exact hinit
  refine ⟨hoff, ?_⟩
  rw [hread _ temp2 hum2 hini, hoff]

/-- Counterexample to C13 as stated.  On the sensor whose serial port could
not be set up, `CalibrateTemperature(25.0f)` changes `temperature_offset_`
from 0 to 25.0, and `CalibrateHumidity(50.0f)` changes `humidity_offset_` from
0 to 50.0. -/
theorem Calibrate_dead_counterexample :
    deadSensor.initialized_ = false
    ∧ deadSensor.temperature_offset_ = B32.lit false 0 0
    ∧ (CalibrateTemperature deadSensor [] B32.nan B32.nan
        (B32.lit false 250 (-1))).temperature_offset_ = B32.lit false 250 (-1)
    ∧ (CalibrateTemperature deadSensor [] B32.nan B32.nan
        (B32.lit false 250 (-1))).temperature_offset_ ≠ deadSensor.temperature_offset_
    ∧ (CalibrateHumidity deadSensor [] B32.nan B32.nan
        (B32.lit false 500 (-1))).humidity_offset_ ≠ deadSensor.humidity_offset_ := by
  decide

/-- C13, as amended.  A sensor object with `initialized_` false, as the
constructor leaves it when the serial port cannot be set up, keeps
`IsInitialized()` false through every sequence of calls.  On it `ReadData`
returns `false` and writes nothing, `GetTemperature` and `GetHumidity` return
the cached values, and these three leave the object unchanged;
`CalibrateTemperature(actual)` and `CalibrateHumidity(actual)` leave the cache
and the other offset unchanged and set their own offset to `actual` minus the
cached value. -/
theorem SHT30Sensor_not_initialized {F : Type} [FloatOps F] (s : SHT30Sensor F)
    (hdead : s.initialized_ = false) :
    (SHT30Sensor.construct false : SHT30Sensor F).initialized_ = false
    ∧ (∀ calls : List (SensorCall F), IsInitialized (calls.foldl SensorCall.run s) = false)
    ∧ (∀ (rx : List Char) (temperature humidity : F),
        ReadData s rx temperature humidity
          = { ok := false, temperature := temperature, humidity := humidity, sensor := s })
    ∧ (∀ (rx : List Char) (temp hum : F), GetTemperature s rx temp hum = (s.temperature_, s))
    ∧ (∀ (rx : List Char) (temp hum : F), GetHumidity s rx temp hum = (s.humidity_, s))
    ∧ (∀ (rx : List Char) (temp hum actual : F),
        CalibrateTemperature s rx temp hum actual
          = { s with temperature_offset_ := FloatOps.sub actual s.temperature_ })
    ∧ (∀ (rx : List Char) (temp hum actual : F),
        CalibrateHumidity s rx temp hum actual
          = { s with humidity_offset_ := FloatOps.sub actual s.humidity_ }) := by
  have hget : ∀ (rx : List Char) (temp hum : F),
      GetTemperature s rx temp hum = (s.temperature_, s) := by
    intro rx temp hum
    simp [GetTemperature, ReadData_dead s rx temp hum hdead]
  have hgeth : ∀ (rx : List Char) (temp hum : F),
      GetHumidity s rx temp hum = (s.humidity_, s) := by
    intro rx temp hum
    simp [GetHumidity, ReadData_dead s rx temp hum hdead]
  refine ⟨rfl, ?_, fun rx t h => ReadData_dead s rx t h hdead, hget, hgeth, ?_, ?_⟩
  · intro calls
    rw [IsInitialized, foldl_run_initialized, hdead]
  · intro rx temp hum actual
    simp only [CalibrateTemperature, hget]
  · intro rx temp hum actual
    simp only [CalibrateHumidity, hgeth]

/-- Witness of C13 as amended: the sensor constructed without a serial port,
read and calibrated. -/
theorem SHT30Sensor_not_initialized_witness :
    deadSensor.initialized_ = false
    ∧ IsInitialized
        ([SensorCall.ReadData "R:039.2RH 023.3C\n".toList B32.nan B32.nan,
          SensorCall.CalibrateTemperature [] B32.nan B32.nan (B32.lit false 250 (-1)),
          SensorCall.GetHumidity [] B32.nan B32.nan].foldl SensorCall.run deadSensor) = false
    ∧ ReadData deadSensor "R:039.2RH 023.3C\n".toList B32.nan B32.nan
        = { ok := false, temperature := B32.nan, humidity := B32.nan, sensor := deadSensor } :=
  ⟨rfl,
   (SHT30Sensor_not_initialized deadSensor rfl).2.1 _,
   (SHT30Sensor_not_initialized deadSensor rfl).2.2.1 _ _ _⟩

/-- Counterexample to C14 as stated.  With the reading `(22.3, 39.2)` in the
cache, `ReadData` on zero bytes and `ReadData` on a non-empty buffer without a
parsable line give the same result: `false` and the cached pair. -/
theorem ReadData_no_data_counterexample :
    ReadData (cached boardSensor (B32.lit false 223 (-1), B32.lit false 392 (-1)))
        [] B32.nan B32.nan
      = ReadData (cached boardSensor (B32.lit false 223 (-1), B32.lit false 392 (-1)))
          "R:abcRH 1C\nxyz\n".toList B32.nan B32.nan
    ∧ (ReadData (cached boardSensor (B32.lit false 223 (-1), B32.lit false 392 (-1)))
        [] B32.nan B32.nan).ok = false := by
  decide

/-- C14, as amended.  When the channel yields zero bytes, `ReadData` on an
initialised sensor returns `false` with the cached temperature and humidity
and leaves the object unchanged: the same return value, out-values and object
as for a non-empty buffer without a parsable line.  The two outcomes differ in
the log line alone: the verbose "No new data available, using cached values"
against the warning "No valid data found in buffer". -/
theorem ReadData_no_data {F : Type} [FloatOps F] (s : SHT30Sensor F)
    (temperature humidity : F) (hinit : s.initialized_ = true) :
    ReadData s [] temperature humidity
        = { ok := false, temperature := s.temperature_, humidity := s.humidity_, sensor := s }
    ∧ readLog s [] temperature humidity
        = some (LogLevel.verbose, "No new data available, using cached values".toList)
    ∧ ∀ rx : List Char, rx ≠ [] →
        (∀ line ∈ splitLF rx, parseLine s (cstr line) = none) →
        ReadData s rx temperature humidity = ReadData s [] temperature humidity
        ∧ readLog s rx temperature humidity
            = some (LogLevel.warning, "No valid data found in buffer".toList) := by
  have hempty : ReadData s [] temperature humidity
      = { ok := false, temperature := s.temperature_, humidity := s.humidity_, sensor := s } := by
    simp [ReadData, hinit]
  refine ⟨hempty, by simp [readLog, hinit], ?_⟩
  intro rx hne hnone
  have hres := ReadData_of_no_line s rx temperature humidity hinit
    (bufLines_subset_splitLF s rx hnone)
  refine ⟨hres.trans hempty.symm, ?_⟩
  simp [readLog, hinit, hne, hres]

/-- Witness of C14 as amended: a buffer of noise against zero bytes. -/
theorem ReadData_no_data_witness :
    ((cached boardSensor (B32.lit false 223 (-1), B32.lit false 392 (-1))).initialized_ = true
      ∧ "R:abcRH 1C\nxyz\n".toList ≠ []
      ∧ ∀ line ∈ splitLF "R:abcRH 1C\nxyz\n".toList,
          parseLine (cached boardSensor (B32.lit false 223 (-1), B32.lit false 392 (-1)))
            (cstr line) = none)
    ∧ ReadData (cached boardSensor (B32.lit false 223 (-1), B32.lit false 392 (-1)))
        "R:abcRH 1C\nxyz\n".toList B32.nan B32.nan
      = ReadData (cached boardSensor (B32.lit false 223 (-1), B32.lit false 392 (-1)))
          [] B32.nan B32.nan
    ∧ readLog (cached boardSensor (B32.lit false 223 (-1), B32.lit false 392 (-1)))
        "R:abcRH 1C\nxyz\n".toList B32.nan B32.nan
      = some (LogLevel.warning, "No valid data found in buffer".toList) :=
  ⟨by decide,
   (ReadData_no_data (cached boardSensor (B32.lit false 223 (-1), B32.lit false 392 (-1)))
      B32.nan B32.nan rfl).2.2 "R:abcRH 1C\nxyz\n".toList (by decide) (by decide)⟩

/-- C19.  On an initialised sensor the bytes after the last line feed of a
buffer have no influence on the result of `ReadData`: the result is the one
for the buffer cut after that line feed.  For every non-empty buffer without
a line feed `ReadData` returns `false` with the cached values and leaves the
object unchanged, also when the buffer is exactly a valid reading. -/
theorem ReadData_unterminated {F : Type} [FloatOps F] (s : SHT30Sensor F)
    (temperature humidity : F) (hinit : s.initialized_ = true) :
    (∀ pre tail : List Char, LF ∉ tail →
        ReadData s (pre ++ LF :: tail) temperature humidity
          = ReadData s (pre ++ [LF]) temperature humidity)
    ∧ (∀ rx : List Char, rx ≠ [] → LF ∉ rx →
        ReadData s rx temperature humidity
          = { ok := false, temperature := s.temperature_, humidity := s.humidity_,
              sensor := s }) := by
  constructor
  · intro pre tail htail
    rw [ReadData_eq s _ temperature humidity hinit (by simp),
      ReadData_eq s _ temperature humidity hinit (by simp), bufLines_tail pre tail htail]
  · intro rx _ hrx
    apply ReadData_of_no_line s rx temperature humidity hinit
    rw [bufLines_no_LF rx hrx]
    intro line hline
    cases hline

/-- Witness of C19: the buffer `R:039.2RH 023.3C` without a line feed, read
by the sensor of the board. -/
theorem ReadData_unterminated_witness :
    (boardSensor.initialized_ = true ∧ "R:039.2RH 023.3C".toList ≠ []
      ∧ LF ∉ "R:039.2RH 023.3C".toList)
    ∧ ReadData boardSensor "R:039.2RH 023.3C".toList B32.nan B32.nan
      = { ok := false, temperature := boardSensor.temperature_,
          humidity := boardSensor.humidity_, sensor := boardSensor } :=
  ⟨by decide,
   (ReadData_unterminated boardSensor B32.nan B32.nan rfl).2 "R:039.2RH 023.3C".toList
     (by decide) (by decide)⟩

/-! ## Failed reads and the bounds of the upload counter -/

theorem ReadData_failed_sensor {F : Type} [FloatOps F] (s : SHT30Sensor F) (rx : List Char)
    (temperature humidity : F) (hfail : (ReadData s rx temperature humidity).ok = false) :
    (ReadData s rx temperature humidity).sensor = s := by
  cases hinit : s.initialized_ with
  | false => rw [ReadData_dead s rx temperature humidity hinit]
  | true =>
    by_cases hne : rx = []
    · simp [ReadData, hinit, hne]
    · rw [ReadData_eq s rx temperature humidity hinit hne] at hfail ⊢
      cases hlast : ((bufLines rx).filterMap (parseLine s)).getLast? with
      | none => rfl
      | some v => rw [hlast] at hfail; cases hfail

theorem tickReadOk_false {F : Type} [FloatOps F] {b : CompactWifiBoardLCD F} {tk : Tick F}
    (hfail : b.sht30_sensor_ = none
      ∨ ∃ sensor, b.sht30_sensor_ = some sensor
          ∧ (sensor.initialized_ = false
            ∨ (ReadData sensor tk.rx tk.temp tk.humi).ok = false)) :
    tickReadOk b tk = false := by
  rcases hfail with h | ⟨sensor, h, h2⟩
  · simp [tickReadOk, h]
  · rcases h2 with h2 | h2 <;> simp [tickReadOk, h, h2]

/-- A tick without a successful read, in a state with a display. -/
theorem CheckDeviceState_read_fail {F : Type} [FloatOps F] (b : CompactWifiBoardLCD F)
    (tk : Tick F) (hd : b.display_ = true) (hfail : tickReadOk b tk = false) :
    (CheckDeviceState b tk).2.filter BoardEvent.isDisplayUpdate
        = [BoardEvent.UpdateStandbyTemperatureHumidity FloatOps.nan FloatOps.nan]
    ∧ (CheckDeviceState b tk).2.filter BoardEvent.isUploadCall = []
    ∧ (CheckDeviceState b tk).1.upload_counter_ = b.upload_counter_
    ∧ (CheckDeviceState b tk).1.sht30_sensor_ = b.sht30_sensor_ := by
  have hf := checkTransition_fields b tk.current_state
  have hfail1 : tickReadOk (checkTransition b tk.current_state).1 tk = false := by
    rw [tickReadOk_checkTransition]; exact hfail
  have hp := pollSensor_fail (checkTransition b tk.current_state).1 tk (hf.1.trans hd) hfail1
  have hev := checkTransition_events b tk.current_state
  simp only [CheckDeviceState, List.filter_append, hev.1, hev.2, List.nil_append, hp.1]
  refine ⟨rfl, rfl, hp.2.1.trans hf.2.2.2.1, ?_⟩
  rw [hp.2.2.2.2.2, hf.2.1]
  cases hs : b.sht30_sensor_ with
  | none => rfl
  | some sensor =>
    have hok : (ReadData sensor tk.rx tk.temp tk.humi).ok = false ∨ sensor.initialized_ = false := by
      cases hi : sensor.initialized_ with
      | false => exact Or.inr rfl
      | true =>
        left
        simpa [tickReadOk, hd, hs, hi] using hfail
    rcases hok with hok | hok
    · simp only [Option.map_some', ReadData_failed_sensor sensor tk.rx tk.temp tk.humi hok]
    · simp only [Option.map_some', ReadData_dead sensor tk.rx tk.temp tk.humi hok]

/-- C11.  In every reachable state of the board object, a tick whose sensor
read is unsuccessful, because the sensor is absent, was never initialised, or
`ReadData` returns `false`, pushes exactly `(NAN, NAN)` to the standby screen
and nothing else, whatever the cache of the sensor holds; the cache itself
keeps its reading. -/
theorem CheckDeviceState_read_failed {F : Type} [FloatOps F] (b : CompactWifiBoardLCD F)
    (tk : Tick F) (hreach : Reachable b)
    (hfail : b.sht30_sensor_ = none
      ∨ ∃ sensor, b.sht30_sensor_ = some sensor
          ∧ (sensor.initialized_ = false
            ∨ (ReadData sensor tk.rx tk.temp tk.humi).ok = false)) :
    (CheckDeviceState b tk).2.filter BoardEvent.isDisplayUpdate
        = [BoardEvent.UpdateStandbyTemperatureHumidity FloatOps.nan FloatOps.nan]
    ∧ (CheckDeviceState b tk).1.sht30_sensor_ = b.sht30_sensor_ := by
  have h := CheckDeviceState_read_fail b tk (Reachable_inv hreach).1 (tickReadOk_false hfail)
  exact ⟨h.1, h.2.2.2⟩

/-- Witness of C11: after a tick that read `(22.3, 39.2)`, a tick in which
the serial port is silent pushes `(NAN, NAN)` although the cache still holds
that reading. -/
theorem CheckDeviceState_read_failed_witness :
    (Reachable (CheckDeviceState board (goodTick DeviceState.kDeviceStateIdle)).1
      ∧ ∃ sensor,
          (CheckDeviceState board (goodTick DeviceState.kDeviceStateIdle)).1.sht30_sensor_
            = some sensor
          ∧ sensor.temperature_ = B32.lit false 223 (-1)
          ∧ sensor.humidity_ = B32.lit false 392 (-1)
          ∧ (ReadData sensor (silentTick DeviceState.kDeviceStateIdle).rx
              (silentTick DeviceState.kDeviceStateIdle).temp
              (silentTick DeviceState.kDeviceStateIdle).humi).ok = false)
    ∧ (CheckDeviceState (CheckDeviceState board (goodTick DeviceState.kDeviceStateIdle)).1
          (silentTick DeviceState.kDeviceStateIdle)).2.filter BoardEvent.isDisplayUpdate
        = [BoardEvent.UpdateStandbyTemperatureHumidity B32.nan B32.nan] :=
  ⟨⟨Reachable.tick _ _ (Reachable.construct true 1), _, rfl, by decide⟩,
   (CheckDeviceState_read_failed
      (CheckDeviceState board (goodTick DeviceState.kDeviceStateIdle)).1
      (silentTick DeviceState.kDeviceStateIdle)
      (Reachable.tick _ _ (Reachable.construct true 1))
      (Or.inr ⟨_, rfl, Or.inr (by decide)⟩)).1⟩

theorem CheckDeviceState_counter_skip {F : Type} [FloatOps F] (b : CompactWifiBoardLCD F)
    (tk : Tick F) (hfail : tickReadOk b tk = false) :
    (CheckDeviceState b tk).1.upload_counter_ = b.upload_counter_
    ∧ (CheckDeviceState b tk).2.filter BoardEvent.isUploadCall = [] := by
  cases hd : b.display_ with
  | true =>
    have h := CheckDeviceState_read_fail b tk hd hfail
    exact ⟨h.2.2.1, h.2.1⟩
  | false =>
    have hf := checkTransition_fields b tk.current_state
    have hev := checkTransition_events b tk.current_state
    have hd1 : (checkTransition b tk.current_state).1.display_ = false := hf.1.trans hd
    constructor
    · simp only [CheckDeviceState, pollSensor, hd1]
      exact hf.2.2.2.1
    · simp [CheckDeviceState, pollSensor, hd1, List.filter_append, hev.2]

theorem CheckDeviceState_counter_reset {F : Type} [FloatOps F] (b : CompactWifiBoardLCD F)
    (tk : Tick F) (hok : tickReadOk b tk = true) (hc : 60 ≤ b.upload_counter_ + 1) :
    (CheckDeviceState b tk).1.upload_counter_ = 0 := by
  have hf := checkTransition_fields b tk.current_state
  have hok1 : tickReadOk (checkTransition b tk.current_state).1 tk = true := by
    rw [tickReadOk_checkTransition]; exact hok
  obtain ⟨hd, sensor, hs, hinit, hread⟩ := tickReadOk_true hok1
  simp only [CheckDeviceState, pollSensor_ok _ tk sensor hd hs hinit hread, hf.2.2.2.1, hc,
    if_true]
  cases (checkTransition b tk.current_state).1.sensor_uploader_ <;> rfl

theorem runTicks_below_sixty {F : Type} [FloatOps F] (tks : List (Tick F)) :
    ∀ b : CompactWifiBoardLCD F, BoardInv b →
      b.upload_counter_ + (countReadsOk b tks : Int) < 60 →
      (∀ events ∈ (runTicks b tks).2, callsUpload events = false)
      ∧ (runTicks b tks).1.upload_counter_ = b.upload_counter_ + (countReadsOk b tks : Int) := by
  induction tks with
  | nil =>
    intro b _ _
    exact ⟨fun _ h => (by cases h), (by simp [runTicks, countReadsOk])⟩
  | cons tk rest ih =>
    intro b hinv hlt
    have hinv1 := BoardInv_CheckDeviceState b tk hinv
    cases hr : tickReadOk b tk with
    | false =>
      have hstep := CheckDeviceState_counter_skip b tk hr
      simp only [countReadsOk, hr, Bool.false_eq_true, if_false, Nat.zero_add] at hlt ⊢
      have hrest := ih (CheckDeviceState b tk).1 hinv1 (by rw [hstep.1]; exact hlt)
      refine ⟨?_, by simp only [runTicks]; rw [hrest.2, hstep.1]⟩
      intro events hev
      simp only [runTicks, List.mem_cons] at hev
      rcases hev with h | h
      · rw [h, callsUpload, any_eq_filter, hstep.2]; rfl
      · exact hrest.1 events h
    | true =>
      obtain ⟨_, _, _, hcall, hcount⟩ := CheckDeviceState_read_ok b tk hinv hr
      simp only [countReadsOk, hr, if_true, Nat.cast_add, Nat.cast_one] at hlt ⊢
      have hne : ¬ b.upload_counter_ + 1 = 60 := by omega
      rw [if_neg hne] at hcall hcount
      have hrest := ih (CheckDeviceState b tk).1 hinv1 (by rw [hcount]; omega)
      refine ⟨?_, by simp only [runTicks]; rw [hrest.2, hcount]; omega⟩
      intro events hev
      simp only [runTicks, List.mem_cons] at hev
      rcases hev with h | h
      · rw [h, callsUpload, any_eq_filter, hcall]; rfl
      · exact hrest.1 events h

/-- C20.  In every reachable state of the board object `upload_counter_` lies
between 0 and 59.  A tick whose sensor read fails or is skipped leaves the
counter unchanged.  A tick with a successful read that finds the counter at
59 sets it to 0 whatever the uploader is (absent, or in any state, so that the
upload is deduplicated or attempted) and whatever the platform answers (so
that the upload succeeds or fails).  Hence from a state with the counter at 0
no tick calls `UploadSensorData` while fewer than 60 reads have succeeded. -/
theorem upload_counter_bounds {F : Type} [FloatOps F] (b : CompactWifiBoardLCD F)
    (hreach : Reachable b) :
    (0 ≤ b.upload_counter_ ∧ b.upload_counter_ ≤ 59)
    ∧ (∀ tk : Tick F, tickReadOk b tk = false →
        (CheckDeviceState b tk).1.upload_counter_ = b.upload_counter_)
    ∧ (∀ (tk : Tick F) (uploader : Option (SensorDataUploader F)) (env : UploadEnv),
        tickReadOk b tk = true → b.upload_counter_ = 59 →
        (CheckDeviceState { b with sensor_uploader_ := uploader }
          { tk with env := env }).1.upload_counter_ = 0)
    ∧ (∀ tks : List (Tick F), b.upload_counter_ = 0 → countReadsOk b tks < 60 →
        ∀ events ∈ (runTicks b tks).2, callsUpload events = false) := by
  have hinv := Reachable_inv hreach
  refine ⟨⟨hinv.2.1, hinv.2.2.1⟩, fun tk hfail => (CheckDeviceState_counter_skip b tk hfail).1,
    ?_, ?_⟩
  · intro tk uploader env hok hc
    apply CheckDeviceState_counter_reset
    · exact hok
    · show (60 : Int) ≤ b.upload_counter_ + 1
      omega
  · intro tks hzero hlt
    exact (runTicks_below_sixty tks b hinv (by rw [hzero]; omega)).1

/-- Witness of C20: 59 ticks with a successful read after construction, then
a silent one; no upload is called, and the 60th successful read, with no
uploader and a refusing collector, sets the counter to 0. -/
theorem upload_counter_bounds_witness :
    (Reachable (runTicks board (List.replicate 59 (goodTick DeviceState.kDeviceStateIdle))).1
      ∧ (runTicks board
          (List.replicate 59 (goodTick DeviceState.kDeviceStateIdle))).1.upload_counter_ = 59
      ∧ tickReadOk
          (runTicks board (List.replicate 59 (goodTick DeviceState.kDeviceStateIdle))).1
          (goodTick DeviceState.kDeviceStateIdle) = true)
    ∧ (CheckDeviceState
        { (runTicks board (List.replicate 59 (goodTick DeviceState.kDeviceStateIdle))).1 with
          sensor_uploader_ := none }
        { goodTick DeviceState.kDeviceStateIdle with env := refuses }).1.upload_counter_ = 0 :=
  have hreach : ∀ tks : List (Tick B32), ∀ b0 : CompactWifiBoardLCD B32, Reachable b0 →
      Reachable (runTicks b0 tks).1 := fun tks => by
    induction tks with
    | nil => intro b0 h; exact h
    | cons tk rest ih => intro b0 h; exact ih _ (Reachable.tick b0 tk h)
  ⟨⟨hreach _ _ (Reachable.construct true 1), by decide, by decide⟩,
   (upload_counter_bounds
      (runTicks board (List.replicate 59 (goodTick DeviceState.kDeviceStateIdle))).1
      (hreach _ _ (Reachable.construct true 1))).2.2.1
      (goodTick DeviceState.kDeviceStateIdle) none refuses (by decide) (by decide)⟩

/-! ## The calendar -/

theorem yoe_bounds (doe : Int) (h0 : 0 ≤ doe) (h1 : doe ≤ 146096) :
    0 ≤ (doe - doe / 1460 + doe / 36524 - doe / 146096) / 365
    ∧ (doe - doe / 1460 + doe / 36524 - doe / 146096) / 365 ≤ 399 := by
  omega

theorem doy_core (a b c d e f g : Int) (h0 : 0 ≤ a) (h1 : a ≤ 146096)
    (hb : 0 ≤ a - e + f - g - 365 * b ∧ a - e + f - g - 365 * b ≤ 364)
    (hc : 0 ≤ b - 4 * c ∧ b - 4 * c ≤ 3)
    (hd : 0 ≤ b - 100 * d ∧ b - 100 * d ≤ 99)
    (he : 0 ≤ a - 1460 * e ∧ a - 1460 * e ≤ 1459)
    (hf : 0 ≤ a - 36524 * f ∧ a - 36524 * f ≤ 36523)
    (hg : 0 ≤ a - 146096 * g ∧ a - 146096 * g ≤ 146095) :
    0 ≤ a - (365 * b + c - d) ∧ a - (365 * b + c - d) ≤ 365 := by
  have hg2 : g = 0 ∨ g = 1 := by omega
  have hf2 : f = 0 ∨ f = 1 ∨ f = 2 ∨ f = 3 ∨ f = 4 := by omega
  have hd2 : d = 0 ∨ d = 1 ∨ d = 2 ∨ d = 3 := by omega
  rcases hg2 with rfl | rfl <;> rcases hf2 with rfl | rfl | rfl | rfl | rfl <;>
    rcases hd2 with rfl | rfl | rfl | rfl <;> omega

theorem doy_bounds (doe : Int) (h0 : 0 ≤ doe) (h1 : doe ≤ 146096) :
    0 ≤ doe - (365 * ((doe - doe / 1460 + doe / 36524 - doe / 146096) / 365)
          + (doe - doe / 1460 + doe / 36524 - doe / 146096) / 365 / 4
          - (doe - doe / 1460 + doe / 36524 - doe / 146096) / 365 / 100)
    ∧ doe - (365 * ((doe - doe / 1460 + doe / 36524 - doe / 146096) / 365)
          + (doe - doe / 1460 + doe / 36524 - doe / 146096) / 365 / 4
          - (doe - doe / 1460 + doe / 36524 - doe / 146096) / 365 / 100) ≤ 365 := by
  apply doy_core doe _ _ _ (doe / 1460) (doe / 36524) (doe / 146096) h0 h1 <;> omega

theorem roundtrip_core (days era doe yoe doy : Int)
    (hz : days + 719468 = 146097 * era + doe)
    (hyoe : 0 ≤ yoe ∧ yoe ≤ 399)
    (hdoe : doe = 365 * yoe + yoe / 4 - yoe / 100 + doy)
    (hdoy : 0 ≤ doy ∧ doy ≤ 365) :
    daysFromCivil
        (yoe + era * 400
          + (if (if (5 * doy + 2) / 153 < 10 then (5 * doy + 2) / 153 + 3
                else (5 * doy + 2) / 153 - 9) ≤ 2 then 1 else 0))
        (if (5 * doy + 2) / 153 < 10 then (5 * doy + 2) / 153 + 3 else (5 * doy + 2) / 153 - 9)
        1
      + (doy - (153 * ((5 * doy + 2) / 153) + 2) / 5 + 1 - 1) = days
    ∧ 1 ≤ (if (5 * doy + 2) / 153 < 10 then (5 * doy + 2) / 153 + 3
            else (5 * doy + 2) / 153 - 9)
    ∧ (if (5 * doy + 2) / 153 < 10 then (5 * doy + 2) / 153 + 3
        else (5 * doy + 2) / 153 - 9) ≤ 12 := by
  have hmp : 0 ≤ (5 * doy + 2) / 153 ∧ (5 * doy + 2) / 153 ≤ 11 := by omega
  generalize (5 * doy + 2) / 153 = mp at hmp ⊢
  unfold daysFromCivil
  by_cases h10 : mp < 10
  · simp only [h10, if_true]
    have h1 : ¬ mp + 3 ≤ 2 := by omega
    have h2 : 2 < mp + 3 := by omega
    simp only [h1, h2, if_false, if_true]
    refine ⟨?_, by omega, by omega⟩
    have e1 : (yoe + era * 400 + 0) / 400 = era := by omega
    have e2 : (yoe + era * 400 + 0) % 400 = yoe := by omega
    rw [e1, e2]
    omega
  · simp only [h10, if_false]
    have h1 : mp - 9 ≤ 2 := by omega
    have h2 : ¬ 2 < mp - 9 := by omega
    simp only [h1, h2, if_false, if_true]
    refine ⟨?_, by omega, by omega⟩
    have e1 : (yoe + era * 400 + 1 - 1) / 400 = era := by omega
    have e2 : (yoe + era * 400 + 1 - 1) % 400 = yoe := by omega
    rw [e1, e2]
    omega

/-- The day number of the date of a day is that day; the month of the date
lies between 1 and 12. -/
theorem daysFromCivil_civilFromDays (days : Int) :
    daysFromCivil (civilFromDays days).1 (civilFromDays days).2.1 1
        + ((civilFromDays days).2.2 - 1) = days
    ∧ 1 ≤ (civilFromDays days).2.1 ∧ (civilFromDays days).2.1 ≤ 12 := by
  have hdoe0 : 0 ≤ (days + 719468) % 146097 := Int.emod_nonneg _ (by decide)
  have hdoe1 : (days + 719468) % 146097 ≤ 146096 := by omega
  have hz : days + 719468
      = 146097 * ((days + 719468) / 146097) + (days + 719468) % 146097 := by omega
  have hy := yoe_bounds _ hdoe0 hdoe1
  have hd := doy_bounds _ hdoe0 hdoe1
  exact roundtrip_core days ((days + 719468) / 146097) ((days + 719468) % 146097) _ _
    hz hy (by omega) hd

theorem hourLoop_once (tm : Tm) (h8 : 8 ≤ tm.tm_hour) (h31 : tm.tm_hour ≤ 31) :
    hourLoop tm.tm_hour.toNat tm
      = if 24 ≤ tm.tm_hour then
          { tm with tm_hour := tm.tm_hour - 24, tm_mday := tm.tm_mday + 1 }
        else tm := by
  obtain ⟨n, hn⟩ : ∃ n, tm.tm_hour.toNat = n + 1 := ⟨tm.tm_hour.toNat - 1, by omega⟩
  rw [hn]
  by_cases h24 : 24 ≤ tm.tm_hour
  · obtain ⟨k, hk⟩ : ∃ k, n = k + 1 := ⟨n - 1, by omega⟩
    rw [hk]
    have hstop : ¬ (24 : Int) ≤ tm.tm_hour - 24 := by omega
    simp only [hourLoop, h24, if_true, hstop, if_false]
  · simp only [hourLoop, h24, if_false]

theorem mktime_shift (now : Int) :
    mktime
        (hourLoop ({ gmtime_r now with tm_hour := (gmtime_r now).tm_hour + 8 } : Tm).tm_hour.toNat
          { gmtime_r now with tm_hour := (gmtime_r now).tm_hour + 8 })
      = now + 28800 := by
  obtain ⟨hday, hm1, hm12⟩ := daysFromCivil_civilFromDays (now / 86400)
  have hloop := hourLoop_once { gmtime_r now with tm_hour := (gmtime_r now).tm_hour + 8 }
    (by show (8 : Int) ≤ now % 86400 / 3600 + 8; omega)
    (by show now % 86400 / 3600 + 8 ≤ 31; omega)
  rw [hloop]
  have hyear : (civilFromDays (now / 86400)).1 - 1900 + 1900
      + ((civilFromDays (now / 86400)).2.1 - 1) / 12 = (civilFromDays (now / 86400)).1 := by
    omega
  have hmon : ((civilFromDays (now / 86400)).2.1 - 1) % 12 + 1
      = (civilFromDays (now / 86400)).2.1 := by
    omega
  by_cases h24 : (24 : Int) ≤ now % 86400 / 3600 + 8
  · have hc : (24 : Int) ≤ ({ gmtime_r now with tm_hour := (gmtime_r now).tm_hour + 8 } : Tm).tm_hour :=
      h24
    rw [if_pos hc]
    simp only [mktime, gmtime_r, hyear, hmon]
    omega
  · have hc : ¬ (24 : Int) ≤ ({ gmtime_r now with tm_hour := (gmtime_r now).tm_hour + 8 } : Tm).tm_hour :=
      h24
    rw [if_neg hc]
    simp only [mktime, gmtime_r, hyear, hmon]
    omega

/-- The `timeinfo` that `UpdateTimerCallback` formats is the broken-down UTC
time of the instant eight hours after `now`. -/
theorem adjustedTime_eq (now : Int) : adjustedTime now = gmtime_r (now + 28800) := by
  simp only [adjustedTime]
  rw [mktime_shift]

theorem gmtime_r_shift (now : Int) :
    (gmtime_r (now + 28800)).tm_hour = ((gmtime_r now).tm_hour + 8) % 24
    ∧ (gmtime_r (now + 28800)).tm_min = (gmtime_r now).tm_min
    ∧ (gmtime_r (now + 28800)).tm_sec = (gmtime_r now).tm_sec
    ∧ (now + 28800) / 86400
        = now / 86400 + (if 16 ≤ (gmtime_r now).tm_hour then 1 else 0) := by
  simp only [gmtime_r]
  refine ⟨by omega, by omega, by omega, ?_⟩
  split <;> omega

theorem lowDigits_length (count n : Nat) : (lowDigits count n).length = count := by
  induction count with
  | zero => rfl
  | succ k ih => simp [lowDigits, ih]

theorem padZero_small (width : Nat) (n : Int) (h0 : 0 ≤ n) (h1 : n < 10 ^ width) :
    padZero width n = lowDigits width n.toNat := by
  have hneg : ¬ n < 0 := by omega
  have habs : n.natAbs = n.toNat := by omega
  have hlt : n.toNat < 10 ^ width := by
    have : ((n.toNat : Nat) : Int) < ((10 ^ width : Nat) : Int) := by
      rw [Int.toNat_of_nonneg h0]; exact_mod_cast h1
    exact_mod_cast this
  simp only [padZero, hneg, if_false, zeroFilled, habs, hlt, if_true]

theorem formatTime_shape (tm : Tm) (hh : 0 ≤ tm.tm_hour ∧ tm.tm_hour < 100)
    (hm : 0 ≤ tm.tm_min ∧ tm.tm_min < 100) (hs : 0 ≤ tm.tm_sec ∧ tm.tm_sec < 100) :
    formatTime tm
      = lowDigits 2 tm.tm_hour.toNat ++ ':' :: lowDigits 2 tm.tm_min.toNat
          ++ ':' :: lowDigits 2 tm.tm_sec.toNat := by
  unfold formatTime snprintf
  rw [padZero_small 2 _ hh.1 (by norm_num; exact hh.2),
    padZero_small 2 _ hm.1 (by norm_num; exact hm.2),
    padZero_small 2 _ hs.1 (by norm_num; exact hs.2)]
  apply List.take_of_length_le
  simp [lowDigits_length]

theorem formatDate_shape (tm : Tm) (hy : 0 ≤ tm.tm_year + 1900 ∧ tm.tm_year + 1900 ≤ 9999)
    (hm : 0 ≤ tm.tm_mon + 1 ∧ tm.tm_mon + 1 < 100) (hd : 0 ≤ tm.tm_mday ∧ tm.tm_mday < 100) :
    formatDate tm
      = lowDigits 4 (tm.tm_year + 1900).toNat ++ '-' :: lowDigits 2 (tm.tm_mon + 1).toNat
          ++ '-' :: lowDigits 2 tm.tm_mday.toNat := by
  unfold formatDate snprintf
  rw [padZero_small 4 _ hy.1 (by norm_num; omega),
    padZero_small 2 _ hm.1 (by norm_num; exact hm.2),
    padZero_small 2 _ hd.1 (by norm_num; exact hd.2)]
  apply List.take_of_length_le
  simp [lowDigits_length]

theorem civilFromDays_day (days : Int) :
    1 ≤ (civilFromDays days).2.2 ∧ (civilFromDays days).2.2 ≤ 31 := by
  have hdoe0 : 0 ≤ (days + 719468) % 146097 := Int.emod_nonneg _ (by decide)
  have hdoe1 : (days + 719468) % 146097 ≤ 146096 := by omega
  have hd := doy_bounds _ hdoe0 hdoe1
  simp only [civilFromDays]
  generalize (days + 719468) % 146097
      - (365 * (((days + 719468) % 146097 - (days + 719468) % 146097 / 1460
            + (days + 719468) % 146097 / 36524 - (days + 719468) % 146097 / 146096) / 365)
          + ((days + 719468) % 146097 - (days + 719468) % 146097 / 1460
            + (days + 719468) % 146097 / 36524 - (days + 719468) % 146097 / 146096) / 365 / 4
          - ((days + 719468) % 146097 - (days + 719468) % 146097 / 1460
            + (days + 719468) % 146097 / 36524 - (days + 719468) % 146097 / 146096) / 365 / 100)
      = doy at hd ⊢
  omega

theorem daysFromCivil_day (year month day : Int) :
    daysFromCivil year month day = daysFromCivil year month 1 + (day - 1) := by
  simp only [daysFromCivil]
  omega

/-! ## The registered upload callback -/

theorem invoke_callback_target {F : Type} (callback : Option Nat) (success : Bool)
    (message : List Char) (e : UploadEvent F) (he : e ∈ invoke callback success message) :
    e = UploadEvent.callback (callback.getD 0) success message ∧ callback ≠ none := by
  cases callback with
  | none => simp [invoke] at he
  | some target =>
    simp only [invoke, List.mem_singleton] at he
    exact ⟨he, by simp⟩

theorem invoke_none {F : Type} (success : Bool) (message : List Char) :
    (invoke none success message : List (UploadEvent F)) = [] := rfl

theorem invoke_length {F : Type} (callback : Option Nat) (success : Bool)
    (message : List Char) :
    ((invoke callback success message : List (UploadEvent F)).filter
      UploadEvent.isCallback).length ≤ 1 := by
  cases callback <;> simp [invoke, UploadEvent.isCallback]

/-- The events of `UploadSensorData`: the events of `BuildJson` and of the
HTTP request, if any, followed by at most one `invoke` of the argument. -/
theorem UploadSensorData_events {F : Type} [FloatOps F] (u : SensorDataUploader F)
    (env : UploadEnv) (temperature humidity : F) (callback : Option Nat) :
    ∃ (quiet : List (UploadEvent F)) (success : Bool) (message : List Char),
      (UploadSensorData u env temperature humidity callback).events
        = quiet ++ invoke callback success message
      ∧ quiet.filter UploadEvent.isCallback = [] := by
  unfold UploadSensorData
  by_cases hnan : (FloatOps.isnan temperature || FloatOps.isnan humidity) = true
  · rw [if_pos hnan]
    exact ⟨[], _, _, rfl, rfl⟩
  · rw [if_neg hnan]
    by_cases hsame : unchanged u temperature humidity = true
    · rw [if_pos hsame]
      exact ⟨[], _, _, rfl, rfl⟩
    · rw [if_neg hsame]
      by_cases hurl : u.upload_url_ = []
      · refine ⟨[UploadEvent.buildJson (BuildJson u env temperature humidity)], false,
          "Upload URL not configured".toList, ?_, rfl⟩
        simp only [PostData_no_url u env _ callback hurl]
        rfl
      · obtain ⟨_, _, request, message, hev⟩ := PostData_url u env
          (BuildJson u env temperature humidity) callback hurl
        refine ⟨[UploadEvent.buildJson (BuildJson u env temperature humidity),
          UploadEvent.httpPerform request], decide (env.err = 0), message, ?_, rfl⟩
        simp only [hev]
        rfl

theorem pollSensor_uploader_events {F : Type} [FloatOps F] (b : CompactWifiBoardLCD F)
    (tk : Tick F) :
    (∀ t h cb, BoardEvent.UploadSensorData t h cb ∈ (pollSensor b tk).2 → cb = none)
    ∧ (∀ e, BoardEvent.uploader e ∈ (pollSensor b tk).2 →
        ∃ u t h, e ∈ (UploadSensorData (F := F) u tk.env t h none).events) := by
  cases hd : b.display_ with
  | false => simp [pollSensor, hd]
  | true =>
    cases hr : tickReadOk b tk with
    | false =>
      rw [(pollSensor_fail b tk hd hr).1]
      simp
    | true =>
      obtain ⟨_, sensor, hs, hinit, hok⟩ := tickReadOk_true hr
      rw [pollSensor_ok b tk sensor hd hs hinit hok]
      by_cases hc : 60 ≤ b.upload_counter_ + 1
      · cases hu : b.sensor_uploader_ with
        | none => simp [hc]
        | some u =>
          simp only [hc, if_true]
          constructor
          · intro t h cb hmem
            simp at hmem
            exact hmem.2.2
          · intro e hmem
            simp at hmem
            exact ⟨u, _, _, hmem⟩
      · simp [hc]

theorem checkTransition_no_uploader {F : Type} (b : CompactWifiBoardLCD F)
    (cur : DeviceState) :
    (∀ t h cb, BoardEvent.UploadSensorData t h cb ∉ (checkTransition b cur).2)
    ∧ (∀ e, BoardEvent.uploader e ∉ (checkTransition (F := F) b cur).2) := by
  unfold checkTransition
  by_cases hch : cur ≠ b.last_device_state_
  · rw [if_pos hch]
    cases b.display_ <;> cases cur <;> simp [switchState]
  · rw [if_neg hch]
    simp

/-- C21.  `UploadSensorData` never invokes the callback registered through
`SetUploadCallback`.  Whatever callback is registered, the return value and
the events of a call are the same, and the object afterwards is the same with
that registration still in place; on every path (NaN rejection, dedup skip,
missing URL, transport success or failure) every callback invocation among the
events is an invocation of the per-call argument, and there is at most one; a
call with a null argument invokes no callback at all.  The coordinator always
passes the null argument, so no event of `CheckDeviceState` is a callback
invocation, for every board object and every input of the tick. -/
theorem UploadSensorData_registered_callback_unused {F : Type} [FloatOps F]
    (u : SensorDataUploader F) (env : UploadEnv) (temperature humidity : F)
    (registered callback : Option Nat) (b : CompactWifiBoardLCD F) (tk : Tick F) :
    (UploadSensorData (SetUploadCallback u registered) env temperature humidity callback).events
        = (UploadSensorData u env temperature humidity callback).events
    ∧ (UploadSensorData (SetUploadCallback u registered) env temperature humidity callback).ret
        = (UploadSensorData u env temperature humidity callback).ret
    ∧ (UploadSensorData (SetUploadCallback u registered) env temperature humidity
          callback).uploader
        = SetUploadCallback (UploadSensorData u env temperature humidity callback).uploader
            registered
    ∧ (∀ target success message,
        UploadEvent.callback target success message
            ∈ (UploadSensorData (SetUploadCallback u registered) env temperature humidity
                callback).events →
          callback = some target)
    ∧ ((UploadSensorData (SetUploadCallback u registered) env temperature humidity
          callback).events.filter UploadEvent.isCallback).length ≤ 1
    ∧ (UploadSensorData (SetUploadCallback u registered) env temperature humidity
          none).events.filter UploadEvent.isCallback = []
    ∧ (∀ t h cb, BoardEvent.UploadSensorData t h cb ∈ (CheckDeviceState b tk).2 → cb = none)
    ∧ (∀ e, BoardEvent.uploader e ∈ (CheckDeviceState b tk).2 →
        UploadEvent.isCallback e = false) := by
  have hsame : unchanged (SetUploadCallback u registered) temperature humidity
      = unchanged u temperature humidity := rfl
  have hjson : BuildJson (SetUploadCallback u registered) env temperature humidity
      = BuildJson u env temperature humidity := rfl
  have hpost : ∀ json : JsonText F, PostData (SetUploadCallback u registered) env json callback
      = PostData u env json callback := fun _ => rfl
  have hquiet : ∀ (v : SensorDataUploader F) (env : UploadEnv) (cb : Option Nat) (t h : F)
      (e : UploadEvent F),
      e ∈ (UploadSensorData v env t h cb).events → UploadEvent.isCallback e = true →
        ∃ success message, e ∈ (invoke cb success message : List (UploadEvent F)) := by
    intro v env cb t h e he hcall
    obtain ⟨quiet, success, message, hev, hq⟩ := UploadSensorData_events v env t h cb
    rw [hev, List.mem_append] at he
    rcases he with he | he
    · have : e ∈ quiet.filter UploadEvent.isCallback := List.mem_filter.mpr ⟨he, hcall⟩
      rw [hq] at this
      cases this
    · exact ⟨success, message, he⟩
  refine ⟨?_, ?_, ?_, ?_, ?_, ?_, ?_, ?_⟩
  · simp only [UploadSensorData, hsame, hjson, hpost]
    by_cases hnan : (FloatOps.isnan temperature || FloatOps.isnan humidity) = true
    · simp only [hnan, if_true]
    · by_cases hun : unchanged u temperature humidity = true
      · simp [hnan, hun]
      · simp [hnan, hun]
  · simp only [UploadSensorData, hsame, hjson, hpost]
    by_cases hnan : (FloatOps.isnan temperature || FloatOps.isnan humidity) = true
    · simp only [hnan, if_true]
    · by_cases hun : unchanged u temperature humidity = true
      · simp [hnan, hun]
      · simp [hnan, hun]
  · simp only [UploadSensorData, hsame, hjson, hpost]
    by_cases hnan : (FloatOps.isnan temperature || FloatOps.isnan humidity) = true
    · simp only [hnan, if_true]
    · by_cases hun : unchanged u temperature humidity = true
      · simp [hnan, hun]
      · cases hret : (PostData u env (BuildJson u env temperature humidity) callback).1 <;>
          simp [hnan, hun, hret, SetUploadCallback]
  · intro target success message hmem
    obtain ⟨s2, m2, hin⟩ := hquiet _ env callback temperature humidity _ hmem rfl
    cases callback with
    | none => simp [invoke] at hin
    | some k =>
      simp only [invoke, List.mem_singleton] at hin
      injection hin with h1
      rw [h1]
  · obtain ⟨quiet, success, message, hev, hq⟩ :=
      UploadSensorData_events (SetUploadCallback u registered) env temperature humidity callback
    rw [hev, List.filter_append, hq, List.nil_append]
    exact invoke_length callback success message
  · obtain ⟨quiet, success, message, hev, hq⟩ :=
      UploadSensorData_events (SetUploadCallback u registered) env temperature humidity none
    rw [hev, List.filter_append, hq, invoke_none]
    rfl
  · intro t h cb hmem
    simp only [CheckDeviceState, List.mem_append] at hmem
    rcases hmem with hmem | hmem
    · exact absurd hmem ((checkTransition_no_uploader b tk.current_state).1 t h cb)
    · exact (pollSensor_uploader_events _ tk).1 t h cb hmem
  · intro e hmem
    simp only [CheckDeviceState, List.mem_append] at hmem
    rcases hmem with hmem | hmem
    · exact absurd hmem ((checkTransition_no_uploader b tk.current_state).2 e)
    · obtain ⟨v, t, h, hin⟩ := (pollSensor_uploader_events _ tk).2 e hmem
      cases hcall : UploadEvent.isCallback e with
      | false => rfl
      | true =>
        obtain ⟨s2, m2, hin2⟩ := hquiet v tk.env none t h e hin hcall
        simp [invoke] at hin2

/-- Witness for C21 on binary32: the board's uploader has the logging lambda
registered (identity 1); a successful upload of `(20.0, 50.0)` with the null
argument produces the JSON text and the HTTP request and no callback
invocation, the same events as for an uploader with no registered callback;
the theorem is applied to that call and to tick 60 of the board. -/
theorem UploadSensorData_registered_callback_unused_witness :
    boardUploader.callback_ = some 1
    ∧ (UploadSensorData boardUploader (completes 200) (B32.lit false 200 (-1))
        (B32.lit false 500 (-1)) none).events.map UploadEvent.isCallback = [false, false]
    ∧ (UploadSensorData (SetUploadCallback boardUploader none) (completes 200)
        (B32.lit false 200 (-1)) (B32.lit false 500 (-1)) (some 7)).events.map
          UploadEvent.isCallback = [false, false, true]
    ∧ (UploadSensorData (SetUploadCallback boardUploader (some 1)) (completes 200)
          (B32.lit false 200 (-1)) (B32.lit false 500 (-1)) none).events.filter
            UploadEvent.isCallback = [] :=
  ⟨by decide, by decide, by decide,
    (UploadSensorData_registered_callback_unused boardUploader (completes 200)
      (B32.lit false 200 (-1)) (B32.lit false 500 (-1)) (some 1) none
      (CompactWifiBoardLCD.construct true 1)
      { current_state := DeviceState.kDeviceStateIdle, rx := [], temp := B32.nan,
        humi := B32.nan, env := completes 200 }).2.2.2.2.2.1⟩

theorem gmtime_r_hour (now : Int) :
    0 ≤ (gmtime_r now).tm_hour ∧ (gmtime_r now).tm_hour ≤ 23
    ∧ 0 ≤ (gmtime_r now).tm_min ∧ (gmtime_r now).tm_min ≤ 59
    ∧ 0 ≤ (gmtime_r now).tm_sec ∧ (gmtime_r now).tm_sec ≤ 59
    ∧ 0 ≤ (gmtime_r now).tm_wday ∧ (gmtime_r now).tm_wday ≤ 6 := by
  simp only [gmtime_r]
  omega

theorem gmtime_r_date (t : Int) :
    ((gmtime_r t).tm_year + 1900, (gmtime_r t).tm_mon + 1, (gmtime_r t).tm_mday)
      = civilFromDays (t / 86400) := by
  simp only [gmtime_r, sub_add_cancel]

theorem gmtime_r_wday (t : Int) :
    (gmtime_r t).tm_wday
      = (daysFromCivil ((gmtime_r t).tm_year + 1900) ((gmtime_r t).tm_mon + 1)
          (gmtime_r t).tm_mday + 4) % 7 := by
  have h := (daysFromCivil_civilFromDays (t / 86400)).1
  rw [daysFromCivil_day]
  simp only [gmtime_r, sub_add_cancel]
  rw [h]

theorem hourLoop_ends (now : Int) :
    (hourLoop ((gmtime_r now).tm_hour + 8).toNat
      { gmtime_r now with tm_hour := (gmtime_r now).tm_hour + 8 }).tm_hour < 24 := by
  have hb := gmtime_r_hour now
  have h := hourLoop_once { gmtime_r now with tm_hour := (gmtime_r now).tm_hour + 8 }
    (by show 8 ≤ (gmtime_r now).tm_hour + 8; omega)
    (by show (gmtime_r now).tm_hour + 8 ≤ 31; omega)
  have h2 : hourLoop ((gmtime_r now).tm_hour + 8).toNat
      { gmtime_r now with tm_hour := (gmtime_r now).tm_hour + 8 }
      = if 24 ≤ (gmtime_r now).tm_hour + 8 then
          { gmtime_r now with tm_hour := (gmtime_r now).tm_hour + 8 - 24,
                              tm_mday := (gmtime_r now).tm_mday + 1 }
        else { gmtime_r now with tm_hour := (gmtime_r now).tm_hour + 8 } := h
  rw [h2]
  by_cases h24 : 24 ≤ (gmtime_r now).tm_hour + 8
  · rw [if_pos h24]
    show (gmtime_r now).tm_hour + 8 - 24 < 24
    omega
  · rw [if_neg h24]
    show (gmtime_r now).tm_hour + 8 < 24
    omega

/-- C18.  For every instant `now`, the loop of `UpdateTimerCallback` ends with
an hour below 24, and the callback stores the date, weekday and time strings
of the broken-down time of `now + 8 h` and schedules one render.  In that
broken-down time the hour is `(utc_hour + 8) mod 24`, minute and second are
those of `now`, the date is the calendar date of the UTC day number advanced
by one exactly when `utc_hour >= 16` (the UTC date being that of the day
number itself), and the weekday is the weekday of that date, an index into the
seven names.  The time string is two digits for each of hour, minute and
second, separated by colons; the date string is four, two and two digits
separated by hyphens whenever the year of the adjusted date is within 0..9999. -/
theorem UpdateTimerCallback_plus_eight {F : Type} (s : StandbyScreen F) (now : Int) :
    (hourLoop ((gmtime_r now).tm_hour + 8).toNat
        { gmtime_r now with tm_hour := (gmtime_r now).tm_hour + 8 }).tm_hour < 24
    ∧ UpdateTimerCallback s now
        = ({ s with cached_date_ := formatDate (gmtime_r (now + 28800)),
                    cached_weekday_ :=
                      weekdays.getD (gmtime_r (now + 28800)).tm_wday.toNat [],
                    cached_time_ := formatTime (gmtime_r (now + 28800)) },
           [ScreenEvent.async_call Render.UpdateTimeUI])
    ∧ (gmtime_r (now + 28800)).tm_hour = ((gmtime_r now).tm_hour + 8) % 24
    ∧ (gmtime_r (now + 28800)).tm_min = (gmtime_r now).tm_min
    ∧ (gmtime_r (now + 28800)).tm_sec = (gmtime_r now).tm_sec
    ∧ ((gmtime_r now).tm_year + 1900, (gmtime_r now).tm_mon + 1, (gmtime_r now).tm_mday)
        = civilFromDays (now / 86400)
    ∧ ((gmtime_r (now + 28800)).tm_year + 1900, (gmtime_r (now + 28800)).tm_mon + 1,
        (gmtime_r (now + 28800)).tm_mday)
        = civilFromDays (now / 86400 + (if 16 ≤ (gmtime_r now).tm_hour then 1 else 0))
    ∧ (gmtime_r (now + 28800)).tm_wday
        = (daysFromCivil ((gmtime_r (now + 28800)).tm_year + 1900)
            ((gmtime_r (now + 28800)).tm_mon + 1) (gmtime_r (now + 28800)).tm_mday + 4) % 7
    ∧ (gmtime_r (now + 28800)).tm_wday.toNat < weekdays.length
    ∧ formatTime (gmtime_r (now + 28800))
        = lowDigits 2 (gmtime_r (now + 28800)).tm_hour.toNat
            ++ ':' :: lowDigits 2 (gmtime_r (now + 28800)).tm_min.toNat
            ++ ':' :: lowDigits 2 (gmtime_r (now + 28800)).tm_sec.toNat
    ∧ (0 ≤ (gmtime_r (now + 28800)).tm_year + 1900
        ∧ (gmtime_r (now + 28800)).tm_year + 1900 ≤ 9999 →
        formatDate (gmtime_r (now + 28800))
          = lowDigits 4 ((gmtime_r (now + 28800)).tm_year + 1900).toNat
              ++ '-' :: lowDigits 2 ((gmtime_r (now + 28800)).tm_mon + 1).toNat
              ++ '-' :: lowDigits 2 (gmtime_r (now + 28800)).tm_mday.toNat) := by
  have hshift := gmtime_r_shift now
  have hb := gmtime_r_hour (now + 28800)
  have hdate := gmtime_r_date (now + 28800)
  have hmon := (daysFromCivil_civilFromDays ((now + 28800) / 86400)).2
  have hday := civilFromDays_day ((now + 28800) / 86400)
  have hm : (gmtime_r (now + 28800)).tm_mon + 1 = (civilFromDays ((now + 28800) / 86400)).2.1 :=
    by simp only [gmtime_r, sub_add_cancel]
  have hd : (gmtime_r (now + 28800)).tm_mday = (civilFromDays ((now + 28800) / 86400)).2.2 :=
    rfl
  refine ⟨hourLoop_ends now, ?_, hshift.1, hshift.2.1, hshift.2.2.1, gmtime_r_date now, ?_,
    gmtime_r_wday _, ?_, ?_, ?_⟩
  · simp only [UpdateTimerCallback, adjustedTime_eq, UpdateTime]
  · rw [hdate, hshift.2.2.2]
  · have h7 : weekdays.length = 7 := rfl
    rw [h7]
    omega
  · exact formatTime_shape _ ⟨hb.1, by omega⟩ ⟨hb.2.2.1, by omega⟩ ⟨hb.2.2.2.2.1, by omega⟩
  · intro hy
    exact formatDate_shape _ hy ⟨by omega, by omega⟩ ⟨by omega, by omega⟩

/-- Witness for C18: at 2026-12-31 23:59:59 UTC (`now = 1798761599`) the UTC
hour is 23, so the date rolls over the end of the year: the callback stores
"2027-01-01", the name of Friday and "07:59:59". -/
theorem UpdateTimerCallback_plus_eight_witness :
    (gmtime_r 1798761599).tm_hour = 23
    ∧ civilFromDays (1798761599 / 86400) = (2026, 12, 31)
    ∧ ((UpdateTimerCallback shownScreen 1798761599).1.cached_date_,
        (UpdateTimerCallback shownScreen 1798761599).1.cached_weekday_,
        (UpdateTimerCallback shownScreen 1798761599).1.cached_time_)
        = ("2027-01-01".toList, cText "周五", "07:59:59".toList)
    ∧ formatDate (gmtime_r (1798761599 + 28800))
        = lowDigits 4 ((gmtime_r (1798761599 + 28800)).tm_year + 1900).toNat
            ++ '-' :: lowDigits 2 ((gmtime_r (1798761599 + 28800)).tm_mon + 1).toNat
            ++ '-' :: lowDigits 2 (gmtime_r (1798761599 + 28800)).tm_mday.toNat :=
  ⟨by decide, by decide, by decide,
    (UpdateTimerCallback_plus_eight shownScreen 1798761599).2.2.2.2.2.2.2.2.2.2
      ⟨by decide, by decide⟩⟩

/-! ## The standby screen: `Show` and `Hide` -/

theorem Show_visible {F : Type} (s : StandbyScreen F) : (Show s).1.is_visible_ = true := by
  unfold Show
  cases hv : s.is_visible_ with
  | true => simpa using hv
  | false =>
    simp only [Bool.false_eq_true, if_false, startTimer]
    split <;> rfl

theorem Hide_hidden {F : Type} (s : StandbyScreen F) : (Hide s).1.is_visible_ = false := by
  unfold Hide
  cases hv : s.is_visible_ with
  | true => simp
  | false => simpa using hv

theorem Show_of_visible {F : Type} (s : StandbyScreen F) (h : s.is_visible_ = true) :
    Show s = (s, []) := by
  simp [Show, h]

theorem Hide_of_hidden {F : Type} (s : StandbyScreen F) (h : s.is_visible_ = false) :
    Hide s = (s, []) := by
  simp [Hide, h]

theorem CreateUI_creates {F : Type} (s : StandbyScreen F) :
    ((CreateUI s).2.filter ScreenEvent.isCreate).length ≤ 8
    ∧ (CreateUI s).2.filter ScreenEvent.isTimerStart = [] := by
  unfold CreateUI
  by_cases h : s.container_ ≠ none
  · rw [if_pos h]
    exact ⟨Nat.zero_le _, rfl⟩
  · rw [if_neg h]
    exact ⟨le_refl _, rfl⟩

theorem Show_effects {F : Type} (s : StandbyScreen F) :
    ((Show s).2.filter ScreenEvent.isCreate).length ≤ 8
    ∧ ((Show s).2.filter ScreenEvent.isTimerStart).length ≤ 1 := by
  unfold Show
  cases hv : s.is_visible_ with
  | true => simp
  | false =>
    have hc := CreateUI_creates s
    simp only [Bool.false_eq_true, if_false, List.filter_append, hc.2, List.nil_append]
    constructor
    · split <;> simpa [ScreenEvent.isCreate] using hc.1
    · split <;> simp [ScreenEvent.isTimerStart]

/-- C15.  `Show` and `Hide` are idempotent on the screen state: for every
state, a second `Show()` right after a `Show()` returns the state unchanged
and has no effect at all, so the two calls together leave the state of one
`Show()` and have the effects of one `Show()`: at most one widget tree (eight
creations) and one arming of the timer; and a second `Hide()` right after a
`Hide()` returns the state unchanged and has no effect. -/
theorem Show_Hide_idempotent {F : Type} (s : StandbyScreen F) :
    Show (Show s).1 = ((Show s).1, [])
    ∧ (Show s).2 ++ (Show (Show s).1).2 = (Show s).2
    ∧ (((Show s).2 ++ (Show (Show s).1).2).filter ScreenEvent.isCreate).length ≤ 8
    ∧ (((Show s).2 ++ (Show (Show s).1).2).filter ScreenEvent.isTimerStart).length ≤ 1
    ∧ Hide (Hide s).1 = ((Hide s).1, [])
    ∧ (Hide s).2 ++ (Hide (Hide s).1).2 = (Hide s).2 := by
  have hs := Show_of_visible _ (Show_visible s)
  have hh := Hide_of_hidden _ (Hide_hidden s)
  refine ⟨hs, ?_, ?_, ?_, hh, ?_⟩
  · rw [hs, List.append_nil]
  · rw [hs, List.append_nil]
    exact (Show_effects s).1
  · rw [hs, List.append_nil]
    exact (Show_effects s).2
  · rw [hh, List.append_nil]

/-- Witness for C15 on binary32: the first `Show()` of a constructed screen
creates the eight widgets, fades the container in and starts the timer; the
second `Show()` does nothing. -/
theorem Show_Hide_idempotent_witness :
    (Show (StandbyScreen.construct true : StandbyScreen B32)).2.map ScreenEvent.isCreate
        = [true, true, true, true, true, true, true, true, false, false]
    ∧ (Show (StandbyScreen.construct true : StandbyScreen B32)).2.map ScreenEvent.isTimerStart
        = [false, false, false, false, false, false, false, false, false, true]
    ∧ (Show shownScreen).2 = []
    ∧ (Hide shownScreen).2 = [ScreenEvent.timer_stop, ScreenEvent.del (some Widget.container)]
    ∧ Hide (Hide shownScreen).1 = ((Hide shownScreen).1, []) :=
  ⟨by decide, by decide, by decide, by decide,
    (Show_Hide_idempotent shownScreen).2.2.2.2.1⟩

/-! ## The standby screen: the widget pointers -/

theorem ScreenInv_construct {F : Type} [FloatOps F] (timer_ok : Bool) :
    ScreenInv (StandbyScreen.construct timer_ok : StandbyScreen F) := by
  simp [ScreenInv, StandbyScreen.construct]

theorem ScreenInv_CreateUI {F : Type} (s : StandbyScreen F) (h : ScreenInv s) :
    ScreenInv (CreateUI s).1 := by
  unfold CreateUI
  by_cases hc : s.container_ ≠ none
  · rw [if_pos hc]
    exact h
  · rw [if_neg hc]
    simp [ScreenInv]

theorem ScreenInv_DestroyUI {F : Type} (s : StandbyScreen F) (h : ScreenInv s) :
    ScreenInv (DestroyUI s).1 := by
  unfold DestroyUI
  by_cases hc : s.container_ ≠ none
  · rw [if_pos hc]
    simp [ScreenInv]
  · rw [if_neg hc]
    exact h

theorem ScreenInv_Show {F : Type} (s : StandbyScreen F) (h : ScreenInv s) :
    ScreenInv (Show s).1 := by
  unfold Show
  cases hv : s.is_visible_ with
  | true => simpa using h
  | false =>
    have hc := ScreenInv_CreateUI s h
    simp only [Bool.false_eq_true, if_false, startTimer]
    split <;> exact hc

theorem ScreenInv_Hide {F : Type} (s : StandbyScreen F) (h : ScreenInv s) :
    ScreenInv (Hide s).1 := by
  unfold Hide
  cases hv : s.is_visible_ with
  | false => simpa using h
  | true =>
    have hd := ScreenInv_DestroyUI (stopTimer s) h
    simpa using hd

theorem ScreenInv_run {F : Type} [FloatRender F] (s : StandbyScreen F) (c : ScreenCall F)
    (h : ScreenInv s) : ScreenInv (ScreenCall.run s c).1 := by
  cases c with
  | Show => exact ScreenInv_Show s h
  | Hide => exact ScreenInv_Hide s h
  | UpdateTime date weekday time => exact h
  | UpdateTimeUI =>
    show ScreenInv (UpdateTimeUI s).1
    unfold UpdateTimeUI
    split <;> exact h
  | UpdateTemperatureHumidity temperature humidity =>
    show ScreenInv (UpdateTemperatureHumidity s temperature humidity).1
    unfold UpdateTemperatureHumidity
    simp only
    split <;> exact h
  | UpdateTemperatureHumidityUI =>
    show ScreenInv (UpdateTemperatureHumidityUI s).1
    unfold UpdateTemperatureHumidityUI
    split <;> exact h
  | StartUpdate =>
    show ScreenInv (StartUpdate s).1
    unfold StartUpdate startTimer
    split <;> exact h
  | StopUpdate =>
    show ScreenInv (StopUpdate s).1
    unfold StopUpdate stopTimer
    split <;> exact h
  | UpdateTimerCallback now => exact h

theorem ScreenReachable_inv {F : Type} [FloatRender F] (s : StandbyScreen F)
    (h : ScreenReachable s) : ScreenInv s := by
  induction h with
  | construct timer_ok => exact ScreenInv_construct timer_ok
  | call s c _ ih => exact ScreenInv_run s c ih

theorem UpdateTimeUI_hidden {F : Type} (s : StandbyScreen F) (h : s.is_visible_ = false) :
    UpdateTimeUI s = (s, []) := by
  simp [UpdateTimeUI, h]

theorem UpdateTemperatureHumidityUI_hidden {F : Type} [FloatRender F] (s : StandbyScreen F)
    (h : s.is_visible_ = false) : UpdateTemperatureHumidityUI s = (s, []) := by
  simp [UpdateTemperatureHumidityUI, h]

theorem UpdateTemperatureHumidity_hidden {F : Type} (s : StandbyScreen F)
    (temperature humidity : F) (h : s.is_visible_ = false) :
    UpdateTemperatureHumidity s temperature humidity
      = ({ s with current_temperature_ := temperature, current_humidity_ := humidity }, []) := by
  simp [UpdateTemperatureHumidity, h]

theorem UpdateTimeUI_pointers {F : Type} (s : StandbyScreen F) (h : ScreenInv s)
    (e : ScreenEvent) (he : e ∈ (UpdateTimeUI s).2) :
    s.is_visible_ = true ∧ ∃ w, e.pointer = some (some w) := by
  unfold UpdateTimeUI at he
  by_cases hg : s.is_visible_ = false ∨ s.date_label_ = none
  · rw [if_pos hg] at he
    cases he
  · rw [if_neg hg] at he
    have hv : s.is_visible_ = true := by
      cases hvis : s.is_visible_ with
      | true => rfl
      | false => exact absurd (Or.inl hvis) hg
    have hdate : s.date_label_ ≠ none := fun hn => hg (Or.inr hn)
    have hcont : s.container_ ≠ none := fun hn => hdate (h.1.mpr hn)
    have hweek : s.weekday_label_ ≠ none := fun hn => hcont (h.2.1.mp hn)
    have htime : s.time_label_ ≠ none := fun hn => hcont (h.2.2.1.mp hn)
    obtain ⟨w1, h1⟩ := Option.ne_none_iff_exists'.mp hdate
    obtain ⟨w2, h2⟩ := Option.ne_none_iff_exists'.mp hweek
    obtain ⟨w3, h3⟩ := Option.ne_none_iff_exists'.mp htime
    refine ⟨hv, ?_⟩
    simp only [List.mem_cons, List.mem_singleton, List.not_mem_nil, or_false] at he
    rcases he with he | he | he
    · exact ⟨w1, by rw [he, h1]; rfl⟩
    · exact ⟨w2, by rw [he, h2]; rfl⟩
    · exact ⟨w3, by rw [he, h3]; rfl⟩

theorem UpdateTemperatureHumidityUI_pointers {F : Type} [FloatRender F] (s : StandbyScreen F)
    (h : ScreenInv s) (e : ScreenEvent) (he : e ∈ (UpdateTemperatureHumidityUI s).2) :
    s.is_visible_ = true ∧ ∃ w, e.pointer = some (some w) := by
  unfold UpdateTemperatureHumidityUI at he
  by_cases hg : s.is_visible_ = false ∨ s.temperature_label_ = none
  · rw [if_pos hg] at he
    cases he
  · rw [if_neg hg] at he
    have hv : s.is_visible_ = true := by
      cases hvis : s.is_visible_ with
      | true => rfl
      | false => exact absurd (Or.inl hvis) hg
    have htemp : s.temperature_label_ ≠ none := fun hn => hg (Or.inr hn)
    have hcont : s.container_ ≠ none := fun hn => htemp (h.2.2.2.1.mpr hn)
    have hhum : s.humidity_label_ ≠ none := fun hn => hcont (h.2.2.2.2.mp hn)
    obtain ⟨w1, h1⟩ := Option.ne_none_iff_exists'.mp htemp
    obtain ⟨w2, h2⟩ := Option.ne_none_iff_exists'.mp hhum
    refine ⟨hv, ?_⟩
    simp only [List.mem_append, List.mem_singleton] at he
    rcases he with ((he | he) | he) | he
    · split at he
      · cases he
      · simp only [List.mem_singleton] at he
        exact ⟨w1, by rw [he, h1]; rfl⟩
    · exact ⟨w1, by rw [he, h1]; rfl⟩
    · split at he
      · cases he
      · simp only [List.mem_singleton] at he
        exact ⟨w2, by rw [he, h2]; rfl⟩
    · exact ⟨w2, by rw [he, h2]; rfl⟩

/-- C17.  A freshly constructed screen and a screen after `Hide()` are hidden,
and on a hidden screen `UpdateTemperatureHumidity(t, h)` stores `t` and `h` in
the cached fields and schedules no render.  In every reachable state of the
screen, every event of `UpdateTimeUI` and of `UpdateTemperatureHumidityUI`
passes a widget pointer, the screen is visible when there is such an event,
and the pointer is not null; the two functions leave the object unchanged.  A
render that runs after `Hide()` is skipped: it has no event at all. -/
theorem render_only_when_visible {F : Type} [FloatRender F] (s : StandbyScreen F)
    (temperature humidity : F) (hr : ScreenReachable s) :
    (∀ timer_ok : Bool,
        UpdateTemperatureHumidity (StandbyScreen.construct timer_ok : StandbyScreen F)
            temperature humidity
          = ({ (StandbyScreen.construct timer_ok : StandbyScreen F) with
                current_temperature_ := temperature, current_humidity_ := humidity }, []))
    ∧ UpdateTemperatureHumidity (Hide s).1 temperature humidity
        = ({ (Hide s).1 with
              current_temperature_ := temperature, current_humidity_ := humidity }, [])
    ∧ (s.is_visible_ = false →
        UpdateTemperatureHumidity s temperature humidity
          = ({ s with current_temperature_ := temperature, current_humidity_ := humidity }, []))
    ∧ (∀ e ∈ (UpdateTimeUI s).2 ++ (UpdateTemperatureHumidityUI s).2,
        s.is_visible_ = true ∧ ∃ w, e.pointer = some (some w))
    ∧ (UpdateTimeUI s).1 = s
    ∧ (UpdateTemperatureHumidityUI s).1 = s
    ∧ UpdateTimeUI (Hide s).1 = ((Hide s).1, [])
    ∧ UpdateTemperatureHumidityUI (Hide s).1 = ((Hide s).1, []) := by
  have hinv := ScreenReachable_inv s hr
  refine ⟨fun timer_ok => UpdateTemperatureHumidity_hidden _ _ _ rfl,
    UpdateTemperatureHumidity_hidden _ _ _ (Hide_hidden s),
    UpdateTemperatureHumidity_hidden s _ _, ?_, ?_, ?_,
    UpdateTimeUI_hidden _ (Hide_hidden s),
    UpdateTemperatureHumidityUI_hidden _ (Hide_hidden s)⟩
  · intro e he
    rcases List.mem_append.mp he with he | he
    · exact UpdateTimeUI_pointers s hinv e he
    · exact UpdateTemperatureHumidityUI_pointers s hinv e he
  · unfold UpdateTimeUI
    split <;> rfl
  · unfold UpdateTemperatureHumidityUI
    split <;> rfl

/-- Witness for C17 on binary32: the screen after construction and `Show()`
is reachable and visible; there `UpdateTemperatureHumidity(23.5, 40.0)`
schedules a render, which sets the colour and the text of the temperature
label and of the humidity label; after `Hide()` the same update schedules
nothing and the render is skipped. -/
theorem render_only_when_visible_witness :
    shownScreen.is_visible_ = true
    ∧ (UpdateTemperatureHumidity shownScreen (B32.lit false 235 (-1))
        (B32.lit false 400 (-1))).2
        = [ScreenEvent.async_call Render.UpdateTemperatureHumidityUI]
    ∧ (UpdateTemperatureHumidityUI
        (UpdateTemperatureHumidity shownScreen (B32.lit false 235 (-1))
          (B32.lit false 400 (-1))).1).2.map ScreenEvent.pointer
        = [some (some Widget.temperature_label), some (some Widget.temperature_label),
           some (some Widget.humidity_label), some (some Widget.humidity_label)]
    ∧ (UpdateTemperatureHumidity (Hide shownScreen).1 (B32.lit false 235 (-1))
        (B32.lit false 400 (-1))).2 = []
    ∧ UpdateTemperatureHumidityUI (Hide shownScreen).1 = ((Hide shownScreen).1, []) :=
  ⟨by decide, by decide, by decide, by decide,
    (render_only_when_visible shownScreen (B32.lit false 235 (-1)) (B32.lit false 400 (-1))
      (ScreenReachable.call _ ScreenCall.Show (ScreenReachable.construct true))).2.2.2.2.2.2.2⟩

/-! ## The standby screen: the colour of the temperature -/

theorem B32_lit_20 : B32.lit false 200 (-1) = B32.fin false 10485760 (-19) := by decide

theorem B32_lit_30 : B32.lit false 300 (-1) = B32.fin false 15728640 (-19) := by decide

theorem B32_scaled_20_30 :
    B32.scaled false 10485760 (-19) < B32.scaled false 15728640 (-19) := by decide

/-- The three conditions of the colour policy on binary32: two of them never
hold together, and one of them holds for every value that is not a NaN. -/
theorem B32_trichotomy (t : B32) :
    (B32.lt t (B32.lit false 200 (-1)) = true →
      B32.le (B32.lit false 200 (-1)) t = false ∧ B32.lt (B32.lit false 300 (-1)) t = false)
    ∧ (B32.le (B32.lit false 200 (-1)) t = true → B32.lt t (B32.lit false 200 (-1)) = false)
    ∧ (B32.le t (B32.lit false 300 (-1)) = true → B32.lt (B32.lit false 300 (-1)) t = false)
    ∧ (B32.lt (B32.lit false 300 (-1)) t = true →
        B32.lt t (B32.lit false 200 (-1)) = false ∧ B32.le t (B32.lit false 300 (-1)) = false)
    ∧ (B32.isnan t = false →
        B32.lt t (B32.lit false 200 (-1)) = true
        ∨ (B32.le (B32.lit false 200 (-1)) t = true ∧ B32.le t (B32.lit false 300 (-1)) = true)
        ∨ B32.lt (B32.lit false 300 (-1)) t = true) := by
  rw [B32_lit_20, B32_lit_30]
  have h := B32_scaled_20_30
  cases t with
  | nan => simp [B32.lt, B32.le, B32.isnan]
  | inf b => cases b <;> simp [B32.lt, B32.le, B32.isnan]
  | fin n m e =>
    simp only [B32.lt, B32.le, B32.isnan, decide_eq_true_eq, decide_eq_false_iff_not]
    generalize B32.scaled n m e = x at *
    generalize B32.scaled false 10485760 (-19) = a at *
    generalize B32.scaled false 15728640 (-19) = b at *
    omega

theorem temperatureColor_cold (t : B32) (h : B32.lt t (B32.lit false 200 (-1)) = true) :
    temperatureColor t = 0x2196F3 := by
  have h2 : FloatOps.lt t (FloatOps.lit false 200 (-1) : B32) = true := h
  simp only [temperatureColor, h2, if_true]

theorem temperatureColor_hot (t : B32) (h : B32.lt (B32.lit false 300 (-1)) t = true) :
    temperatureColor t = 0xF44336 := by
  have h1 : FloatOps.lt t (FloatOps.lit false 200 (-1) : B32) = false :=
    ((B32_trichotomy t).2.2.2.1 h).1
  have h2 : FloatRender.le t (FloatOps.lit false 300 (-1) : B32) = false :=
    ((B32_trichotomy t).2.2.2.1 h).2
  simp [temperatureColor, h1, h2]

theorem temperatureColor_warm (t : B32) (h20 : B32.le (B32.lit false 200 (-1)) t = true)
    (h30 : B32.le t (B32.lit false 300 (-1)) = true) :
    temperatureColor t
      = lv_color_make 0xFF
          (B32.toUInt8 (B32.add (B32.ofInt 0xEB)
            (B32.mul (B32.ofInt (0x57 - 0xEB))
              (B32.div (B32.sub t (B32.lit false 200 (-1))) (B32.lit false 100 (-1))))))
          (B32.toUInt8 (B32.add (B32.ofInt 0x3B)
            (B32.mul (B32.ofInt (0x22 - 0x3B))
              (B32.div (B32.sub t (B32.lit false 200 (-1))) (B32.lit false 100 (-1)))))) := by
  have h1 : FloatOps.lt t (FloatOps.lit false 200 (-1) : B32) = false :=
    (B32_trichotomy t).2.1 h20
  have h2 : FloatRender.le (FloatOps.lit false 200 (-1) : B32) t = true := h20
  have h3 : FloatRender.le t (FloatOps.lit false 300 (-1) : B32) = true := h30
  simp only [temperatureColor, h1, h2, h3, Bool.and_self, if_true, Bool.false_eq_true, if_false]
  rfl

/-- C16.  On binary32, for a visible screen whose temperature label exists:
when the stored temperature is a NaN, `UpdateTemperatureHumidityUI` sets the
text of the temperature label to the placeholder "--.-°C" and every further
event is on the humidity label, so no text colour is applied to the
temperature; otherwise it first sets the text colour of the temperature label
to `temperatureColor t` and then its text to the `%.1f` text of `t` followed
by "°C".  That colour follows the policy: `t < 20.0` gives 0x2196F3;
`20.0 <= t <= 30.0` gives red 0xFF, green `0xEB + (0x57 - 0xEB) * r` and blue
`0x3B + (0x22 - 0x3B) * r` with `r = (t - 20) / 10`, computed in binary32 and
each cut to an 8-bit integer; `t > 30.0` gives 0xF44336; one of the three
cases holds for every `t` that is not a NaN; `t = 20.0` gives 0xFFEB3B and
`t = 30.0` gives 0xFF5722. -/
theorem UpdateTemperatureHumidityUI_colour (s : StandbyScreen B32)
    (hv : s.is_visible_ = true) (hl : s.temperature_label_ ≠ none) :
    (B32.isnan s.current_temperature_ = true →
        (UpdateTemperatureHumidityUI s).2.take 1
            = [ScreenEvent.set_text s.temperature_label_ (cText "--.-°C")]
        ∧ ∀ e ∈ (UpdateTemperatureHumidityUI s).2.drop 1,
            e.pointer = some s.humidity_label_)
    ∧ (B32.isnan s.current_temperature_ = false →
        (UpdateTemperatureHumidityUI s).2.take 2
          = [ScreenEvent.set_text_color s.temperature_label_
                (temperatureColor s.current_temperature_),
             ScreenEvent.set_text s.temperature_label_
                (snprintf 32 (B32.format1 s.current_temperature_ ++ cText "°C"))])
    ∧ (∀ t : B32, B32.lt t (B32.lit false 200 (-1)) = true → temperatureColor t = 0x2196F3)
    ∧ (∀ t : B32, B32.le (B32.lit false 200 (-1)) t = true →
        B32.le t (B32.lit false 300 (-1)) = true →
        temperatureColor t
          = lv_color_make 0xFF
              (B32.toUInt8 (B32.add (B32.ofInt 0xEB)
                (B32.mul (B32.ofInt (0x57 - 0xEB))
                  (B32.div (B32.sub t (B32.lit false 200 (-1))) (B32.lit false 100 (-1))))))
              (B32.toUInt8 (B32.add (B32.ofInt 0x3B)
                (B32.mul (B32.ofInt (0x22 - 0x3B))
                  (B32.div (B32.sub t (B32.lit false 200 (-1))) (B32.lit false 100 (-1)))))))
    ∧ (∀ t : B32, B32.lt (B32.lit false 300 (-1)) t = true → temperatureColor t = 0xF44336)
    ∧ (∀ t : B32, B32.isnan t = false →
        B32.lt t (B32.lit false 200 (-1)) = true
        ∨ (B32.le (B32.lit false 200 (-1)) t = true ∧ B32.le t (B32.lit false 300 (-1)) = true)
        ∨ B32.lt (B32.lit false 300 (-1)) t = true)
    ∧ B32.div (B32.sub (B32.lit false 200 (-1)) (B32.lit false 200 (-1)))
        (B32.lit false 100 (-1)) = B32.lit false 0 0
    ∧ temperatureColor (B32.lit false 200 (-1)) = 0xFFEB3B
    ∧ B32.div (B32.sub (B32.lit false 300 (-1)) (B32.lit false 200 (-1)))
        (B32.lit false 100 (-1)) = B32.lit false 1 0
    ∧ temperatureColor (B32.lit false 300 (-1)) = 0xFF5722 := by
  have hguard : ¬ (s.is_visible_ = false ∨ s.temperature_label_ = none) := by
    rw [hv]
    simp [hl]
  refine ⟨?_, ?_, temperatureColor_cold, temperatureColor_warm, temperatureColor_hot,
    fun t => (B32_trichotomy t).2.2.2.2, by decide, by decide, by decide, by decide⟩
  · intro hnan
    have hnan2 : FloatOps.isnan s.current_temperature_ = true := hnan
    have hbuf : snprintf 32 (cText "--.-°C") = cText "--.-°C" := by decide
    unfold UpdateTemperatureHumidityUI
    rw [if_neg hguard]
    simp only [hnan2, if_true, hbuf, List.nil_append, List.singleton_append, List.cons_append,
      List.take_succ_cons, List.take_zero, List.drop_succ_cons, List.drop_zero, true_and]
    intro e he
    rcases List.mem_append.mp he with he | he
    · split at he
      · cases he
      · simp only [List.mem_singleton] at he
        rw [he]
        rfl
    · simp only [List.mem_singleton] at he
      rw [he]
      rfl
  · intro hnan
    have hnan2 : FloatOps.isnan s.current_temperature_ = false := hnan
    unfold UpdateTemperatureHumidityUI
    rw [if_neg hguard]
    simp only [hnan2, Bool.false_eq_true, if_false, List.singleton_append, List.cons_append,
      List.take_succ_cons, List.take_zero]
    rfl

/-- Witness for C16: the shown screen with the stored temperature 25.0 sets
the colour 0xFFA12E (ratio 0.5: green 235 - 74 = 161, blue 59 - 12.5 cut to
46) and the text "25.0°C"; with a NaN it sets the placeholder text only. -/
theorem UpdateTemperatureHumidityUI_colour_witness :
    (UpdateTemperatureHumidityUI
        { shownScreen with current_temperature_ := B32.lit false 250 (-1) }).2.take 2
      = [ScreenEvent.set_text_color (some Widget.temperature_label) 0xFFA12E,
         ScreenEvent.set_text (some Widget.temperature_label) (cText "25.0°C")]
    ∧ (UpdateTemperatureHumidityUI shownScreen).2
      = [ScreenEvent.set_text (some Widget.temperature_label) (cText "--.-°C"),
         ScreenEvent.set_text (some Widget.humidity_label) (cText "--.-%")]
    ∧ (UpdateTemperatureHumidityUI shownScreen).2.take 1
      = [ScreenEvent.set_text shownScreen.temperature_label_ (cText "--.-°C")] :=
  ⟨by decide, by decide,
    ((UpdateTemperatureHumidityUI_colour shownScreen (by decide) (by decide)).1
      (by decide)).1⟩

/-! ## Readings that spell NaN or infinity -/

/-- The `%f` conversion on the spellings of NaN and infinity: the complete
word is the token, in any letter case and after a sign; an incomplete word
converts nothing; `infinite` gives the token `inf`. -/
theorem scanFloat_words :
    scanFloat "nanRH 023.3C".toList = some "nan".toList
    ∧ scanFloat " -NaN".toList = some "-NaN".toList
    ∧ scanFloat "+Infinity%".toList = some "+Infinity".toList
    ∧ scanFloat "infinite".toList = some "inf".toList
    ∧ scanFloat "naRH".toList = none
    ∧ scanFloat "in".toList = none
    ∧ scanFloat "0nan".toList = some "0".toList
    ∧ B32.strtof "-NaN".toList = B32.nan
    ∧ B32.strtof "+Infinity".toList = B32.inf false
    ∧ B32.strtof "-inf".toList = B32.inf true := by
  decide

/-- A line whose humidity field spells a NaN is a reading: `ReadData` returns
`true` with `(22.3, NaN)` and caches that pair; after two decimal lines it is
the last line that parses, so its values are the result. -/
theorem ReadData_nan_line :
    ReadData boardSensor "R:nanRH 023.3C\n".toList B32.nan B32.nan
      = { ok := true, temperature := B32.lit false 223 (-1), humidity := B32.nan,
          sensor := cached boardSensor (B32.lit false 223 (-1), B32.nan) }
    ∧ ReadData boardSensor
        "R:039.2RH 023.3C\nR:041.0RH 025.0C\nR:nanRH 030.0C\n".toList B32.nan B32.nan
      = { ok := true, temperature := B32.lit false 290 (-1), humidity := B32.nan,
          sensor := cached boardSensor (B32.lit false 290 (-1), B32.nan) }
    ∧ ReadData boardSensor "R:039.2RH 023.3C\nR:nanRH 023.3C\n".toList B32.nan B32.nan
      = { ok := true, temperature := B32.lit false 223 (-1), humidity := B32.nan,
          sensor := cached boardSensor (B32.lit false 223 (-1), B32.nan) } := by
  decide

/-- A tick with such a line is a tick with a successful read: the board
pushes `(22.3, NaN)` to the screen, caches it and counts the read; the 60th
such tick calls `UploadSensorData(22.3, NaN, nullptr)`, which refuses the NaN. -/
theorem CheckDeviceState_nan_line :
    tickReadOk board (nanTick DeviceState.kDeviceStateIdle) = true
    ∧ (CheckDeviceState board (nanTick DeviceState.kDeviceStateIdle)).2.filter
          BoardEvent.isDisplayUpdate
        = [BoardEvent.UpdateStandbyTemperatureHumidity (B32.lit false 223 (-1)) B32.nan]
    ∧ (CheckDeviceState board (nanTick DeviceState.kDeviceStateIdle)).1.upload_counter_ = 1
    ∧ (CheckDeviceState board (nanTick DeviceState.kDeviceStateIdle)).1.sht30_sensor_
        = some (cached boardSensor (B32.lit false 223 (-1), B32.nan))
    ∧ ((runTicks board (List.replicate 60 (nanTick DeviceState.kDeviceStateIdle))).2.map
          (fun events => events.filter BoardEvent.isUploadCall)).getLast?
        = some [BoardEvent.UploadSensorData (B32.lit false 223 (-1)) B32.nan none]
    ∧ (runTicks board
        (List.replicate 60 (nanTick DeviceState.kDeviceStateIdle))).1.upload_counter_ = 0 :=
  ⟨by decide, rfl, by decide, by decide, rfl, by decide⟩

end Xiaozhi
